import Mathlib

/-!
Verification of the 2048 board engine in `src/src/lib.rs` (crate `r2048`).

The board is the flat 16-cell row-major array `[T; 16]` of the source,
embedded as a function `Fin 16 → Nat` (cell value = tile exponent, `0` =
empty).  Randomness (`rand::thread_rng`) is made explicit: the
rejection-sampling loops receive the stream of indices drawn by
`rng.gen_range(0, 16)` as a `List (Fin 16)` parameter and return `none`
when the stream is exhausted without an acceptable index (modelling a
non-terminating loop), and each `gen_bool(0.5)` outcome is a `Bool`
parameter.  Rust panics (out-of-bounds indexing, bad input length, bad
action code) are modelled as `none`.
-/

namespace R2048

/-- The board `[T; 16]` of the source, one exponent per cell, row-major. -/
abbrev Board : Type := Fin 16 → Nat

/-- The 16 cells in order (`self.iter()` / array equality in the source). -/
def cells (s : Board) : List Nat :=
  [s 0, s 1, s 2, s 3, s 4, s 5, s 6, s 7,
   s 8, s 9, s 10, s 11, s 12, s 13, s 14, s 15]

/-- A board holding the given 16 cell values (the python-facing encoding). -/
def boardOfList (l : List Nat) : Board := fun i => l.getD i.val 0

/-- `self.swap(i, j)` on the board array. -/
def swapCells (i j : Fin 16) (s : Board) : Board :=
  Function.update (Function.update s i (s j)) j (s i)

/-- `if self[p2].is_zero() { self.swap(p2, p3) }`: first conditional of a
slide loop body (`p0` is the cell at the target edge of the line). -/
def slideStep1 (p2 p3 : Fin 16) (s : Board) : Board :=
  if s p2 = 0 then swapCells p2 p3 s else s

/-- `if self[p1].is_zero() { swap(p1,p2); swap(p2,p3) }`. -/
def slideStep2 (p1 p2 p3 : Fin 16) (s : Board) : Board :=
  if s p1 = 0 then swapCells p2 p3 (swapCells p1 p2 s) else s

/-- `if self[p0].is_zero() { swap(p0,p1); swap(p1,p2); swap(p2,p3) }`. -/
def slideStep3 (p0 p1 p2 p3 : Fin 16) (s : Board) : Board :=
  if s p0 = 0 then swapCells p2 p3 (swapCells p1 p2 (swapCells p0 p1 s)) else s

/-- One slide loop iteration on the line `(p0,p1,p2,p3)`, `p0` at the
target edge.  For `slide_left` and base `b` this is `(b, b+1, b+2, b+3)`. -/
def slideLine (p0 p1 p2 p3 : Fin 16) (s : Board) : Board :=
  slideStep3 p0 p1 p2 p3 (slideStep2 p1 p2 p3 (slideStep1 p2 p3 s))

/-- `slide_left`: bases 0, 4, 8, 12; lines `(b, b+1, b+2, b+3)`. -/
def slide_left (s : Board) : Board :=
  slideLine 12 13 14 15 (slideLine 8 9 10 11 (slideLine 4 5 6 7 (slideLine 0 1 2 3 s)))

/-- `slide_right`: bases 3, 7, 11, 15; lines `(b, b-1, b-2, b-3)`. -/
def slide_right (s : Board) : Board :=
  slideLine 15 14 13 12 (slideLine 11 10 9 8 (slideLine 7 6 5 4 (slideLine 3 2 1 0 s)))

/-- `slide_up`: bases 0, 1, 2, 3; lines `(b, b+4, b+8, b+12)`. -/
def slide_up (s : Board) : Board :=
  slideLine 3 7 11 15 (slideLine 2 6 10 14 (slideLine 1 5 9 13 (slideLine 0 4 8 12 s)))

/-- `slide_down`: bases 12, 13, 14, 15; lines `(b, b-4, b-8, b-12)`. -/
def slide_down (s : Board) : Board :=
  slideLine 15 11 7 3 (slideLine 14 10 6 2 (slideLine 13 9 5 1 (slideLine 12 8 4 0 s)))

/-- `if self[i] == self[j] && !self[i].is_zero() { self[i] += 1; self[j] = 0 }`:
one adjacent-pair merge, `i` the cell nearer the target edge. -/
def mergePair (i j : Fin 16) (s : Board) : Board :=
  if s i = s j ∧ s i ≠ 0 then Function.update (Function.update s i (s i + 1)) j 0
  else s

/-- One merge loop iteration: pairs `(p0,p1)`, `(p1,p2)`, `(p2,p3)` in order
from the target edge, each reading the current (already updated) cells. -/
def mergeLine (p0 p1 p2 p3 : Fin 16) (s : Board) : Board :=
  mergePair p2 p3 (mergePair p1 p2 (mergePair p0 p1 s))

/-- `merge_left`: bases 0, 4, 8, 12; lines `(b, b+1, b+2, b+3)`. -/
def merge_left (s : Board) : Board :=
  mergeLine 12 13 14 15 (mergeLine 8 9 10 11 (mergeLine 4 5 6 7 (mergeLine 0 1 2 3 s)))

/-- `merge_right`: bases 3, 7, 11, 15; lines `(b, b-1, b-2, b-3)`. -/
def merge_right (s : Board) : Board :=
  mergeLine 15 14 13 12 (mergeLine 11 10 9 8 (mergeLine 7 6 5 4 (mergeLine 3 2 1 0 s)))

/-- `merge_up`: bases 0, 1, 2, 3; lines `(b, b+4, b+8, b+12)`. -/
def merge_up (s : Board) : Board :=
  mergeLine 3 7 11 15 (mergeLine 2 6 10 14 (mergeLine 1 5 9 13 (mergeLine 0 4 8 12 s)))

/-- `merge_down`: bases 12, 13, 14, 15; lines `(b, b-4, b-8, b-12)`. -/
def merge_down (s : Board) : Board :=
  mergeLine 15 11 7 3 (mergeLine 14 10 6 2 (mergeLine 13 9 5 1 (mergeLine 12 8 4 0 s)))

/-- The `Action` enum. -/
inductive Action : Type
  | Up
  | Down
  | Left
  | Right
deriving DecidableEq

/-- The slide routine selected by the `match act` of `advance_state`. -/
def slideOf : Action → Board → Board
  | Action.Up => slide_up
  | Action.Down => slide_down
  | Action.Left => slide_left
  | Action.Right => slide_right

/-- The merge routine selected by the `match act` of `advance_state`. -/
def mergeOf : Action → Board → Board
  | Action.Up => merge_up
  | Action.Down => merge_down
  | Action.Left => merge_left
  | Action.Right => merge_right

/-- The slide–merge–slide sequence of `advance_state` for one action. -/
def moveBoard (s : Board) (act : Action) : Board :=
  slideOf act (mergeOf act (slideOf act s))

/-- `add_random_tile`: `rs` is the stream of indices drawn by
`rng.gen_range(0, 16)` (rejection-sampled until an empty cell is hit),
`coin` the `rng.gen_bool(0.5)` outcome (`true` ↦ exponent 1, `false` ↦ 2).
`none` models a stream that never hits an empty cell (the loop spins). -/
def add_random_tile (s : Board) : List (Fin 16) → Bool → Option Board
  | [], _ => none
  | i :: rest, coin =>
    if s i ≠ 0 then add_random_tile s rest coin
    else some (Function.update s i (if coin then 1 else 2))

/-- The `game_over` computation of `advance_state` on the post-spawn board:
every cell non-zero, and a `merge_left` pass and a `merge_up` pass on
copies both leave the board unchanged. -/
def gameOver (s : Board) : Bool :=
  (cells s).all (fun x => !(x == 0)) &&
    ((cells (merge_left s) == cells s) && (cells (merge_up s) == cells s))

/-- `advance_state`: slide–merge–slide, no-op check against the snapshot,
spawn, terminal check.  `none` only when the spawn index stream runs out. -/
def advance_state (s : Board) (act : Action) (rs : List (Fin 16)) (coin : Bool) :
    Option (Board × Bool) :=
  let original_board := s
  let s := moveBoard s act
  if cells s = cells original_board then some (original_board, false)
  else
    match add_random_tile s rs coin with
    | none => none
    | some s => some (s, gameOver s)

/-- The `SCORE_LOOKUP` table of `score`. -/
def SCORE_LOOKUP : List Nat :=
  [0, 0, 4, 12, 28, 60, 124, 252, 508, 1020, 2044, 4092, 8188, 16380, 32764,
   65532, 131068, 262140]

/-- `score`: sum of `SCORE_LOOKUP[x]` over the cells.  `none` models the
panic when a cell exceeds 17 (out-of-bounds index). -/
def score (s : Board) : Option Nat :=
  ((cells s).mapM (fun x => SCORE_LOOKUP.get? x)).map List.sum

/-- The `while i == j { j = rng.gen_range(0, 16) }` loop of `State::new`:
the first stream element different from `i`. -/
def pickDistinct (i : Fin 16) : List (Fin 16) → Option (Fin 16)
  | [] => none
  | j :: rest => if i = j then pickDistinct i rest else some j

/-- `State::new`: all cells empty except the two distinct random cells `i`
and `j`, each set to exponent 1. -/
def new (i : Fin 16) (js : List (Fin 16)) : Option Board :=
  (pickDistinct i js).map fun j =>
    Function.update (Function.update (fun _ => 0) i 1) j 1

/-- The `match action` decode of `step_2048_py`: 0=Down, 1=Left, 2=Right, 3=Up,
anything else is the panic arm. -/
def decodeAction (action : Nat) : Option Action :=
  match action with
  | 0 => some Action.Down
  | 1 => some Action.Left
  | 2 => some Action.Right
  | 3 => some Action.Up
  | _ => none

/-- `step_2048_py` (the `step` entry point): decodes the action code,
runs `advance_state`, and returns
`(new board, score delta, done)`.  `none` models the panics: input length
other than 16, action code outside `{0,1,2,3}`, score lookup overflow.
The `u64` subtraction is embedded as truncated subtraction; theorem
`c7_score_delta` shows it never underflows on returned results. -/
def step_2048_py (state : List Nat) (action : Nat) (rs : List (Fin 16)) (coin : Bool) :
    Option (List Nat × Nat × Bool) :=
  if state.length = 16 then
    let input_state : Board := boardOfList state
    let old_state := input_state
    let act : Option Action := decodeAction action
    match act with
    | none => none
    | some a =>
      match advance_state input_state a rs coin with
      | none => none
      | some (s, done) =>
        match score s, score old_state with
        | some ns, some os => some (cells s, ns - os, done)
        | _, _ => none
  else none

/-- Boards produced by `State::new` or by successful `advance_state` steps
from a reachable board, for any outcomes of the random draws. -/
inductive Reachable : Board → Prop
  | base (i : Fin 16) (js : List (Fin 16)) (b : Board) :
      new i js = some b → Reachable b
  | step (b : Board) (act : Action) (rs : List (Fin 16)) (coin : Bool)
      (b' : Board) (done : Bool) : Reachable b →
      advance_state b act rs coin = some (b', done) → Reachable b'

/-! ### Specification-side definitions (from the spec's words) -/

/-- Spec §4.2: the compacted line — the non-empty values in original order,
compacted against the near edge, remaining cells zero. -/
def compactEdge (l : List Nat) : List Nat :=
  l.filter (· ≠ 0) ++ List.replicate (l.length - (l.filter (· ≠ 0)).length) 0

/-- Spec §4.2 read on a line whose target edge is its far end: zeros first,
then the non-empty values in original order. -/
def compactEdgeRev (l : List Nat) : List Nat :=
  List.replicate (l.length - (l.filter (· ≠ 0)).length) 0 ++ l.filter (· ≠ 0)

/-- Helper for `sweepSpec`: sweep with `x` the current (possibly already
mutated) value of the cell before the remaining suffix. -/
def sweepAux : Nat → List Nat → List Nat
  | x, [] => [x]
  | x, y :: rest =>
    if x = y ∧ x ≠ 0 then (x + 1) :: sweepAux 0 rest
    else x :: sweepAux y rest

/-- Spec §4.3: a single forward sweep over adjacent pairs from the near
edge, reading current (already-mutated-in-this-pass) values. -/
def sweepSpec : List Nat → List Nat
  | [] => []
  | x :: rest => sweepAux x rest

/-- Cell index `row * 4 + col` (row-major, as in the source). -/
def pos (r c : Fin 4) : Fin 16 :=
  ⟨4 * r.val + c.val, by have := r.isLt; have := c.isLt; omega⟩

/-- Row `r` of the board as a list (left to right). -/
def rowList (s : Board) : Fin 4 → List Nat
  | 0 => [s 0, s 1, s 2, s 3]
  | 1 => [s 4, s 5, s 6, s 7]
  | 2 => [s 8, s 9, s 10, s 11]
  | 3 => [s 12, s 13, s 14, s 15]

/-- Column `c` of the board as a list (top to bottom). -/
def colList (s : Board) : Fin 4 → List Nat
  | 0 => [s 0, s 4, s 8, s 12]
  | 1 => [s 1, s 5, s 9, s 13]
  | 2 => [s 2, s 6, s 10, s 14]
  | 3 => [s 3, s 7, s 11, s 15]

/-- No two horizontally adjacent cells are equal. -/
def NoHAdj (s : Board) : Prop :=
  ∀ r : Fin 4, ∀ c : Fin 3, s (pos r c.castSucc) ≠ s (pos r c.succ)

/-- No two vertically adjacent cells are equal. -/
def NoVAdj (s : Board) : Prop :=
  ∀ r : Fin 3, ∀ c : Fin 4, s (pos r.castSucc c) ≠ s (pos r.succ c)

/-- Closed form of the scoring table: exponents 0 and 1 score 0, exponent
`e ≥ 2` scores `2^(e+1) − 4`. -/
def scoreTab (e : Nat) : Nat := if e ≤ 1 then 0 else 2 ^ (e + 1) - 4

/-- The per-exponent contribution asserted by the C5 claim. -/
def claimTab (e : Nat) : Nat := if e ≤ 1 then 0 else 2 ^ (e - 1) * (e - 1)

/-- Sum of `g` over the 16 cells. -/
def sumG (g : Nat → Nat) (s : Board) : Nat := ((cells s).map g).sum

/-- Number of cells with value at least `v`. -/
def cnt (v : Nat) (s : Board) : Nat := sumG (fun x => if v ≤ x then 1 else 0) s

/-- Total score via the closed-form table. -/
def scoreT (s : Board) : Nat := sumG scoreTab s

/-- Some cell is empty. -/
def hasEmpty (s : Board) : Prop := ∃ i : Fin 16, s i = 0

/-- The reachability invariant: for `2 ≤ v ≤ 18`, at most `18 − v` cells
have value at least `v` (so no cell reaches 18). -/
def Inv (s : Board) : Prop := ∀ v : Fin 19, 2 ≤ v.val → cnt v.val s ≤ 18 - v.val

instance (s : Board) : Decidable (Inv s) :=
  inferInstanceAs (Decidable (∀ v : Fin 19, 2 ≤ v.val → cnt v.val s ≤ 18 - v.val))

instance (s : Board) : Decidable (NoHAdj s) :=
  inferInstanceAs
    (Decidable (∀ r : Fin 4, ∀ c : Fin 3, s (pos r c.castSucc) ≠ s (pos r c.succ)))

instance (s : Board) : Decidable (NoVAdj s) :=
  inferInstanceAs
    (Decidable (∀ r : Fin 3, ∀ c : Fin 4, s (pos r.castSucc c) ≠ s (pos r.succ c)))

instance (s : Board) : Decidable (hasEmpty s) :=
  inferInstanceAs (Decidable (∃ i : Fin 16, s i = 0))


/-! ### Basic board lemmas -/

theorem cells_inj {s t : Board} (h : cells s = cells t) : s = t := by
  funext i
  simp only [cells, List.cons.injEq, and_true] at h
  fin_cases i <;> tauto

theorem boardOfList_cells (s : Board) : boardOfList (cells s) = s := by
  funext i
  fin_cases i <;> rfl

/-! ### Line-level characterization of the slide and merge loop bodies -/

theorem slideLine_spec (p0 p1 p2 p3 : Fin 16) (s : Board)
    (h01 : p0 ≠ p1) (h02 : p0 ≠ p2) (h03 : p0 ≠ p3)
    (h12 : p1 ≠ p2) (h13 : p1 ≠ p3) (h23 : p2 ≠ p3) :
    (∀ q, q ≠ p0 → q ≠ p1 → q ≠ p2 → q ≠ p3 → slideLine p0 p1 p2 p3 s q = s q) ∧
    [slideLine p0 p1 p2 p3 s p0, slideLine p0 p1 p2 p3 s p1,
     slideLine p0 p1 p2 p3 s p2, slideLine p0 p1 p2 p3 s p3] =
      compactEdge [s p0, s p1, s p2, s p3] := by
  have h10 := h01.symm
  have h20 := h02.symm
  have h30 := h03.symm
  have h21 := h12.symm
  have h31 := h13.symm
  have h32 := h23.symm
  unfold slideLine slideStep1 slideStep2 slideStep3 swapCells
  constructor
  · intro q hq0 hq1 hq2 hq3
    by_cases h2 : s p2 = 0 <;> by_cases h1 : s p1 = 0 <;> by_cases h0 : s p0 = 0 <;>
      simp_all [Function.update_noteq, Function.update_same]
  · by_cases h2 : s p2 = 0 <;> by_cases h1 : s p1 = 0 <;> by_cases h0 : s p0 = 0 <;>
      by_cases h3 : s p3 = 0 <;>
      simp_all [Function.update_noteq, Function.update_same, compactEdge]

theorem mergeLine_spec (p0 p1 p2 p3 : Fin 16) (s : Board)
    (h01 : p0 ≠ p1) (h02 : p0 ≠ p2) (h03 : p0 ≠ p3)
    (h12 : p1 ≠ p2) (h13 : p1 ≠ p3) (h23 : p2 ≠ p3) :
    (∀ q, q ≠ p0 → q ≠ p1 → q ≠ p2 → q ≠ p3 → mergeLine p0 p1 p2 p3 s q = s q) ∧
    [mergeLine p0 p1 p2 p3 s p0, mergeLine p0 p1 p2 p3 s p1,
     mergeLine p0 p1 p2 p3 s p2, mergeLine p0 p1 p2 p3 s p3] =
      sweepSpec [s p0, s p1, s p2, s p3] := by
  have h10 := h01.symm
  have h20 := h02.symm
  have h30 := h03.symm
  have h21 := h12.symm
  have h31 := h13.symm
  have h32 := h23.symm
  unfold mergeLine mergePair
  constructor
  · intro q hq0 hq1 hq2 hq3
    split_ifs <;> simp_all [Function.update_noteq, Function.update_same]
  · split_ifs <;>
      simp_all [Function.update_noteq, Function.update_same, sweepSpec, sweepAux] <;>
      split_ifs <;> simp_all

/-- Reading §4.2's compaction on a reversed line. -/
theorem compactEdgeRev_reverse (l : List Nat) :
    compactEdgeRev l.reverse = (compactEdge l).reverse := by
  simp [compactEdge, compactEdgeRev, List.filter_reverse, List.reverse_append,
    List.reverse_replicate]

/-! ### Per-direction row/column characterizations -/

theorem rowList_slide_left (s : Board) (r : Fin 4) :
    rowList (slide_left s) r = compactEdge (rowList s r) := by
  fin_cases r
  · show [(slideLine 12 13 14 15 (slideLine 8 9 10 11 (slideLine 4 5 6 7 (slideLine 0 1 2 3 s)))) 0, (slideLine 12 13 14 15 (slideLine 8 9 10 11 (slideLine 4 5 6 7 (slideLine 0 1 2 3 s)))) 1, (slideLine 12 13 14 15 (slideLine 8 9 10 11 (slideLine 4 5 6 7 (slideLine 0 1 2 3 s)))) 2, (slideLine 12 13 14 15 (slideLine 8 9 10 11 (slideLine 4 5 6 7 (slideLine 0 1 2 3 s)))) 3] = compactEdge [s 0, s 1, s 2, s 3]
    have hv : [(slideLine 0 1 2 3 s) 0, (slideLine 0 1 2 3 s) 1, (slideLine 0 1 2 3 s) 2, (slideLine 0 1 2 3 s) 3] =
        compactEdge [s 0, s 1, s 2, s 3] :=
      (slideLine_spec 0 1 2 3 s (by decide) (by decide) (by decide) (by decide) (by decide) (by decide)).2
    rw [((slideLine_spec 12 13 14 15 (slideLine 8 9 10 11 (slideLine 4 5 6 7 (slideLine 0 1 2 3 s))) (by decide) (by decide) (by decide) (by decide) (by decide) (by decide)).1 0 (by decide) (by decide) (by decide) (by decide)), ((slideLine_spec 12 13 14 15 (slideLine 8 9 10 11 (slideLine 4 5 6 7 (slideLine 0 1 2 3 s))) (by decide) (by decide) (by decide) (by decide) (by decide) (by decide)).1 1 (by decide) (by decide) (by decide) (by decide)), ((slideLine_spec 12 13 14 15 (slideLine 8 9 10 11 (slideLine 4 5 6 7 (slideLine 0 1 2 3 s))) (by decide) (by decide) (by decide) (by decide) (by decide) (by decide)).1 2 (by decide) (by decide) (by decide) (by decide)), ((slideLine_spec 12 13 14 15 (slideLine 8 9 10 11 (slideLine 4 5 6 7 (slideLine 0 1 2 3 s))) (by decide) (by decide) (by decide) (by decide) (by decide) (by decide)).1 3 (by decide) (by decide) (by decide) (by decide))]
    rw [((slideLine_spec 8 9 10 11 (slideLine 4 5 6 7 (slideLine 0 1 2 3 s)) (by decide) (by decide) (by decide) (by decide) (by decide) (by decide)).1 0 (by decide) (by decide) (by decide) (by decide)), ((slideLine_spec 8 9 10 11 (slideLine 4 5 6 7 (slideLine 0 1 2 3 s)) (by decide) (by decide) (by decide) (by decide) (by decide) (by decide)).1 1 (by decide) (by decide) (by decide) (by decide)), ((slideLine_spec 8 9 10 11 (slideLine 4 5 6 7 (slideLine 0 1 2 3 s)) (by decide) (by decide) (by decide) (by decide) (by decide) (by decide)).1 2 (by decide) (by decide) (by decide) (by decide)), ((slideLine_spec 8 9 10 11 (slideLine 4 5 6 7 (slideLine 0 1 2 3 s)) (by decide) (by decide) (by decide) (by decide) (by decide) (by decide)).1 3 (by decide) (by decide) (by decide) (by decide))]
    rw [((slideLine_spec 4 5 6 7 (slideLine 0 1 2 3 s) (by decide) (by decide) (by decide) (by decide) (by decide) (by decide)).1 0 (by decide) (by decide) (by decide) (by decide)), ((slideLine_spec 4 5 6 7 (slideLine 0 1 2 3 s) (by decide) (by decide) (by decide) (by decide) (by decide) (by decide)).1 1 (by decide) (by decide) (by decide) (by decide)), ((slideLine_spec 4 5 6 7 (slideLine 0 1 2 3 s) (by decide) (by decide) (by decide) (by decide) (by decide) (by decide)).1 2 (by decide) (by decide) (by decide) (by decide)), ((slideLine_spec 4 5 6 7 (slideLine 0 1 2 3 s) (by decide) (by decide) (by decide) (by decide) (by decide) (by decide)).1 3 (by decide) (by decide) (by decide) (by decide))]
    exact hv
  · show [(slideLine 12 13 14 15 (slideLine 8 9 10 11 (slideLine 4 5 6 7 (slideLine 0 1 2 3 s)))) 4, (slideLine 12 13 14 15 (slideLine 8 9 10 11 (slideLine 4 5 6 7 (slideLine 0 1 2 3 s)))) 5, (slideLine 12 13 14 15 (slideLine 8 9 10 11 (slideLine 4 5 6 7 (slideLine 0 1 2 3 s)))) 6, (slideLine 12 13 14 15 (slideLine 8 9 10 11 (slideLine 4 5 6 7 (slideLine 0 1 2 3 s)))) 7] = compactEdge [s 4, s 5, s 6, s 7]
    have hv : [(slideLine 4 5 6 7 (slideLine 0 1 2 3 s)) 4, (slideLine 4 5 6 7 (slideLine 0 1 2 3 s)) 5, (slideLine 4 5 6 7 (slideLine 0 1 2 3 s)) 6, (slideLine 4 5 6 7 (slideLine 0 1 2 3 s)) 7] =
        compactEdge [(slideLine 0 1 2 3 s) 4, (slideLine 0 1 2 3 s) 5, (slideLine 0 1 2 3 s) 6, (slideLine 0 1 2 3 s) 7] :=
      (slideLine_spec 4 5 6 7 (slideLine 0 1 2 3 s) (by decide) (by decide) (by decide) (by decide) (by decide) (by decide)).2
    rw [((slideLine_spec 0 1 2 3 s (by decide) (by decide) (by decide) (by decide) (by decide) (by decide)).1 4 (by decide) (by decide) (by decide) (by decide)), ((slideLine_spec 0 1 2 3 s (by decide) (by decide) (by decide) (by decide) (by decide) (by decide)).1 5 (by decide) (by decide) (by decide) (by decide)), ((slideLine_spec 0 1 2 3 s (by decide) (by decide) (by decide) (by decide) (by decide) (by decide)).1 6 (by decide) (by decide) (by decide) (by decide)), ((slideLine_spec 0 1 2 3 s (by decide) (by decide) (by decide) (by decide) (by decide) (by decide)).1 7 (by decide) (by decide) (by decide) (by decide))] at hv
    rw [((slideLine_spec 12 13 14 15 (slideLine 8 9 10 11 (slideLine 4 5 6 7 (slideLine 0 1 2 3 s))) (by decide) (by decide) (by decide) (by decide) (by decide) (by decide)).1 4 (by decide) (by decide) (by decide) (by decide)), ((slideLine_spec 12 13 14 15 (slideLine 8 9 10 11 (slideLine 4 5 6 7 (slideLine 0 1 2 3 s))) (by decide) (by decide) (by decide) (by decide) (by decide) (by decide)).1 5 (by decide) (by decide) (by decide) (by decide)), ((slideLine_spec 12 13 14 15 (slideLine 8 9 10 11 (slideLine 4 5 6 7 (slideLine 0 1 2 3 s))) (by decide) (by decide) (by decide) (by decide) (by decide) (by decide)).1 6 (by decide) (by decide) (by decide) (by decide)), ((slideLine_spec 12 13 14 15 (slideLine 8 9 10 11 (slideLine 4 5 6 7 (slideLine 0 1 2 3 s))) (by decide) (by decide) (by decide) (by decide) (by decide) (by decide)).1 7 (by decide) (by decide) (by decide) (by decide))]
    rw [((slideLine_spec 8 9 10 11 (slideLine 4 5 6 7 (slideLine 0 1 2 3 s)) (by decide) (by decide) (by decide) (by decide) (by decide) (by decide)).1 4 (by decide) (by decide) (by decide) (by decide)), ((slideLine_spec 8 9 10 11 (slideLine 4 5 6 7 (slideLine 0 1 2 3 s)) (by decide) (by decide) (by decide) (by decide) (by decide) (by decide)).1 5 (by decide) (by decide) (by decide) (by decide)), ((slideLine_spec 8 9 10 11 (slideLine 4 5 6 7 (slideLine 0 1 2 3 s)) (by decide) (by decide) (by decide) (by decide) (by decide) (by decide)).1 6 (by decide) (by decide) (by decide) (by decide)), ((slideLine_spec 8 9 10 11 (slideLine 4 5 6 7 (slideLine 0 1 2 3 s)) (by decide) (by decide) (by decide) (by decide) (by decide) (by decide)).1 7 (by decide) (by decide) (by decide) (by decide))]
    exact hv
  · show [(slideLine 12 13 14 15 (slideLine 8 9 10 11 (slideLine 4 5 6 7 (slideLine 0 1 2 3 s)))) 8, (slideLine 12 13 14 15 (slideLine 8 9 10 11 (slideLine 4 5 6 7 (slideLine 0 1 2 3 s)))) 9, (slideLine 12 13 14 15 (slideLine 8 9 10 11 (slideLine 4 5 6 7 (slideLine 0 1 2 3 s)))) 10, (slideLine 12 13 14 15 (slideLine 8 9 10 11 (slideLine 4 5 6 7 (slideLine 0 1 2 3 s)))) 11] = compactEdge [s 8, s 9, s 10, s 11]
    have hv : [(slideLine 8 9 10 11 (slideLine 4 5 6 7 (slideLine 0 1 2 3 s))) 8, (slideLine 8 9 10 11 (slideLine 4 5 6 7 (slideLine 0 1 2 3 s))) 9, (slideLine 8 9 10 11 (slideLine 4 5 6 7 (slideLine 0 1 2 3 s))) 10, (slideLine 8 9 10 11 (slideLine 4 5 6 7 (slideLine 0 1 2 3 s))) 11] =
        compactEdge [(slideLine 4 5 6 7 (slideLine 0 1 2 3 s)) 8, (slideLine 4 5 6 7 (slideLine 0 1 2 3 s)) 9, (slideLine 4 5 6 7 (slideLine 0 1 2 3 s)) 10, (slideLine 4 5 6 7 (slideLine 0 1 2 3 s)) 11] :=
      (slideLine_spec 8 9 10 11 (slideLine 4 5 6 7 (slideLine 0 1 2 3 s)) (by decide) (by decide) (by decide) (by decide) (by decide) (by decide)).2
    rw [((slideLine_spec 4 5 6 7 (slideLine 0 1 2 3 s) (by decide) (by decide) (by decide) (by decide) (by decide) (by decide)).1 8 (by decide) (by decide) (by decide) (by decide)), ((slideLine_spec 4 5 6 7 (slideLine 0 1 2 3 s) (by decide) (by decide) (by decide) (by decide) (by decide) (by decide)).1 9 (by decide) (by decide) (by decide) (by decide)), ((slideLine_spec 4 5 6 7 (slideLine 0 1 2 3 s) (by decide) (by decide) (by decide) (by decide) (by decide) (by decide)).1 10 (by decide) (by decide) (by decide) (by decide)), ((slideLine_spec 4 5 6 7 (slideLine 0 1 2 3 s) (by decide) (by decide) (by decide) (by decide) (by decide) (by decide)).1 11 (by decide) (by decide) (by decide) (by decide))] at hv
    rw [((slideLine_spec 0 1 2 3 s (by decide) (by decide) (by decide) (by decide) (by decide) (by decide)).1 8 (by decide) (by decide) (by decide) (by decide)), ((slideLine_spec 0 1 2 3 s (by decide) (by decide) (by decide) (by decide) (by decide) (by decide)).1 9 (by decide) (by decide) (by decide) (by decide)), ((slideLine_spec 0 1 2 3 s (by decide) (by decide) (by decide) (by decide) (by decide) (by decide)).1 10 (by decide) (by decide) (by decide) (by decide)), ((slideLine_spec 0 1 2 3 s (by decide) (by decide) (by decide) (by decide) (by decide) (by decide)).1 11 (by decide) (by decide) (by decide) (by decide))] at hv
    rw [((slideLine_spec 12 13 14 15 (slideLine 8 9 10 11 (slideLine 4 5 6 7 (slideLine 0 1 2 3 s))) (by decide) (by decide) (by decide) (by decide) (by decide) (by decide)).1 8 (by decide) (by decide) (by decide) (by decide)), ((slideLine_spec 12 13 14 15 (slideLine 8 9 10 11 (slideLine 4 5 6 7 (slideLine 0 1 2 3 s))) (by decide) (by decide) (by decide) (by decide) (by decide) (by decide)).1 9 (by decide) (by decide) (by decide) (by decide)), ((slideLine_spec 12 13 14 15 (slideLine 8 9 10 11 (slideLine 4 5 6 7 (slideLine 0 1 2 3 s))) (by decide) (by decide) (by decide) (by decide) (by decide) (by decide)).1 10 (by decide) (by decide) (by decide) (by decide)), ((slideLine_spec 12 13 14 15 (slideLine 8 9 10 11 (slideLine 4 5 6 7 (slideLine 0 1 2 3 s))) (by decide) (by decide) (by decide) (by decide) (by decide) (by decide)).1 11 (by decide) (by decide) (by decide) (by decide))]
    exact hv
  · show [(slideLine 12 13 14 15 (slideLine 8 9 10 11 (slideLine 4 5 6 7 (slideLine 0 1 2 3 s)))) 12, (slideLine 12 13 14 15 (slideLine 8 9 10 11 (slideLine 4 5 6 7 (slideLine 0 1 2 3 s)))) 13, (slideLine 12 13 14 15 (slideLine 8 9 10 11 (slideLine 4 5 6 7 (slideLine 0 1 2 3 s)))) 14, (slideLine 12 13 14 15 (slideLine 8 9 10 11 (slideLine 4 5 6 7 (slideLine 0 1 2 3 s)))) 15] = compactEdge [s 12, s 13, s 14, s 15]
    have hv : [(slideLine 12 13 14 15 (slideLine 8 9 10 11 (slideLine 4 5 6 7 (slideLine 0 1 2 3 s)))) 12, (slideLine 12 13 14 15 (slideLine 8 9 10 11 (slideLine 4 5 6 7 (slideLine 0 1 2 3 s)))) 13, (slideLine 12 13 14 15 (slideLine 8 9 10 11 (slideLine 4 5 6 7 (slideLine 0 1 2 3 s)))) 14, (slideLine 12 13 14 15 (slideLine 8 9 10 11 (slideLine 4 5 6 7 (slideLine 0 1 2 3 s)))) 15] =
        compactEdge [(slideLine 8 9 10 11 (slideLine 4 5 6 7 (slideLine 0 1 2 3 s))) 12, (slideLine 8 9 10 11 (slideLine 4 5 6 7 (slideLine 0 1 2 3 s))) 13, (slideLine 8 9 10 11 (slideLine 4 5 6 7 (slideLine 0 1 2 3 s))) 14, (slideLine 8 9 10 11 (slideLine 4 5 6 7 (slideLine 0 1 2 3 s))) 15] :=
      (slideLine_spec 12 13 14 15 (slideLine 8 9 10 11 (slideLine 4 5 6 7 (slideLine 0 1 2 3 s))) (by decide) (by decide) (by decide) (by decide) (by decide) (by decide)).2
    rw [((slideLine_spec 8 9 10 11 (slideLine 4 5 6 7 (slideLine 0 1 2 3 s)) (by decide) (by decide) (by decide) (by decide) (by decide) (by decide)).1 12 (by decide) (by decide) (by decide) (by decide)), ((slideLine_spec 8 9 10 11 (slideLine 4 5 6 7 (slideLine 0 1 2 3 s)) (by decide) (by decide) (by decide) (by decide) (by decide) (by decide)).1 13 (by decide) (by decide) (by decide) (by decide)), ((slideLine_spec 8 9 10 11 (slideLine 4 5 6 7 (slideLine 0 1 2 3 s)) (by decide) (by decide) (by decide) (by decide) (by decide) (by decide)).1 14 (by decide) (by decide) (by decide) (by decide)), ((slideLine_spec 8 9 10 11 (slideLine 4 5 6 7 (slideLine 0 1 2 3 s)) (by decide) (by decide) (by decide) (by decide) (by decide) (by decide)).1 15 (by decide) (by decide) (by decide) (by decide))] at hv
    rw [((slideLine_spec 4 5 6 7 (slideLine 0 1 2 3 s) (by decide) (by decide) (by decide) (by decide) (by decide) (by decide)).1 12 (by decide) (by decide) (by decide) (by decide)), ((slideLine_spec 4 5 6 7 (slideLine 0 1 2 3 s) (by decide) (by decide) (by decide) (by decide) (by decide) (by decide)).1 13 (by decide) (by decide) (by decide) (by decide)), ((slideLine_spec 4 5 6 7 (slideLine 0 1 2 3 s) (by decide) (by decide) (by decide) (by decide) (by decide) (by decide)).1 14 (by decide) (by decide) (by decide) (by decide)), ((slideLine_spec 4 5 6 7 (slideLine 0 1 2 3 s) (by decide) (by decide) (by decide) (by decide) (by decide) (by decide)).1 15 (by decide) (by decide) (by decide) (by decide))] at hv
    rw [((slideLine_spec 0 1 2 3 s (by decide) (by decide) (by decide) (by decide) (by decide) (by decide)).1 12 (by decide) (by decide) (by decide) (by decide)), ((slideLine_spec 0 1 2 3 s (by decide) (by decide) (by decide) (by decide) (by decide) (by decide)).1 13 (by decide) (by decide) (by decide) (by decide)), ((slideLine_spec 0 1 2 3 s (by decide) (by decide) (by decide) (by decide) (by decide) (by decide)).1 14 (by decide) (by decide) (by decide) (by decide)), ((slideLine_spec 0 1 2 3 s (by decide) (by decide) (by decide) (by decide) (by decide) (by decide)).1 15 (by decide) (by decide) (by decide) (by decide))] at hv
    exact hv

theorem rowList_slide_right (s : Board) (r : Fin 4) :
    rowList (slide_right s) r = compactEdgeRev (rowList s r) := by
  fin_cases r
  · show [(slideLine 15 14 13 12 (slideLine 11 10 9 8 (slideLine 7 6 5 4 (slideLine 3 2 1 0 s)))) 0, (slideLine 15 14 13 12 (slideLine 11 10 9 8 (slideLine 7 6 5 4 (slideLine 3 2 1 0 s)))) 1, (slideLine 15 14 13 12 (slideLine 11 10 9 8 (slideLine 7 6 5 4 (slideLine 3 2 1 0 s)))) 2, (slideLine 15 14 13 12 (slideLine 11 10 9 8 (slideLine 7 6 5 4 (slideLine 3 2 1 0 s)))) 3] = compactEdgeRev [s 0, s 1, s 2, s 3]
    have hv : [(slideLine 3 2 1 0 s) 3, (slideLine 3 2 1 0 s) 2, (slideLine 3 2 1 0 s) 1, (slideLine 3 2 1 0 s) 0] =
        compactEdge [s 3, s 2, s 1, s 0] :=
      (slideLine_spec 3 2 1 0 s (by decide) (by decide) (by decide) (by decide) (by decide) (by decide)).2
    rw [((slideLine_spec 15 14 13 12 (slideLine 11 10 9 8 (slideLine 7 6 5 4 (slideLine 3 2 1 0 s))) (by decide) (by decide) (by decide) (by decide) (by decide) (by decide)).1 0 (by decide) (by decide) (by decide) (by decide)), ((slideLine_spec 15 14 13 12 (slideLine 11 10 9 8 (slideLine 7 6 5 4 (slideLine 3 2 1 0 s))) (by decide) (by decide) (by decide) (by decide) (by decide) (by decide)).1 1 (by decide) (by decide) (by decide) (by decide)), ((slideLine_spec 15 14 13 12 (slideLine 11 10 9 8 (slideLine 7 6 5 4 (slideLine 3 2 1 0 s))) (by decide) (by decide) (by decide) (by decide) (by decide) (by decide)).1 2 (by decide) (by decide) (by decide) (by decide)), ((slideLine_spec 15 14 13 12 (slideLine 11 10 9 8 (slideLine 7 6 5 4 (slideLine 3 2 1 0 s))) (by decide) (by decide) (by decide) (by decide) (by decide) (by decide)).1 3 (by decide) (by decide) (by decide) (by decide))]
    rw [((slideLine_spec 11 10 9 8 (slideLine 7 6 5 4 (slideLine 3 2 1 0 s)) (by decide) (by decide) (by decide) (by decide) (by decide) (by decide)).1 0 (by decide) (by decide) (by decide) (by decide)), ((slideLine_spec 11 10 9 8 (slideLine 7 6 5 4 (slideLine 3 2 1 0 s)) (by decide) (by decide) (by decide) (by decide) (by decide) (by decide)).1 1 (by decide) (by decide) (by decide) (by decide)), ((slideLine_spec 11 10 9 8 (slideLine 7 6 5 4 (slideLine 3 2 1 0 s)) (by decide) (by decide) (by decide) (by decide) (by decide) (by decide)).1 2 (by decide) (by decide) (by decide) (by decide)), ((slideLine_spec 11 10 9 8 (slideLine 7 6 5 4 (slideLine 3 2 1 0 s)) (by decide) (by decide) (by decide) (by decide) (by decide) (by decide)).1 3 (by decide) (by decide) (by decide) (by decide))]
    rw [((slideLine_spec 7 6 5 4 (slideLine 3 2 1 0 s) (by decide) (by decide) (by decide) (by decide) (by decide) (by decide)).1 0 (by decide) (by decide) (by decide) (by decide)), ((slideLine_spec 7 6 5 4 (slideLine 3 2 1 0 s) (by decide) (by decide) (by decide) (by decide) (by decide) (by decide)).1 1 (by decide) (by decide) (by decide) (by decide)), ((slideLine_spec 7 6 5 4 (slideLine 3 2 1 0 s) (by decide) (by decide) (by decide) (by decide) (by decide) (by decide)).1 2 (by decide) (by decide) (by decide) (by decide)), ((slideLine_spec 7 6 5 4 (slideLine 3 2 1 0 s) (by decide) (by decide) (by decide) (by decide) (by decide) (by decide)).1 3 (by decide) (by decide) (by decide) (by decide))]
    rw [show ([s 0, s 1, s 2, s 3] : List Nat) = [s 3, s 2, s 1, s 0].reverse from rfl, compactEdgeRev_reverse]
    rw [← hv]
    simp
  · show [(slideLine 15 14 13 12 (slideLine 11 10 9 8 (slideLine 7 6 5 4 (slideLine 3 2 1 0 s)))) 4, (slideLine 15 14 13 12 (slideLine 11 10 9 8 (slideLine 7 6 5 4 (slideLine 3 2 1 0 s)))) 5, (slideLine 15 14 13 12 (slideLine 11 10 9 8 (slideLine 7 6 5 4 (slideLine 3 2 1 0 s)))) 6, (slideLine 15 14 13 12 (slideLine 11 10 9 8 (slideLine 7 6 5 4 (slideLine 3 2 1 0 s)))) 7] = compactEdgeRev [s 4, s 5, s 6, s 7]
    have hv : [(slideLine 7 6 5 4 (slideLine 3 2 1 0 s)) 7, (slideLine 7 6 5 4 (slideLine 3 2 1 0 s)) 6, (slideLine 7 6 5 4 (slideLine 3 2 1 0 s)) 5, (slideLine 7 6 5 4 (slideLine 3 2 1 0 s)) 4] =
        compactEdge [(slideLine 3 2 1 0 s) 7, (slideLine 3 2 1 0 s) 6, (slideLine 3 2 1 0 s) 5, (slideLine 3 2 1 0 s) 4] :=
      (slideLine_spec 7 6 5 4 (slideLine 3 2 1 0 s) (by decide) (by decide) (by decide) (by decide) (by decide) (by decide)).2
    rw [((slideLine_spec 3 2 1 0 s (by decide) (by decide) (by decide) (by decide) (by decide) (by decide)).1 7 (by decide) (by decide) (by decide) (by decide)), ((slideLine_spec 3 2 1 0 s (by decide) (by decide) (by decide) (by decide) (by decide) (by decide)).1 6 (by decide) (by decide) (by decide) (by decide)), ((slideLine_spec 3 2 1 0 s (by decide) (by decide) (by decide) (by decide) (by decide) (by decide)).1 5 (by decide) (by decide) (by decide) (by decide)), ((slideLine_spec 3 2 1 0 s (by decide) (by decide) (by decide) (by decide) (by decide) (by decide)).1 4 (by decide) (by decide) (by decide) (by decide))] at hv
    rw [((slideLine_spec 15 14 13 12 (slideLine 11 10 9 8 (slideLine 7 6 5 4 (slideLine 3 2 1 0 s))) (by decide) (by decide) (by decide) (by decide) (by decide) (by decide)).1 4 (by decide) (by decide) (by decide) (by decide)), ((slideLine_spec 15 14 13 12 (slideLine 11 10 9 8 (slideLine 7 6 5 4 (slideLine 3 2 1 0 s))) (by decide) (by decide) (by decide) (by decide) (by decide) (by decide)).1 5 (by decide) (by decide) (by decide) (by decide)), ((slideLine_spec 15 14 13 12 (slideLine 11 10 9 8 (slideLine 7 6 5 4 (slideLine 3 2 1 0 s))) (by decide) (by decide) (by decide) (by decide) (by decide) (by decide)).1 6 (by decide) (by decide) (by decide) (by decide)), ((slideLine_spec 15 14 13 12 (slideLine 11 10 9 8 (slideLine 7 6 5 4 (slideLine 3 2 1 0 s))) (by decide) (by decide) (by decide) (by decide) (by decide) (by decide)).1 7 (by decide) (by decide) (by decide) (by decide))]
    rw [((slideLine_spec 11 10 9 8 (slideLine 7 6 5 4 (slideLine 3 2 1 0 s)) (by decide) (by decide) (by decide) (by decide) (by decide) (by decide)).1 4 (by decide) (by decide) (by decide) (by decide)), ((slideLine_spec 11 10 9 8 (slideLine 7 6 5 4 (slideLine 3 2 1 0 s)) (by decide) (by decide) (by decide) (by decide) (by decide) (by decide)).1 5 (by decide) (by decide) (by decide) (by decide)), ((slideLine_spec 11 10 9 8 (slideLine 7 6 5 4 (slideLine 3 2 1 0 s)) (by decide) (by decide) (by decide) (by decide) (by decide) (by decide)).1 6 (by decide) (by decide) (by decide) (by decide)), ((slideLine_spec 11 10 9 8 (slideLine 7 6 5 4 (slideLine 3 2 1 0 s)) (by decide) (by decide) (by decide) (by decide) (by decide) (by decide)).1 7 (by decide) (by decide) (by decide) (by decide))]
    rw [show ([s 4, s 5, s 6, s 7] : List Nat) = [s 7, s 6, s 5, s 4].reverse from rfl, compactEdgeRev_reverse]
    rw [← hv]
    simp
  · show [(slideLine 15 14 13 12 (slideLine 11 10 9 8 (slideLine 7 6 5 4 (slideLine 3 2 1 0 s)))) 8, (slideLine 15 14 13 12 (slideLine 11 10 9 8 (slideLine 7 6 5 4 (slideLine 3 2 1 0 s)))) 9, (slideLine 15 14 13 12 (slideLine 11 10 9 8 (slideLine 7 6 5 4 (slideLine 3 2 1 0 s)))) 10, (slideLine 15 14 13 12 (slideLine 11 10 9 8 (slideLine 7 6 5 4 (slideLine 3 2 1 0 s)))) 11] = compactEdgeRev [s 8, s 9, s 10, s 11]
    have hv : [(slideLine 11 10 9 8 (slideLine 7 6 5 4 (slideLine 3 2 1 0 s))) 11, (slideLine 11 10 9 8 (slideLine 7 6 5 4 (slideLine 3 2 1 0 s))) 10, (slideLine 11 10 9 8 (slideLine 7 6 5 4 (slideLine 3 2 1 0 s))) 9, (slideLine 11 10 9 8 (slideLine 7 6 5 4 (slideLine 3 2 1 0 s))) 8] =
        compactEdge [(slideLine 7 6 5 4 (slideLine 3 2 1 0 s)) 11, (slideLine 7 6 5 4 (slideLine 3 2 1 0 s)) 10, (slideLine 7 6 5 4 (slideLine 3 2 1 0 s)) 9, (slideLine 7 6 5 4 (slideLine 3 2 1 0 s)) 8] :=
      (slideLine_spec 11 10 9 8 (slideLine 7 6 5 4 (slideLine 3 2 1 0 s)) (by decide) (by decide) (by decide) (by decide) (by decide) (by decide)).2
    rw [((slideLine_spec 7 6 5 4 (slideLine 3 2 1 0 s) (by decide) (by decide) (by decide) (by decide) (by decide) (by decide)).1 11 (by decide) (by decide) (by decide) (by decide)), ((slideLine_spec 7 6 5 4 (slideLine 3 2 1 0 s) (by decide) (by decide) (by decide) (by decide) (by decide) (by decide)).1 10 (by decide) (by decide) (by decide) (by decide)), ((slideLine_spec 7 6 5 4 (slideLine 3 2 1 0 s) (by decide) (by decide) (by decide) (by decide) (by decide) (by decide)).1 9 (by decide) (by decide) (by decide) (by decide)), ((slideLine_spec 7 6 5 4 (slideLine 3 2 1 0 s) (by decide) (by decide) (by decide) (by decide) (by decide) (by decide)).1 8 (by decide) (by decide) (by decide) (by decide))] at hv
    rw [((slideLine_spec 3 2 1 0 s (by decide) (by decide) (by decide) (by decide) (by decide) (by decide)).1 11 (by decide) (by decide) (by decide) (by decide)), ((slideLine_spec 3 2 1 0 s (by decide) (by decide) (by decide) (by decide) (by decide) (by decide)).1 10 (by decide) (by decide) (by decide) (by decide)), ((slideLine_spec 3 2 1 0 s (by decide) (by decide) (by decide) (by decide) (by decide) (by decide)).1 9 (by decide) (by decide) (by decide) (by decide)), ((slideLine_spec 3 2 1 0 s (by decide) (by decide) (by decide) (by decide) (by decide) (by decide)).1 8 (by decide) (by decide) (by decide) (by decide))] at hv
    rw [((slideLine_spec 15 14 13 12 (slideLine 11 10 9 8 (slideLine 7 6 5 4 (slideLine 3 2 1 0 s))) (by decide) (by decide) (by decide) (by decide) (by decide) (by decide)).1 8 (by decide) (by decide) (by decide) (by decide)), ((slideLine_spec 15 14 13 12 (slideLine 11 10 9 8 (slideLine 7 6 5 4 (slideLine 3 2 1 0 s))) (by decide) (by decide) (by decide) (by decide) (by decide) (by decide)).1 9 (by decide) (by decide) (by decide) (by decide)), ((slideLine_spec 15 14 13 12 (slideLine 11 10 9 8 (slideLine 7 6 5 4 (slideLine 3 2 1 0 s))) (by decide) (by decide) (by decide) (by decide) (by decide) (by decide)).1 10 (by decide) (by decide) (by decide) (by decide)), ((slideLine_spec 15 14 13 12 (slideLine 11 10 9 8 (slideLine 7 6 5 4 (slideLine 3 2 1 0 s))) (by decide) (by decide) (by decide) (by decide) (by decide) (by decide)).1 11 (by decide) (by decide) (by decide) (by decide))]
    rw [show ([s 8, s 9, s 10, s 11] : List Nat) = [s 11, s 10, s 9, s 8].reverse from rfl, compactEdgeRev_reverse]
    rw [← hv]
    simp
  · show [(slideLine 15 14 13 12 (slideLine 11 10 9 8 (slideLine 7 6 5 4 (slideLine 3 2 1 0 s)))) 12, (slideLine 15 14 13 12 (slideLine 11 10 9 8 (slideLine 7 6 5 4 (slideLine 3 2 1 0 s)))) 13, (slideLine 15 14 13 12 (slideLine 11 10 9 8 (slideLine 7 6 5 4 (slideLine 3 2 1 0 s)))) 14, (slideLine 15 14 13 12 (slideLine 11 10 9 8 (slideLine 7 6 5 4 (slideLine 3 2 1 0 s)))) 15] = compactEdgeRev [s 12, s 13, s 14, s 15]
    have hv : [(slideLine 15 14 13 12 (slideLine 11 10 9 8 (slideLine 7 6 5 4 (slideLine 3 2 1 0 s)))) 15, (slideLine 15 14 13 12 (slideLine 11 10 9 8 (slideLine 7 6 5 4 (slideLine 3 2 1 0 s)))) 14, (slideLine 15 14 13 12 (slideLine 11 10 9 8 (slideLine 7 6 5 4 (slideLine 3 2 1 0 s)))) 13, (slideLine 15 14 13 12 (slideLine 11 10 9 8 (slideLine 7 6 5 4 (slideLine 3 2 1 0 s)))) 12] =
        compactEdge [(slideLine 11 10 9 8 (slideLine 7 6 5 4 (slideLine 3 2 1 0 s))) 15, (slideLine 11 10 9 8 (slideLine 7 6 5 4 (slideLine 3 2 1 0 s))) 14, (slideLine 11 10 9 8 (slideLine 7 6 5 4 (slideLine 3 2 1 0 s))) 13, (slideLine 11 10 9 8 (slideLine 7 6 5 4 (slideLine 3 2 1 0 s))) 12] :=
      (slideLine_spec 15 14 13 12 (slideLine 11 10 9 8 (slideLine 7 6 5 4 (slideLine 3 2 1 0 s))) (by decide) (by decide) (by decide) (by decide) (by decide) (by decide)).2
    rw [((slideLine_spec 11 10 9 8 (slideLine 7 6 5 4 (slideLine 3 2 1 0 s)) (by decide) (by decide) (by decide) (by decide) (by decide) (by decide)).1 15 (by decide) (by decide) (by decide) (by decide)), ((slideLine_spec 11 10 9 8 (slideLine 7 6 5 4 (slideLine 3 2 1 0 s)) (by decide) (by decide) (by decide) (by decide) (by decide) (by decide)).1 14 (by decide) (by decide) (by decide) (by decide)), ((slideLine_spec 11 10 9 8 (slideLine 7 6 5 4 (slideLine 3 2 1 0 s)) (by decide) (by decide) (by decide) (by decide) (by decide) (by decide)).1 13 (by decide) (by decide) (by decide) (by decide)), ((slideLine_spec 11 10 9 8 (slideLine 7 6 5 4 (slideLine 3 2 1 0 s)) (by decide) (by decide) (by decide) (by decide) (by decide) (by decide)).1 12 (by decide) (by decide) (by decide) (by decide))] at hv
    rw [((slideLine_spec 7 6 5 4 (slideLine 3 2 1 0 s) (by decide) (by decide) (by decide) (by decide) (by decide) (by decide)).1 15 (by decide) (by decide) (by decide) (by decide)), ((slideLine_spec 7 6 5 4 (slideLine 3 2 1 0 s) (by decide) (by decide) (by decide) (by decide) (by decide) (by decide)).1 14 (by decide) (by decide) (by decide) (by decide)), ((slideLine_spec 7 6 5 4 (slideLine 3 2 1 0 s) (by decide) (by decide) (by decide) (by decide) (by decide) (by decide)).1 13 (by decide) (by decide) (by decide) (by decide)), ((slideLine_spec 7 6 5 4 (slideLine 3 2 1 0 s) (by decide) (by decide) (by decide) (by decide) (by decide) (by decide)).1 12 (by decide) (by decide) (by decide) (by decide))] at hv
    rw [((slideLine_spec 3 2 1 0 s (by decide) (by decide) (by decide) (by decide) (by decide) (by decide)).1 15 (by decide) (by decide) (by decide) (by decide)), ((slideLine_spec 3 2 1 0 s (by decide) (by decide) (by decide) (by decide) (by decide) (by decide)).1 14 (by decide) (by decide) (by decide) (by decide)), ((slideLine_spec 3 2 1 0 s (by decide) (by decide) (by decide) (by decide) (by decide) (by decide)).1 13 (by decide) (by decide) (by decide) (by decide)), ((slideLine_spec 3 2 1 0 s (by decide) (by decide) (by decide) (by decide) (by decide) (by decide)).1 12 (by decide) (by decide) (by decide) (by decide))] at hv
    rw [show ([s 12, s 13, s 14, s 15] : List Nat) = [s 15, s 14, s 13, s 12].reverse from rfl, compactEdgeRev_reverse]
    rw [← hv]
    simp

theorem colList_slide_up (s : Board) (r : Fin 4) :
    colList (slide_up s) r = compactEdge (colList s r) := by
  fin_cases r
  · show [(slideLine 3 7 11 15 (slideLine 2 6 10 14 (slideLine 1 5 9 13 (slideLine 0 4 8 12 s)))) 0, (slideLine 3 7 11 15 (slideLine 2 6 10 14 (slideLine 1 5 9 13 (slideLine 0 4 8 12 s)))) 4, (slideLine 3 7 11 15 (slideLine 2 6 10 14 (slideLine 1 5 9 13 (slideLine 0 4 8 12 s)))) 8, (slideLine 3 7 11 15 (slideLine 2 6 10 14 (slideLine 1 5 9 13 (slideLine 0 4 8 12 s)))) 12] = compactEdge [s 0, s 4, s 8, s 12]
    have hv : [(slideLine 0 4 8 12 s) 0, (slideLine 0 4 8 12 s) 4, (slideLine 0 4 8 12 s) 8, (slideLine 0 4 8 12 s) 12] =
        compactEdge [s 0, s 4, s 8, s 12] :=
      (slideLine_spec 0 4 8 12 s (by decide) (by decide) (by decide) (by decide) (by decide) (by decide)).2
    rw [((slideLine_spec 3 7 11 15 (slideLine 2 6 10 14 (slideLine 1 5 9 13 (slideLine 0 4 8 12 s))) (by decide) (by decide) (by decide) (by decide) (by decide) (by decide)).1 0 (by decide) (by decide) (by decide) (by decide)), ((slideLine_spec 3 7 11 15 (slideLine 2 6 10 14 (slideLine 1 5 9 13 (slideLine 0 4 8 12 s))) (by decide) (by decide) (by decide) (by decide) (by decide) (by decide)).1 4 (by decide) (by decide) (by decide) (by decide)), ((slideLine_spec 3 7 11 15 (slideLine 2 6 10 14 (slideLine 1 5 9 13 (slideLine 0 4 8 12 s))) (by decide) (by decide) (by decide) (by decide) (by decide) (by decide)).1 8 (by decide) (by decide) (by decide) (by decide)), ((slideLine_spec 3 7 11 15 (slideLine 2 6 10 14 (slideLine 1 5 9 13 (slideLine 0 4 8 12 s))) (by decide) (by decide) (by decide) (by decide) (by decide) (by decide)).1 12 (by decide) (by decide) (by decide) (by decide))]
    rw [((slideLine_spec 2 6 10 14 (slideLine 1 5 9 13 (slideLine 0 4 8 12 s)) (by decide) (by decide) (by decide) (by decide) (by decide) (by decide)).1 0 (by decide) (by decide) (by decide) (by decide)), ((slideLine_spec 2 6 10 14 (slideLine 1 5 9 13 (slideLine 0 4 8 12 s)) (by decide) (by decide) (by decide) (by decide) (by decide) (by decide)).1 4 (by decide) (by decide) (by decide) (by decide)), ((slideLine_spec 2 6 10 14 (slideLine 1 5 9 13 (slideLine 0 4 8 12 s)) (by decide) (by decide) (by decide) (by decide) (by decide) (by decide)).1 8 (by decide) (by decide) (by decide) (by decide)), ((slideLine_spec 2 6 10 14 (slideLine 1 5 9 13 (slideLine 0 4 8 12 s)) (by decide) (by decide) (by decide) (by decide) (by decide) (by decide)).1 12 (by decide) (by decide) (by decide) (by decide))]
    rw [((slideLine_spec 1 5 9 13 (slideLine 0 4 8 12 s) (by decide) (by decide) (by decide) (by decide) (by decide) (by decide)).1 0 (by decide) (by decide) (by decide) (by decide)), ((slideLine_spec 1 5 9 13 (slideLine 0 4 8 12 s) (by decide) (by decide) (by decide) (by decide) (by decide) (by decide)).1 4 (by decide) (by decide) (by decide) (by decide)), ((slideLine_spec 1 5 9 13 (slideLine 0 4 8 12 s) (by decide) (by decide) (by decide) (by decide) (by decide) (by decide)).1 8 (by decide) (by decide) (by decide) (by decide)), ((slideLine_spec 1 5 9 13 (slideLine 0 4 8 12 s) (by decide) (by decide) (by decide) (by decide) (by decide) (by decide)).1 12 (by decide) (by decide) (by decide) (by decide))]
    exact hv
  · show [(slideLine 3 7 11 15 (slideLine 2 6 10 14 (slideLine 1 5 9 13 (slideLine 0 4 8 12 s)))) 1, (slideLine 3 7 11 15 (slideLine 2 6 10 14 (slideLine 1 5 9 13 (slideLine 0 4 8 12 s)))) 5, (slideLine 3 7 11 15 (slideLine 2 6 10 14 (slideLine 1 5 9 13 (slideLine 0 4 8 12 s)))) 9, (slideLine 3 7 11 15 (slideLine 2 6 10 14 (slideLine 1 5 9 13 (slideLine 0 4 8 12 s)))) 13] = compactEdge [s 1, s 5, s 9, s 13]
    have hv : [(slideLine 1 5 9 13 (slideLine 0 4 8 12 s)) 1, (slideLine 1 5 9 13 (slideLine 0 4 8 12 s)) 5, (slideLine 1 5 9 13 (slideLine 0 4 8 12 s)) 9, (slideLine 1 5 9 13 (slideLine 0 4 8 12 s)) 13] =
        compactEdge [(slideLine 0 4 8 12 s) 1, (slideLine 0 4 8 12 s) 5, (slideLine 0 4 8 12 s) 9, (slideLine 0 4 8 12 s) 13] :=
      (slideLine_spec 1 5 9 13 (slideLine 0 4 8 12 s) (by decide) (by decide) (by decide) (by decide) (by decide) (by decide)).2
    rw [((slideLine_spec 0 4 8 12 s (by decide) (by decide) (by decide) (by decide) (by decide) (by decide)).1 1 (by decide) (by decide) (by decide) (by decide)), ((slideLine_spec 0 4 8 12 s (by decide) (by decide) (by decide) (by decide) (by decide) (by decide)).1 5 (by decide) (by decide) (by decide) (by decide)), ((slideLine_spec 0 4 8 12 s (by decide) (by decide) (by decide) (by decide) (by decide) (by decide)).1 9 (by decide) (by decide) (by decide) (by decide)), ((slideLine_spec 0 4 8 12 s (by decide) (by decide) (by decide) (by decide) (by decide) (by decide)).1 13 (by decide) (by decide) (by decide) (by decide))] at hv
    rw [((slideLine_spec 3 7 11 15 (slideLine 2 6 10 14 (slideLine 1 5 9 13 (slideLine 0 4 8 12 s))) (by decide) (by decide) (by decide) (by decide) (by decide) (by decide)).1 1 (by decide) (by decide) (by decide) (by decide)), ((slideLine_spec 3 7 11 15 (slideLine 2 6 10 14 (slideLine 1 5 9 13 (slideLine 0 4 8 12 s))) (by decide) (by decide) (by decide) (by decide) (by decide) (by decide)).1 5 (by decide) (by decide) (by decide) (by decide)), ((slideLine_spec 3 7 11 15 (slideLine 2 6 10 14 (slideLine 1 5 9 13 (slideLine 0 4 8 12 s))) (by decide) (by decide) (by decide) (by decide) (by decide) (by decide)).1 9 (by decide) (by decide) (by decide) (by decide)), ((slideLine_spec 3 7 11 15 (slideLine 2 6 10 14 (slideLine 1 5 9 13 (slideLine 0 4 8 12 s))) (by decide) (by decide) (by decide) (by decide) (by decide) (by decide)).1 13 (by decide) (by decide) (by decide) (by decide))]
    rw [((slideLine_spec 2 6 10 14 (slideLine 1 5 9 13 (slideLine 0 4 8 12 s)) (by decide) (by decide) (by decide) (by decide) (by decide) (by decide)).1 1 (by decide) (by decide) (by decide) (by decide)), ((slideLine_spec 2 6 10 14 (slideLine 1 5 9 13 (slideLine 0 4 8 12 s)) (by decide) (by decide) (by decide) (by decide) (by decide) (by decide)).1 5 (by decide) (by decide) (by decide) (by decide)), ((slideLine_spec 2 6 10 14 (slideLine 1 5 9 13 (slideLine 0 4 8 12 s)) (by decide) (by decide) (by decide) (by decide) (by decide) (by decide)).1 9 (by decide) (by decide) (by decide) (by decide)), ((slideLine_spec 2 6 10 14 (slideLine 1 5 9 13 (slideLine 0 4 8 12 s)) (by decide) (by decide) (by decide) (by decide) (by decide) (by decide)).1 13 (by decide) (by decide) (by decide) (by decide))]
    exact hv
  · show [(slideLine 3 7 11 15 (slideLine 2 6 10 14 (slideLine 1 5 9 13 (slideLine 0 4 8 12 s)))) 2, (slideLine 3 7 11 15 (slideLine 2 6 10 14 (slideLine 1 5 9 13 (slideLine 0 4 8 12 s)))) 6, (slideLine 3 7 11 15 (slideLine 2 6 10 14 (slideLine 1 5 9 13 (slideLine 0 4 8 12 s)))) 10, (slideLine 3 7 11 15 (slideLine 2 6 10 14 (slideLine 1 5 9 13 (slideLine 0 4 8 12 s)))) 14] = compactEdge [s 2, s 6, s 10, s 14]
    have hv : [(slideLine 2 6 10 14 (slideLine 1 5 9 13 (slideLine 0 4 8 12 s))) 2, (slideLine 2 6 10 14 (slideLine 1 5 9 13 (slideLine 0 4 8 12 s))) 6, (slideLine 2 6 10 14 (slideLine 1 5 9 13 (slideLine 0 4 8 12 s))) 10, (slideLine 2 6 10 14 (slideLine 1 5 9 13 (slideLine 0 4 8 12 s))) 14] =
        compactEdge [(slideLine 1 5 9 13 (slideLine 0 4 8 12 s)) 2, (slideLine 1 5 9 13 (slideLine 0 4 8 12 s)) 6, (slideLine 1 5 9 13 (slideLine 0 4 8 12 s)) 10, (slideLine 1 5 9 13 (slideLine 0 4 8 12 s)) 14] :=
      (slideLine_spec 2 6 10 14 (slideLine 1 5 9 13 (slideLine 0 4 8 12 s)) (by decide) (by decide) (by decide) (by decide) (by decide) (by decide)).2
    rw [((slideLine_spec 1 5 9 13 (slideLine 0 4 8 12 s) (by decide) (by decide) (by decide) (by decide) (by decide) (by decide)).1 2 (by decide) (by decide) (by decide) (by decide)), ((slideLine_spec 1 5 9 13 (slideLine 0 4 8 12 s) (by decide) (by decide) (by decide) (by decide) (by decide) (by decide)).1 6 (by decide) (by decide) (by decide) (by decide)), ((slideLine_spec 1 5 9 13 (slideLine 0 4 8 12 s) (by decide) (by decide) (by decide) (by decide) (by decide) (by decide)).1 10 (by decide) (by decide) (by decide) (by decide)), ((slideLine_spec 1 5 9 13 (slideLine 0 4 8 12 s) (by decide) (by decide) (by decide) (by decide) (by decide) (by decide)).1 14 (by decide) (by decide) (by decide) (by decide))] at hv
    rw [((slideLine_spec 0 4 8 12 s (by decide) (by decide) (by decide) (by decide) (by decide) (by decide)).1 2 (by decide) (by decide) (by decide) (by decide)), ((slideLine_spec 0 4 8 12 s (by decide) (by decide) (by decide) (by decide) (by decide) (by decide)).1 6 (by decide) (by decide) (by decide) (by decide)), ((slideLine_spec 0 4 8 12 s (by decide) (by decide) (by decide) (by decide) (by decide) (by decide)).1 10 (by decide) (by decide) (by decide) (by decide)), ((slideLine_spec 0 4 8 12 s (by decide) (by decide) (by decide) (by decide) (by decide) (by decide)).1 14 (by decide) (by decide) (by decide) (by decide))] at hv
    rw [((slideLine_spec 3 7 11 15 (slideLine 2 6 10 14 (slideLine 1 5 9 13 (slideLine 0 4 8 12 s))) (by decide) (by decide) (by decide) (by decide) (by decide) (by decide)).1 2 (by decide) (by decide) (by decide) (by decide)), ((slideLine_spec 3 7 11 15 (slideLine 2 6 10 14 (slideLine 1 5 9 13 (slideLine 0 4 8 12 s))) (by decide) (by decide) (by decide) (by decide) (by decide) (by decide)).1 6 (by decide) (by decide) (by decide) (by decide)), ((slideLine_spec 3 7 11 15 (slideLine 2 6 10 14 (slideLine 1 5 9 13 (slideLine 0 4 8 12 s))) (by decide) (by decide) (by decide) (by decide) (by decide) (by decide)).1 10 (by decide) (by decide) (by decide) (by decide)), ((slideLine_spec 3 7 11 15 (slideLine 2 6 10 14 (slideLine 1 5 9 13 (slideLine 0 4 8 12 s))) (by decide) (by decide) (by decide) (by decide) (by decide) (by decide)).1 14 (by decide) (by decide) (by decide) (by decide))]
    exact hv
  · show [(slideLine 3 7 11 15 (slideLine 2 6 10 14 (slideLine 1 5 9 13 (slideLine 0 4 8 12 s)))) 3, (slideLine 3 7 11 15 (slideLine 2 6 10 14 (slideLine 1 5 9 13 (slideLine 0 4 8 12 s)))) 7, (slideLine 3 7 11 15 (slideLine 2 6 10 14 (slideLine 1 5 9 13 (slideLine 0 4 8 12 s)))) 11, (slideLine 3 7 11 15 (slideLine 2 6 10 14 (slideLine 1 5 9 13 (slideLine 0 4 8 12 s)))) 15] = compactEdge [s 3, s 7, s 11, s 15]
    have hv : [(slideLine 3 7 11 15 (slideLine 2 6 10 14 (slideLine 1 5 9 13 (slideLine 0 4 8 12 s)))) 3, (slideLine 3 7 11 15 (slideLine 2 6 10 14 (slideLine 1 5 9 13 (slideLine 0 4 8 12 s)))) 7, (slideLine 3 7 11 15 (slideLine 2 6 10 14 (slideLine 1 5 9 13 (slideLine 0 4 8 12 s)))) 11, (slideLine 3 7 11 15 (slideLine 2 6 10 14 (slideLine 1 5 9 13 (slideLine 0 4 8 12 s)))) 15] =
        compactEdge [(slideLine 2 6 10 14 (slideLine 1 5 9 13 (slideLine 0 4 8 12 s))) 3, (slideLine 2 6 10 14 (slideLine 1 5 9 13 (slideLine 0 4 8 12 s))) 7, (slideLine 2 6 10 14 (slideLine 1 5 9 13 (slideLine 0 4 8 12 s))) 11, (slideLine 2 6 10 14 (slideLine 1 5 9 13 (slideLine 0 4 8 12 s))) 15] :=
      (slideLine_spec 3 7 11 15 (slideLine 2 6 10 14 (slideLine 1 5 9 13 (slideLine 0 4 8 12 s))) (by decide) (by decide) (by decide) (by decide) (by decide) (by decide)).2
    rw [((slideLine_spec 2 6 10 14 (slideLine 1 5 9 13 (slideLine 0 4 8 12 s)) (by decide) (by decide) (by decide) (by decide) (by decide) (by decide)).1 3 (by decide) (by decide) (by decide) (by decide)), ((slideLine_spec 2 6 10 14 (slideLine 1 5 9 13 (slideLine 0 4 8 12 s)) (by decide) (by decide) (by decide) (by decide) (by decide) (by decide)).1 7 (by decide) (by decide) (by decide) (by decide)), ((slideLine_spec 2 6 10 14 (slideLine 1 5 9 13 (slideLine 0 4 8 12 s)) (by decide) (by decide) (by decide) (by decide) (by decide) (by decide)).1 11 (by decide) (by decide) (by decide) (by decide)), ((slideLine_spec 2 6 10 14 (slideLine 1 5 9 13 (slideLine 0 4 8 12 s)) (by decide) (by decide) (by decide) (by decide) (by decide) (by decide)).1 15 (by decide) (by decide) (by decide) (by decide))] at hv
    rw [((slideLine_spec 1 5 9 13 (slideLine 0 4 8 12 s) (by decide) (by decide) (by decide) (by decide) (by decide) (by decide)).1 3 (by decide) (by decide) (by decide) (by decide)), ((slideLine_spec 1 5 9 13 (slideLine 0 4 8 12 s) (by decide) (by decide) (by decide) (by decide) (by decide) (by decide)).1 7 (by decide) (by decide) (by decide) (by decide)), ((slideLine_spec 1 5 9 13 (slideLine 0 4 8 12 s) (by decide) (by decide) (by decide) (by decide) (by decide) (by decide)).1 11 (by decide) (by decide) (by decide) (by decide)), ((slideLine_spec 1 5 9 13 (slideLine 0 4 8 12 s) (by decide) (by decide) (by decide) (by decide) (by decide) (by decide)).1 15 (by decide) (by decide) (by decide) (by decide))] at hv
    rw [((slideLine_spec 0 4 8 12 s (by decide) (by decide) (by decide) (by decide) (by decide) (by decide)).1 3 (by decide) (by decide) (by decide) (by decide)), ((slideLine_spec 0 4 8 12 s (by decide) (by decide) (by decide) (by decide) (by decide) (by decide)).1 7 (by decide) (by decide) (by decide) (by decide)), ((slideLine_spec 0 4 8 12 s (by decide) (by decide) (by decide) (by decide) (by decide) (by decide)).1 11 (by decide) (by decide) (by decide) (by decide)), ((slideLine_spec 0 4 8 12 s (by decide) (by decide) (by decide) (by decide) (by decide) (by decide)).1 15 (by decide) (by decide) (by decide) (by decide))] at hv
    exact hv

theorem colList_slide_down (s : Board) (r : Fin 4) :
    colList (slide_down s) r = compactEdgeRev (colList s r) := by
  fin_cases r
  · show [(slideLine 15 11 7 3 (slideLine 14 10 6 2 (slideLine 13 9 5 1 (slideLine 12 8 4 0 s)))) 0, (slideLine 15 11 7 3 (slideLine 14 10 6 2 (slideLine 13 9 5 1 (slideLine 12 8 4 0 s)))) 4, (slideLine 15 11 7 3 (slideLine 14 10 6 2 (slideLine 13 9 5 1 (slideLine 12 8 4 0 s)))) 8, (slideLine 15 11 7 3 (slideLine 14 10 6 2 (slideLine 13 9 5 1 (slideLine 12 8 4 0 s)))) 12] = compactEdgeRev [s 0, s 4, s 8, s 12]
    have hv : [(slideLine 12 8 4 0 s) 12, (slideLine 12 8 4 0 s) 8, (slideLine 12 8 4 0 s) 4, (slideLine 12 8 4 0 s) 0] =
        compactEdge [s 12, s 8, s 4, s 0] :=
      (slideLine_spec 12 8 4 0 s (by decide) (by decide) (by decide) (by decide) (by decide) (by decide)).2
    rw [((slideLine_spec 15 11 7 3 (slideLine 14 10 6 2 (slideLine 13 9 5 1 (slideLine 12 8 4 0 s))) (by decide) (by decide) (by decide) (by decide) (by decide) (by decide)).1 0 (by decide) (by decide) (by decide) (by decide)), ((slideLine_spec 15 11 7 3 (slideLine 14 10 6 2 (slideLine 13 9 5 1 (slideLine 12 8 4 0 s))) (by decide) (by decide) (by decide) (by decide) (by decide) (by decide)).1 4 (by decide) (by decide) (by decide) (by decide)), ((slideLine_spec 15 11 7 3 (slideLine 14 10 6 2 (slideLine 13 9 5 1 (slideLine 12 8 4 0 s))) (by decide) (by decide) (by decide) (by decide) (by decide) (by decide)).1 8 (by decide) (by decide) (by decide) (by decide)), ((slideLine_spec 15 11 7 3 (slideLine 14 10 6 2 (slideLine 13 9 5 1 (slideLine 12 8 4 0 s))) (by decide) (by decide) (by decide) (by decide) (by decide) (by decide)).1 12 (by decide) (by decide) (by decide) (by decide))]
    rw [((slideLine_spec 14 10 6 2 (slideLine 13 9 5 1 (slideLine 12 8 4 0 s)) (by decide) (by decide) (by decide) (by decide) (by decide) (by decide)).1 0 (by decide) (by decide) (by decide) (by decide)), ((slideLine_spec 14 10 6 2 (slideLine 13 9 5 1 (slideLine 12 8 4 0 s)) (by decide) (by decide) (by decide) (by decide) (by decide) (by decide)).1 4 (by decide) (by decide) (by decide) (by decide)), ((slideLine_spec 14 10 6 2 (slideLine 13 9 5 1 (slideLine 12 8 4 0 s)) (by decide) (by decide) (by decide) (by decide) (by decide) (by decide)).1 8 (by decide) (by decide) (by decide) (by decide)), ((slideLine_spec 14 10 6 2 (slideLine 13 9 5 1 (slideLine 12 8 4 0 s)) (by decide) (by decide) (by decide) (by decide) (by decide) (by decide)).1 12 (by decide) (by decide) (by decide) (by decide))]
    rw [((slideLine_spec 13 9 5 1 (slideLine 12 8 4 0 s) (by decide) (by decide) (by decide) (by decide) (by decide) (by decide)).1 0 (by decide) (by decide) (by decide) (by decide)), ((slideLine_spec 13 9 5 1 (slideLine 12 8 4 0 s) (by decide) (by decide) (by decide) (by decide) (by decide) (by decide)).1 4 (by decide) (by decide) (by decide) (by decide)), ((slideLine_spec 13 9 5 1 (slideLine 12 8 4 0 s) (by decide) (by decide) (by decide) (by decide) (by decide) (by decide)).1 8 (by decide) (by decide) (by decide) (by decide)), ((slideLine_spec 13 9 5 1 (slideLine 12 8 4 0 s) (by decide) (by decide) (by decide) (by decide) (by decide) (by decide)).1 12 (by decide) (by decide) (by decide) (by decide))]
    rw [show ([s 0, s 4, s 8, s 12] : List Nat) = [s 12, s 8, s 4, s 0].reverse from rfl, compactEdgeRev_reverse]
    rw [← hv]
    simp
  · show [(slideLine 15 11 7 3 (slideLine 14 10 6 2 (slideLine 13 9 5 1 (slideLine 12 8 4 0 s)))) 1, (slideLine 15 11 7 3 (slideLine 14 10 6 2 (slideLine 13 9 5 1 (slideLine 12 8 4 0 s)))) 5, (slideLine 15 11 7 3 (slideLine 14 10 6 2 (slideLine 13 9 5 1 (slideLine 12 8 4 0 s)))) 9, (slideLine 15 11 7 3 (slideLine 14 10 6 2 (slideLine 13 9 5 1 (slideLine 12 8 4 0 s)))) 13] = compactEdgeRev [s 1, s 5, s 9, s 13]
    have hv : [(slideLine 13 9 5 1 (slideLine 12 8 4 0 s)) 13, (slideLine 13 9 5 1 (slideLine 12 8 4 0 s)) 9, (slideLine 13 9 5 1 (slideLine 12 8 4 0 s)) 5, (slideLine 13 9 5 1 (slideLine 12 8 4 0 s)) 1] =
        compactEdge [(slideLine 12 8 4 0 s) 13, (slideLine 12 8 4 0 s) 9, (slideLine 12 8 4 0 s) 5, (slideLine 12 8 4 0 s) 1] :=
      (slideLine_spec 13 9 5 1 (slideLine 12 8 4 0 s) (by decide) (by decide) (by decide) (by decide) (by decide) (by decide)).2
    rw [((slideLine_spec 12 8 4 0 s (by decide) (by decide) (by decide) (by decide) (by decide) (by decide)).1 13 (by decide) (by decide) (by decide) (by decide)), ((slideLine_spec 12 8 4 0 s (by decide) (by decide) (by decide) (by decide) (by decide) (by decide)).1 9 (by decide) (by decide) (by decide) (by decide)), ((slideLine_spec 12 8 4 0 s (by decide) (by decide) (by decide) (by decide) (by decide) (by decide)).1 5 (by decide) (by decide) (by decide) (by decide)), ((slideLine_spec 12 8 4 0 s (by decide) (by decide) (by decide) (by decide) (by decide) (by decide)).1 1 (by decide) (by decide) (by decide) (by decide))] at hv
    rw [((slideLine_spec 15 11 7 3 (slideLine 14 10 6 2 (slideLine 13 9 5 1 (slideLine 12 8 4 0 s))) (by decide) (by decide) (by decide) (by decide) (by decide) (by decide)).1 1 (by decide) (by decide) (by decide) (by decide)), ((slideLine_spec 15 11 7 3 (slideLine 14 10 6 2 (slideLine 13 9 5 1 (slideLine 12 8 4 0 s))) (by decide) (by decide) (by decide) (by decide) (by decide) (by decide)).1 5 (by decide) (by decide) (by decide) (by decide)), ((slideLine_spec 15 11 7 3 (slideLine 14 10 6 2 (slideLine 13 9 5 1 (slideLine 12 8 4 0 s))) (by decide) (by decide) (by decide) (by decide) (by decide) (by decide)).1 9 (by decide) (by decide) (by decide) (by decide)), ((slideLine_spec 15 11 7 3 (slideLine 14 10 6 2 (slideLine 13 9 5 1 (slideLine 12 8 4 0 s))) (by decide) (by decide) (by decide) (by decide) (by decide) (by decide)).1 13 (by decide) (by decide) (by decide) (by decide))]
    rw [((slideLine_spec 14 10 6 2 (slideLine 13 9 5 1 (slideLine 12 8 4 0 s)) (by decide) (by decide) (by decide) (by decide) (by decide) (by decide)).1 1 (by decide) (by decide) (by decide) (by decide)), ((slideLine_spec 14 10 6 2 (slideLine 13 9 5 1 (slideLine 12 8 4 0 s)) (by decide) (by decide) (by decide) (by decide) (by decide) (by decide)).1 5 (by decide) (by decide) (by decide) (by decide)), ((slideLine_spec 14 10 6 2 (slideLine 13 9 5 1 (slideLine 12 8 4 0 s)) (by decide) (by decide) (by decide) (by decide) (by decide) (by decide)).1 9 (by decide) (by decide) (by decide) (by decide)), ((slideLine_spec 14 10 6 2 (slideLine 13 9 5 1 (slideLine 12 8 4 0 s)) (by decide) (by decide) (by decide) (by decide) (by decide) (by decide)).1 13 (by decide) (by decide) (by decide) (by decide))]
    rw [show ([s 1, s 5, s 9, s 13] : List Nat) = [s 13, s 9, s 5, s 1].reverse from rfl, compactEdgeRev_reverse]
    rw [← hv]
    simp
  · show [(slideLine 15 11 7 3 (slideLine 14 10 6 2 (slideLine 13 9 5 1 (slideLine 12 8 4 0 s)))) 2, (slideLine 15 11 7 3 (slideLine 14 10 6 2 (slideLine 13 9 5 1 (slideLine 12 8 4 0 s)))) 6, (slideLine 15 11 7 3 (slideLine 14 10 6 2 (slideLine 13 9 5 1 (slideLine 12 8 4 0 s)))) 10, (slideLine 15 11 7 3 (slideLine 14 10 6 2 (slideLine 13 9 5 1 (slideLine 12 8 4 0 s)))) 14] = compactEdgeRev [s 2, s 6, s 10, s 14]
    have hv : [(slideLine 14 10 6 2 (slideLine 13 9 5 1 (slideLine 12 8 4 0 s))) 14, (slideLine 14 10 6 2 (slideLine 13 9 5 1 (slideLine 12 8 4 0 s))) 10, (slideLine 14 10 6 2 (slideLine 13 9 5 1 (slideLine 12 8 4 0 s))) 6, (slideLine 14 10 6 2 (slideLine 13 9 5 1 (slideLine 12 8 4 0 s))) 2] =
        compactEdge [(slideLine 13 9 5 1 (slideLine 12 8 4 0 s)) 14, (slideLine 13 9 5 1 (slideLine 12 8 4 0 s)) 10, (slideLine 13 9 5 1 (slideLine 12 8 4 0 s)) 6, (slideLine 13 9 5 1 (slideLine 12 8 4 0 s)) 2] :=
      (slideLine_spec 14 10 6 2 (slideLine 13 9 5 1 (slideLine 12 8 4 0 s)) (by decide) (by decide) (by decide) (by decide) (by decide) (by decide)).2
    rw [((slideLine_spec 13 9 5 1 (slideLine 12 8 4 0 s) (by decide) (by decide) (by decide) (by decide) (by decide) (by decide)).1 14 (by decide) (by decide) (by decide) (by decide)), ((slideLine_spec 13 9 5 1 (slideLine 12 8 4 0 s) (by decide) (by decide) (by decide) (by decide) (by decide) (by decide)).1 10 (by decide) (by decide) (by decide) (by decide)), ((slideLine_spec 13 9 5 1 (slideLine 12 8 4 0 s) (by decide) (by decide) (by decide) (by decide) (by decide) (by decide)).1 6 (by decide) (by decide) (by decide) (by decide)), ((slideLine_spec 13 9 5 1 (slideLine 12 8 4 0 s) (by decide) (by decide) (by decide) (by decide) (by decide) (by decide)).1 2 (by decide) (by decide) (by decide) (by decide))] at hv
    rw [((slideLine_spec 12 8 4 0 s (by decide) (by decide) (by decide) (by decide) (by decide) (by decide)).1 14 (by decide) (by decide) (by decide) (by decide)), ((slideLine_spec 12 8 4 0 s (by decide) (by decide) (by decide) (by decide) (by decide) (by decide)).1 10 (by decide) (by decide) (by decide) (by decide)), ((slideLine_spec 12 8 4 0 s (by decide) (by decide) (by decide) (by decide) (by decide) (by decide)).1 6 (by decide) (by decide) (by decide) (by decide)), ((slideLine_spec 12 8 4 0 s (by decide) (by decide) (by decide) (by decide) (by decide) (by decide)).1 2 (by decide) (by decide) (by decide) (by decide))] at hv
    rw [((slideLine_spec 15 11 7 3 (slideLine 14 10 6 2 (slideLine 13 9 5 1 (slideLine 12 8 4 0 s))) (by decide) (by decide) (by decide) (by decide) (by decide) (by decide)).1 2 (by decide) (by decide) (by decide) (by decide)), ((slideLine_spec 15 11 7 3 (slideLine 14 10 6 2 (slideLine 13 9 5 1 (slideLine 12 8 4 0 s))) (by decide) (by decide) (by decide) (by decide) (by decide) (by decide)).1 6 (by decide) (by decide) (by decide) (by decide)), ((slideLine_spec 15 11 7 3 (slideLine 14 10 6 2 (slideLine 13 9 5 1 (slideLine 12 8 4 0 s))) (by decide) (by decide) (by decide) (by decide) (by decide) (by decide)).1 10 (by decide) (by decide) (by decide) (by decide)), ((slideLine_spec 15 11 7 3 (slideLine 14 10 6 2 (slideLine 13 9 5 1 (slideLine 12 8 4 0 s))) (by decide) (by decide) (by decide) (by decide) (by decide) (by decide)).1 14 (by decide) (by decide) (by decide) (by decide))]
    rw [show ([s 2, s 6, s 10, s 14] : List Nat) = [s 14, s 10, s 6, s 2].reverse from rfl, compactEdgeRev_reverse]
    rw [← hv]
    simp
  · show [(slideLine 15 11 7 3 (slideLine 14 10 6 2 (slideLine 13 9 5 1 (slideLine 12 8 4 0 s)))) 3, (slideLine 15 11 7 3 (slideLine 14 10 6 2 (slideLine 13 9 5 1 (slideLine 12 8 4 0 s)))) 7, (slideLine 15 11 7 3 (slideLine 14 10 6 2 (slideLine 13 9 5 1 (slideLine 12 8 4 0 s)))) 11, (slideLine 15 11 7 3 (slideLine 14 10 6 2 (slideLine 13 9 5 1 (slideLine 12 8 4 0 s)))) 15] = compactEdgeRev [s 3, s 7, s 11, s 15]
    have hv : [(slideLine 15 11 7 3 (slideLine 14 10 6 2 (slideLine 13 9 5 1 (slideLine 12 8 4 0 s)))) 15, (slideLine 15 11 7 3 (slideLine 14 10 6 2 (slideLine 13 9 5 1 (slideLine 12 8 4 0 s)))) 11, (slideLine 15 11 7 3 (slideLine 14 10 6 2 (slideLine 13 9 5 1 (slideLine 12 8 4 0 s)))) 7, (slideLine 15 11 7 3 (slideLine 14 10 6 2 (slideLine 13 9 5 1 (slideLine 12 8 4 0 s)))) 3] =
        compactEdge [(slideLine 14 10 6 2 (slideLine 13 9 5 1 (slideLine 12 8 4 0 s))) 15, (slideLine 14 10 6 2 (slideLine 13 9 5 1 (slideLine 12 8 4 0 s))) 11, (slideLine 14 10 6 2 (slideLine 13 9 5 1 (slideLine 12 8 4 0 s))) 7, (slideLine 14 10 6 2 (slideLine 13 9 5 1 (slideLine 12 8 4 0 s))) 3] :=
      (slideLine_spec 15 11 7 3 (slideLine 14 10 6 2 (slideLine 13 9 5 1 (slideLine 12 8 4 0 s))) (by decide) (by decide) (by decide) (by decide) (by decide) (by decide)).2
    rw [((slideLine_spec 14 10 6 2 (slideLine 13 9 5 1 (slideLine 12 8 4 0 s)) (by decide) (by decide) (by decide) (by decide) (by decide) (by decide)).1 15 (by decide) (by decide) (by decide) (by decide)), ((slideLine_spec 14 10 6 2 (slideLine 13 9 5 1 (slideLine 12 8 4 0 s)) (by decide) (by decide) (by decide) (by decide) (by decide) (by decide)).1 11 (by decide) (by decide) (by decide) (by decide)), ((slideLine_spec 14 10 6 2 (slideLine 13 9 5 1 (slideLine 12 8 4 0 s)) (by decide) (by decide) (by decide) (by decide) (by decide) (by decide)).1 7 (by decide) (by decide) (by decide) (by decide)), ((slideLine_spec 14 10 6 2 (slideLine 13 9 5 1 (slideLine 12 8 4 0 s)) (by decide) (by decide) (by decide) (by decide) (by decide) (by decide)).1 3 (by decide) (by decide) (by decide) (by decide))] at hv
    rw [((slideLine_spec 13 9 5 1 (slideLine 12 8 4 0 s) (by decide) (by decide) (by decide) (by decide) (by decide) (by decide)).1 15 (by decide) (by decide) (by decide) (by decide)), ((slideLine_spec 13 9 5 1 (slideLine 12 8 4 0 s) (by decide) (by decide) (by decide) (by decide) (by decide) (by decide)).1 11 (by decide) (by decide) (by decide) (by decide)), ((slideLine_spec 13 9 5 1 (slideLine 12 8 4 0 s) (by decide) (by decide) (by decide) (by decide) (by decide) (by decide)).1 7 (by decide) (by decide) (by decide) (by decide)), ((slideLine_spec 13 9 5 1 (slideLine 12 8 4 0 s) (by decide) (by decide) (by decide) (by decide) (by decide) (by decide)).1 3 (by decide) (by decide) (by decide) (by decide))] at hv
    rw [((slideLine_spec 12 8 4 0 s (by decide) (by decide) (by decide) (by decide) (by decide) (by decide)).1 15 (by decide) (by decide) (by decide) (by decide)), ((slideLine_spec 12 8 4 0 s (by decide) (by decide) (by decide) (by decide) (by decide) (by decide)).1 11 (by decide) (by decide) (by decide) (by decide)), ((slideLine_spec 12 8 4 0 s (by decide) (by decide) (by decide) (by decide) (by decide) (by decide)).1 7 (by decide) (by decide) (by decide) (by decide)), ((slideLine_spec 12 8 4 0 s (by decide) (by decide) (by decide) (by decide) (by decide) (by decide)).1 3 (by decide) (by decide) (by decide) (by decide))] at hv
    rw [show ([s 3, s 7, s 11, s 15] : List Nat) = [s 15, s 11, s 7, s 3].reverse from rfl, compactEdgeRev_reverse]
    rw [← hv]
    simp

theorem rowList_merge_left (s : Board) (r : Fin 4) :
    rowList (merge_left s) r = sweepSpec (rowList s r) := by
  fin_cases r
  · show [(mergeLine 12 13 14 15 (mergeLine 8 9 10 11 (mergeLine 4 5 6 7 (mergeLine 0 1 2 3 s)))) 0, (mergeLine 12 13 14 15 (mergeLine 8 9 10 11 (mergeLine 4 5 6 7 (mergeLine 0 1 2 3 s)))) 1, (mergeLine 12 13 14 15 (mergeLine 8 9 10 11 (mergeLine 4 5 6 7 (mergeLine 0 1 2 3 s)))) 2, (mergeLine 12 13 14 15 (mergeLine 8 9 10 11 (mergeLine 4 5 6 7 (mergeLine 0 1 2 3 s)))) 3] = sweepSpec [s 0, s 1, s 2, s 3]
    have hv : [(mergeLine 0 1 2 3 s) 0, (mergeLine 0 1 2 3 s) 1, (mergeLine 0 1 2 3 s) 2, (mergeLine 0 1 2 3 s) 3] =
        sweepSpec [s 0, s 1, s 2, s 3] :=
      (mergeLine_spec 0 1 2 3 s (by decide) (by decide) (by decide) (by decide) (by decide) (by decide)).2
    rw [((mergeLine_spec 12 13 14 15 (mergeLine 8 9 10 11 (mergeLine 4 5 6 7 (mergeLine 0 1 2 3 s))) (by decide) (by decide) (by decide) (by decide) (by decide) (by decide)).1 0 (by decide) (by decide) (by decide) (by decide)), ((mergeLine_spec 12 13 14 15 (mergeLine 8 9 10 11 (mergeLine 4 5 6 7 (mergeLine 0 1 2 3 s))) (by decide) (by decide) (by decide) (by decide) (by decide) (by decide)).1 1 (by decide) (by decide) (by decide) (by decide)), ((mergeLine_spec 12 13 14 15 (mergeLine 8 9 10 11 (mergeLine 4 5 6 7 (mergeLine 0 1 2 3 s))) (by decide) (by decide) (by decide) (by decide) (by decide) (by decide)).1 2 (by decide) (by decide) (by decide) (by decide)), ((mergeLine_spec 12 13 14 15 (mergeLine 8 9 10 11 (mergeLine 4 5 6 7 (mergeLine 0 1 2 3 s))) (by decide) (by decide) (by decide) (by decide) (by decide) (by decide)).1 3 (by decide) (by decide) (by decide) (by decide))]
    rw [((mergeLine_spec 8 9 10 11 (mergeLine 4 5 6 7 (mergeLine 0 1 2 3 s)) (by decide) (by decide) (by decide) (by decide) (by decide) (by decide)).1 0 (by decide) (by decide) (by decide) (by decide)), ((mergeLine_spec 8 9 10 11 (mergeLine 4 5 6 7 (mergeLine 0 1 2 3 s)) (by decide) (by decide) (by decide) (by decide) (by decide) (by decide)).1 1 (by decide) (by decide) (by decide) (by decide)), ((mergeLine_spec 8 9 10 11 (mergeLine 4 5 6 7 (mergeLine 0 1 2 3 s)) (by decide) (by decide) (by decide) (by decide) (by decide) (by decide)).1 2 (by decide) (by decide) (by decide) (by decide)), ((mergeLine_spec 8 9 10 11 (mergeLine 4 5 6 7 (mergeLine 0 1 2 3 s)) (by decide) (by decide) (by decide) (by decide) (by decide) (by decide)).1 3 (by decide) (by decide) (by decide) (by decide))]
    rw [((mergeLine_spec 4 5 6 7 (mergeLine 0 1 2 3 s) (by decide) (by decide) (by decide) (by decide) (by decide) (by decide)).1 0 (by decide) (by decide) (by decide) (by decide)), ((mergeLine_spec 4 5 6 7 (mergeLine 0 1 2 3 s) (by decide) (by decide) (by decide) (by decide) (by decide) (by decide)).1 1 (by decide) (by decide) (by decide) (by decide)), ((mergeLine_spec 4 5 6 7 (mergeLine 0 1 2 3 s) (by decide) (by decide) (by decide) (by decide) (by decide) (by decide)).1 2 (by decide) (by decide) (by decide) (by decide)), ((mergeLine_spec 4 5 6 7 (mergeLine 0 1 2 3 s) (by decide) (by decide) (by decide) (by decide) (by decide) (by decide)).1 3 (by decide) (by decide) (by decide) (by decide))]
    exact hv
  · show [(mergeLine 12 13 14 15 (mergeLine 8 9 10 11 (mergeLine 4 5 6 7 (mergeLine 0 1 2 3 s)))) 4, (mergeLine 12 13 14 15 (mergeLine 8 9 10 11 (mergeLine 4 5 6 7 (mergeLine 0 1 2 3 s)))) 5, (mergeLine 12 13 14 15 (mergeLine 8 9 10 11 (mergeLine 4 5 6 7 (mergeLine 0 1 2 3 s)))) 6, (mergeLine 12 13 14 15 (mergeLine 8 9 10 11 (mergeLine 4 5 6 7 (mergeLine 0 1 2 3 s)))) 7] = sweepSpec [s 4, s 5, s 6, s 7]
    have hv : [(mergeLine 4 5 6 7 (mergeLine 0 1 2 3 s)) 4, (mergeLine 4 5 6 7 (mergeLine 0 1 2 3 s)) 5, (mergeLine 4 5 6 7 (mergeLine 0 1 2 3 s)) 6, (mergeLine 4 5 6 7 (mergeLine 0 1 2 3 s)) 7] =
        sweepSpec [(mergeLine 0 1 2 3 s) 4, (mergeLine 0 1 2 3 s) 5, (mergeLine 0 1 2 3 s) 6, (mergeLine 0 1 2 3 s) 7] :=
      (mergeLine_spec 4 5 6 7 (mergeLine 0 1 2 3 s) (by decide) (by decide) (by decide) (by decide) (by decide) (by decide)).2
    rw [((mergeLine_spec 0 1 2 3 s (by decide) (by decide) (by decide) (by decide) (by decide) (by decide)).1 4 (by decide) (by decide) (by decide) (by decide)), ((mergeLine_spec 0 1 2 3 s (by decide) (by decide) (by decide) (by decide) (by decide) (by decide)).1 5 (by decide) (by decide) (by decide) (by decide)), ((mergeLine_spec 0 1 2 3 s (by decide) (by decide) (by decide) (by decide) (by decide) (by decide)).1 6 (by decide) (by decide) (by decide) (by decide)), ((mergeLine_spec 0 1 2 3 s (by decide) (by decide) (by decide) (by decide) (by decide) (by decide)).1 7 (by decide) (by decide) (by decide) (by decide))] at hv
    rw [((mergeLine_spec 12 13 14 15 (mergeLine 8 9 10 11 (mergeLine 4 5 6 7 (mergeLine 0 1 2 3 s))) (by decide) (by decide) (by decide) (by decide) (by decide) (by decide)).1 4 (by decide) (by decide) (by decide) (by decide)), ((mergeLine_spec 12 13 14 15 (mergeLine 8 9 10 11 (mergeLine 4 5 6 7 (mergeLine 0 1 2 3 s))) (by decide) (by decide) (by decide) (by decide) (by decide) (by decide)).1 5 (by decide) (by decide) (by decide) (by decide)), ((mergeLine_spec 12 13 14 15 (mergeLine 8 9 10 11 (mergeLine 4 5 6 7 (mergeLine 0 1 2 3 s))) (by decide) (by decide) (by decide) (by decide) (by decide) (by decide)).1 6 (by decide) (by decide) (by decide) (by decide)), ((mergeLine_spec 12 13 14 15 (mergeLine 8 9 10 11 (mergeLine 4 5 6 7 (mergeLine 0 1 2 3 s))) (by decide) (by decide) (by decide) (by decide) (by decide) (by decide)).1 7 (by decide) (by decide) (by decide) (by decide))]
    rw [((mergeLine_spec 8 9 10 11 (mergeLine 4 5 6 7 (mergeLine 0 1 2 3 s)) (by decide) (by decide) (by decide) (by decide) (by decide) (by decide)).1 4 (by decide) (by decide) (by decide) (by decide)), ((mergeLine_spec 8 9 10 11 (mergeLine 4 5 6 7 (mergeLine 0 1 2 3 s)) (by decide) (by decide) (by decide) (by decide) (by decide) (by decide)).1 5 (by decide) (by decide) (by decide) (by decide)), ((mergeLine_spec 8 9 10 11 (mergeLine 4 5 6 7 (mergeLine 0 1 2 3 s)) (by decide) (by decide) (by decide) (by decide) (by decide) (by decide)).1 6 (by decide) (by decide) (by decide) (by decide)), ((mergeLine_spec 8 9 10 11 (mergeLine 4 5 6 7 (mergeLine 0 1 2 3 s)) (by decide) (by decide) (by decide) (by decide) (by decide) (by decide)).1 7 (by decide) (by decide) (by decide) (by decide))]
    exact hv
  · show [(mergeLine 12 13 14 15 (mergeLine 8 9 10 11 (mergeLine 4 5 6 7 (mergeLine 0 1 2 3 s)))) 8, (mergeLine 12 13 14 15 (mergeLine 8 9 10 11 (mergeLine 4 5 6 7 (mergeLine 0 1 2 3 s)))) 9, (mergeLine 12 13 14 15 (mergeLine 8 9 10 11 (mergeLine 4 5 6 7 (mergeLine 0 1 2 3 s)))) 10, (mergeLine 12 13 14 15 (mergeLine 8 9 10 11 (mergeLine 4 5 6 7 (mergeLine 0 1 2 3 s)))) 11] = sweepSpec [s 8, s 9, s 10, s 11]
    have hv : [(mergeLine 8 9 10 11 (mergeLine 4 5 6 7 (mergeLine 0 1 2 3 s))) 8, (mergeLine 8 9 10 11 (mergeLine 4 5 6 7 (mergeLine 0 1 2 3 s))) 9, (mergeLine 8 9 10 11 (mergeLine 4 5 6 7 (mergeLine 0 1 2 3 s))) 10, (mergeLine 8 9 10 11 (mergeLine 4 5 6 7 (mergeLine 0 1 2 3 s))) 11] =
        sweepSpec [(mergeLine 4 5 6 7 (mergeLine 0 1 2 3 s)) 8, (mergeLine 4 5 6 7 (mergeLine 0 1 2 3 s)) 9, (mergeLine 4 5 6 7 (mergeLine 0 1 2 3 s)) 10, (mergeLine 4 5 6 7 (mergeLine 0 1 2 3 s)) 11] :=
      (mergeLine_spec 8 9 10 11 (mergeLine 4 5 6 7 (mergeLine 0 1 2 3 s)) (by decide) (by decide) (by decide) (by decide) (by decide) (by decide)).2
    rw [((mergeLine_spec 4 5 6 7 (mergeLine 0 1 2 3 s) (by decide) (by decide) (by decide) (by decide) (by decide) (by decide)).1 8 (by decide) (by decide) (by decide) (by decide)), ((mergeLine_spec 4 5 6 7 (mergeLine 0 1 2 3 s) (by decide) (by decide) (by decide) (by decide) (by decide) (by decide)).1 9 (by decide) (by decide) (by decide) (by decide)), ((mergeLine_spec 4 5 6 7 (mergeLine 0 1 2 3 s) (by decide) (by decide) (by decide) (by decide) (by decide) (by decide)).1 10 (by decide) (by decide) (by decide) (by decide)), ((mergeLine_spec 4 5 6 7 (mergeLine 0 1 2 3 s) (by decide) (by decide) (by decide) (by decide) (by decide) (by decide)).1 11 (by decide) (by decide) (by decide) (by decide))] at hv
    rw [((mergeLine_spec 0 1 2 3 s (by decide) (by decide) (by decide) (by decide) (by decide) (by decide)).1 8 (by decide) (by decide) (by decide) (by decide)), ((mergeLine_spec 0 1 2 3 s (by decide) (by decide) (by decide) (by decide) (by decide) (by decide)).1 9 (by decide) (by decide) (by decide) (by decide)), ((mergeLine_spec 0 1 2 3 s (by decide) (by decide) (by decide) (by decide) (by decide) (by decide)).1 10 (by decide) (by decide) (by decide) (by decide)), ((mergeLine_spec 0 1 2 3 s (by decide) (by decide) (by decide) (by decide) (by decide) (by decide)).1 11 (by decide) (by decide) (by decide) (by decide))] at hv
    rw [((mergeLine_spec 12 13 14 15 (mergeLine 8 9 10 11 (mergeLine 4 5 6 7 (mergeLine 0 1 2 3 s))) (by decide) (by decide) (by decide) (by decide) (by decide) (by decide)).1 8 (by decide) (by decide) (by decide) (by decide)), ((mergeLine_spec 12 13 14 15 (mergeLine 8 9 10 11 (mergeLine 4 5 6 7 (mergeLine 0 1 2 3 s))) (by decide) (by decide) (by decide) (by decide) (by decide) (by decide)).1 9 (by decide) (by decide) (by decide) (by decide)), ((mergeLine_spec 12 13 14 15 (mergeLine 8 9 10 11 (mergeLine 4 5 6 7 (mergeLine 0 1 2 3 s))) (by decide) (by decide) (by decide) (by decide) (by decide) (by decide)).1 10 (by decide) (by decide) (by decide) (by decide)), ((mergeLine_spec 12 13 14 15 (mergeLine 8 9 10 11 (mergeLine 4 5 6 7 (mergeLine 0 1 2 3 s))) (by decide) (by decide) (by decide) (by decide) (by decide) (by decide)).1 11 (by decide) (by decide) (by decide) (by decide))]
    exact hv
  · show [(mergeLine 12 13 14 15 (mergeLine 8 9 10 11 (mergeLine 4 5 6 7 (mergeLine 0 1 2 3 s)))) 12, (mergeLine 12 13 14 15 (mergeLine 8 9 10 11 (mergeLine 4 5 6 7 (mergeLine 0 1 2 3 s)))) 13, (mergeLine 12 13 14 15 (mergeLine 8 9 10 11 (mergeLine 4 5 6 7 (mergeLine 0 1 2 3 s)))) 14, (mergeLine 12 13 14 15 (mergeLine 8 9 10 11 (mergeLine 4 5 6 7 (mergeLine 0 1 2 3 s)))) 15] = sweepSpec [s 12, s 13, s 14, s 15]
    have hv : [(mergeLine 12 13 14 15 (mergeLine 8 9 10 11 (mergeLine 4 5 6 7 (mergeLine 0 1 2 3 s)))) 12, (mergeLine 12 13 14 15 (mergeLine 8 9 10 11 (mergeLine 4 5 6 7 (mergeLine 0 1 2 3 s)))) 13, (mergeLine 12 13 14 15 (mergeLine 8 9 10 11 (mergeLine 4 5 6 7 (mergeLine 0 1 2 3 s)))) 14, (mergeLine 12 13 14 15 (mergeLine 8 9 10 11 (mergeLine 4 5 6 7 (mergeLine 0 1 2 3 s)))) 15] =
        sweepSpec [(mergeLine 8 9 10 11 (mergeLine 4 5 6 7 (mergeLine 0 1 2 3 s))) 12, (mergeLine 8 9 10 11 (mergeLine 4 5 6 7 (mergeLine 0 1 2 3 s))) 13, (mergeLine 8 9 10 11 (mergeLine 4 5 6 7 (mergeLine 0 1 2 3 s))) 14, (mergeLine 8 9 10 11 (mergeLine 4 5 6 7 (mergeLine 0 1 2 3 s))) 15] :=
      (mergeLine_spec 12 13 14 15 (mergeLine 8 9 10 11 (mergeLine 4 5 6 7 (mergeLine 0 1 2 3 s))) (by decide) (by decide) (by decide) (by decide) (by decide) (by decide)).2
    rw [((mergeLine_spec 8 9 10 11 (mergeLine 4 5 6 7 (mergeLine 0 1 2 3 s)) (by decide) (by decide) (by decide) (by decide) (by decide) (by decide)).1 12 (by decide) (by decide) (by decide) (by decide)), ((mergeLine_spec 8 9 10 11 (mergeLine 4 5 6 7 (mergeLine 0 1 2 3 s)) (by decide) (by decide) (by decide) (by decide) (by decide) (by decide)).1 13 (by decide) (by decide) (by decide) (by decide)), ((mergeLine_spec 8 9 10 11 (mergeLine 4 5 6 7 (mergeLine 0 1 2 3 s)) (by decide) (by decide) (by decide) (by decide) (by decide) (by decide)).1 14 (by decide) (by decide) (by decide) (by decide)), ((mergeLine_spec 8 9 10 11 (mergeLine 4 5 6 7 (mergeLine 0 1 2 3 s)) (by decide) (by decide) (by decide) (by decide) (by decide) (by decide)).1 15 (by decide) (by decide) (by decide) (by decide))] at hv
    rw [((mergeLine_spec 4 5 6 7 (mergeLine 0 1 2 3 s) (by decide) (by decide) (by decide) (by decide) (by decide) (by decide)).1 12 (by decide) (by decide) (by decide) (by decide)), ((mergeLine_spec 4 5 6 7 (mergeLine 0 1 2 3 s) (by decide) (by decide) (by decide) (by decide) (by decide) (by decide)).1 13 (by decide) (by decide) (by decide) (by decide)), ((mergeLine_spec 4 5 6 7 (mergeLine 0 1 2 3 s) (by decide) (by decide) (by decide) (by decide) (by decide) (by decide)).1 14 (by decide) (by decide) (by decide) (by decide)), ((mergeLine_spec 4 5 6 7 (mergeLine 0 1 2 3 s) (by decide) (by decide) (by decide) (by decide) (by decide) (by decide)).1 15 (by decide) (by decide) (by decide) (by decide))] at hv
    rw [((mergeLine_spec 0 1 2 3 s (by decide) (by decide) (by decide) (by decide) (by decide) (by decide)).1 12 (by decide) (by decide) (by decide) (by decide)), ((mergeLine_spec 0 1 2 3 s (by decide) (by decide) (by decide) (by decide) (by decide) (by decide)).1 13 (by decide) (by decide) (by decide) (by decide)), ((mergeLine_spec 0 1 2 3 s (by decide) (by decide) (by decide) (by decide) (by decide) (by decide)).1 14 (by decide) (by decide) (by decide) (by decide)), ((mergeLine_spec 0 1 2 3 s (by decide) (by decide) (by decide) (by decide) (by decide) (by decide)).1 15 (by decide) (by decide) (by decide) (by decide))] at hv
    exact hv

theorem rowList_merge_right (s : Board) (r : Fin 4) :
    (rowList (merge_right s) r).reverse = sweepSpec ((rowList s r).reverse) := by
  fin_cases r
  · show [(mergeLine 15 14 13 12 (mergeLine 11 10 9 8 (mergeLine 7 6 5 4 (mergeLine 3 2 1 0 s)))) 0, (mergeLine 15 14 13 12 (mergeLine 11 10 9 8 (mergeLine 7 6 5 4 (mergeLine 3 2 1 0 s)))) 1, (mergeLine 15 14 13 12 (mergeLine 11 10 9 8 (mergeLine 7 6 5 4 (mergeLine 3 2 1 0 s)))) 2, (mergeLine 15 14 13 12 (mergeLine 11 10 9 8 (mergeLine 7 6 5 4 (mergeLine 3 2 1 0 s)))) 3].reverse = sweepSpec [s 0, s 1, s 2, s 3].reverse
    have hv : [(mergeLine 3 2 1 0 s) 3, (mergeLine 3 2 1 0 s) 2, (mergeLine 3 2 1 0 s) 1, (mergeLine 3 2 1 0 s) 0] =
        sweepSpec [s 3, s 2, s 1, s 0] :=
      (mergeLine_spec 3 2 1 0 s (by decide) (by decide) (by decide) (by decide) (by decide) (by decide)).2
    rw [((mergeLine_spec 15 14 13 12 (mergeLine 11 10 9 8 (mergeLine 7 6 5 4 (mergeLine 3 2 1 0 s))) (by decide) (by decide) (by decide) (by decide) (by decide) (by decide)).1 0 (by decide) (by decide) (by decide) (by decide)), ((mergeLine_spec 15 14 13 12 (mergeLine 11 10 9 8 (mergeLine 7 6 5 4 (mergeLine 3 2 1 0 s))) (by decide) (by decide) (by decide) (by decide) (by decide) (by decide)).1 1 (by decide) (by decide) (by decide) (by decide)), ((mergeLine_spec 15 14 13 12 (mergeLine 11 10 9 8 (mergeLine 7 6 5 4 (mergeLine 3 2 1 0 s))) (by decide) (by decide) (by decide) (by decide) (by decide) (by decide)).1 2 (by decide) (by decide) (by decide) (by decide)), ((mergeLine_spec 15 14 13 12 (mergeLine 11 10 9 8 (mergeLine 7 6 5 4 (mergeLine 3 2 1 0 s))) (by decide) (by decide) (by decide) (by decide) (by decide) (by decide)).1 3 (by decide) (by decide) (by decide) (by decide))]
    rw [((mergeLine_spec 11 10 9 8 (mergeLine 7 6 5 4 (mergeLine 3 2 1 0 s)) (by decide) (by decide) (by decide) (by decide) (by decide) (by decide)).1 0 (by decide) (by decide) (by decide) (by decide)), ((mergeLine_spec 11 10 9 8 (mergeLine 7 6 5 4 (mergeLine 3 2 1 0 s)) (by decide) (by decide) (by decide) (by decide) (by decide) (by decide)).1 1 (by decide) (by decide) (by decide) (by decide)), ((mergeLine_spec 11 10 9 8 (mergeLine 7 6 5 4 (mergeLine 3 2 1 0 s)) (by decide) (by decide) (by decide) (by decide) (by decide) (by decide)).1 2 (by decide) (by decide) (by decide) (by decide)), ((mergeLine_spec 11 10 9 8 (mergeLine 7 6 5 4 (mergeLine 3 2 1 0 s)) (by decide) (by decide) (by decide) (by decide) (by decide) (by decide)).1 3 (by decide) (by decide) (by decide) (by decide))]
    rw [((mergeLine_spec 7 6 5 4 (mergeLine 3 2 1 0 s) (by decide) (by decide) (by decide) (by decide) (by decide) (by decide)).1 0 (by decide) (by decide) (by decide) (by decide)), ((mergeLine_spec 7 6 5 4 (mergeLine 3 2 1 0 s) (by decide) (by decide) (by decide) (by decide) (by decide) (by decide)).1 1 (by decide) (by decide) (by decide) (by decide)), ((mergeLine_spec 7 6 5 4 (mergeLine 3 2 1 0 s) (by decide) (by decide) (by decide) (by decide) (by decide) (by decide)).1 2 (by decide) (by decide) (by decide) (by decide)), ((mergeLine_spec 7 6 5 4 (mergeLine 3 2 1 0 s) (by decide) (by decide) (by decide) (by decide) (by decide) (by decide)).1 3 (by decide) (by decide) (by decide) (by decide))]
    simp only [List.reverse_cons, List.reverse_nil, List.nil_append, List.cons_append, List.append_nil]
    exact hv
  · show [(mergeLine 15 14 13 12 (mergeLine 11 10 9 8 (mergeLine 7 6 5 4 (mergeLine 3 2 1 0 s)))) 4, (mergeLine 15 14 13 12 (mergeLine 11 10 9 8 (mergeLine 7 6 5 4 (mergeLine 3 2 1 0 s)))) 5, (mergeLine 15 14 13 12 (mergeLine 11 10 9 8 (mergeLine 7 6 5 4 (mergeLine 3 2 1 0 s)))) 6, (mergeLine 15 14 13 12 (mergeLine 11 10 9 8 (mergeLine 7 6 5 4 (mergeLine 3 2 1 0 s)))) 7].reverse = sweepSpec [s 4, s 5, s 6, s 7].reverse
    have hv : [(mergeLine 7 6 5 4 (mergeLine 3 2 1 0 s)) 7, (mergeLine 7 6 5 4 (mergeLine 3 2 1 0 s)) 6, (mergeLine 7 6 5 4 (mergeLine 3 2 1 0 s)) 5, (mergeLine 7 6 5 4 (mergeLine 3 2 1 0 s)) 4] =
        sweepSpec [(mergeLine 3 2 1 0 s) 7, (mergeLine 3 2 1 0 s) 6, (mergeLine 3 2 1 0 s) 5, (mergeLine 3 2 1 0 s) 4] :=
      (mergeLine_spec 7 6 5 4 (mergeLine 3 2 1 0 s) (by decide) (by decide) (by decide) (by decide) (by decide) (by decide)).2
    rw [((mergeLine_spec 3 2 1 0 s (by decide) (by decide) (by decide) (by decide) (by decide) (by decide)).1 7 (by decide) (by decide) (by decide) (by decide)), ((mergeLine_spec 3 2 1 0 s (by decide) (by decide) (by decide) (by decide) (by decide) (by decide)).1 6 (by decide) (by decide) (by decide) (by decide)), ((mergeLine_spec 3 2 1 0 s (by decide) (by decide) (by decide) (by decide) (by decide) (by decide)).1 5 (by decide) (by decide) (by decide) (by decide)), ((mergeLine_spec 3 2 1 0 s (by decide) (by decide) (by decide) (by decide) (by decide) (by decide)).1 4 (by decide) (by decide) (by decide) (by decide))] at hv
    rw [((mergeLine_spec 15 14 13 12 (mergeLine 11 10 9 8 (mergeLine 7 6 5 4 (mergeLine 3 2 1 0 s))) (by decide) (by decide) (by decide) (by decide) (by decide) (by decide)).1 4 (by decide) (by decide) (by decide) (by decide)), ((mergeLine_spec 15 14 13 12 (mergeLine 11 10 9 8 (mergeLine 7 6 5 4 (mergeLine 3 2 1 0 s))) (by decide) (by decide) (by decide) (by decide) (by decide) (by decide)).1 5 (by decide) (by decide) (by decide) (by decide)), ((mergeLine_spec 15 14 13 12 (mergeLine 11 10 9 8 (mergeLine 7 6 5 4 (mergeLine 3 2 1 0 s))) (by decide) (by decide) (by decide) (by decide) (by decide) (by decide)).1 6 (by decide) (by decide) (by decide) (by decide)), ((mergeLine_spec 15 14 13 12 (mergeLine 11 10 9 8 (mergeLine 7 6 5 4 (mergeLine 3 2 1 0 s))) (by decide) (by decide) (by decide) (by decide) (by decide) (by decide)).1 7 (by decide) (by decide) (by decide) (by decide))]
    rw [((mergeLine_spec 11 10 9 8 (mergeLine 7 6 5 4 (mergeLine 3 2 1 0 s)) (by decide) (by decide) (by decide) (by decide) (by decide) (by decide)).1 4 (by decide) (by decide) (by decide) (by decide)), ((mergeLine_spec 11 10 9 8 (mergeLine 7 6 5 4 (mergeLine 3 2 1 0 s)) (by decide) (by decide) (by decide) (by decide) (by decide) (by decide)).1 5 (by decide) (by decide) (by decide) (by decide)), ((mergeLine_spec 11 10 9 8 (mergeLine 7 6 5 4 (mergeLine 3 2 1 0 s)) (by decide) (by decide) (by decide) (by decide) (by decide) (by decide)).1 6 (by decide) (by decide) (by decide) (by decide)), ((mergeLine_spec 11 10 9 8 (mergeLine 7 6 5 4 (mergeLine 3 2 1 0 s)) (by decide) (by decide) (by decide) (by decide) (by decide) (by decide)).1 7 (by decide) (by decide) (by decide) (by decide))]
    simp only [List.reverse_cons, List.reverse_nil, List.nil_append, List.cons_append, List.append_nil]
    exact hv
  · show [(mergeLine 15 14 13 12 (mergeLine 11 10 9 8 (mergeLine 7 6 5 4 (mergeLine 3 2 1 0 s)))) 8, (mergeLine 15 14 13 12 (mergeLine 11 10 9 8 (mergeLine 7 6 5 4 (mergeLine 3 2 1 0 s)))) 9, (mergeLine 15 14 13 12 (mergeLine 11 10 9 8 (mergeLine 7 6 5 4 (mergeLine 3 2 1 0 s)))) 10, (mergeLine 15 14 13 12 (mergeLine 11 10 9 8 (mergeLine 7 6 5 4 (mergeLine 3 2 1 0 s)))) 11].reverse = sweepSpec [s 8, s 9, s 10, s 11].reverse
    have hv : [(mergeLine 11 10 9 8 (mergeLine 7 6 5 4 (mergeLine 3 2 1 0 s))) 11, (mergeLine 11 10 9 8 (mergeLine 7 6 5 4 (mergeLine 3 2 1 0 s))) 10, (mergeLine 11 10 9 8 (mergeLine 7 6 5 4 (mergeLine 3 2 1 0 s))) 9, (mergeLine 11 10 9 8 (mergeLine 7 6 5 4 (mergeLine 3 2 1 0 s))) 8] =
        sweepSpec [(mergeLine 7 6 5 4 (mergeLine 3 2 1 0 s)) 11, (mergeLine 7 6 5 4 (mergeLine 3 2 1 0 s)) 10, (mergeLine 7 6 5 4 (mergeLine 3 2 1 0 s)) 9, (mergeLine 7 6 5 4 (mergeLine 3 2 1 0 s)) 8] :=
      (mergeLine_spec 11 10 9 8 (mergeLine 7 6 5 4 (mergeLine 3 2 1 0 s)) (by decide) (by decide) (by decide) (by decide) (by decide) (by decide)).2
    rw [((mergeLine_spec 7 6 5 4 (mergeLine 3 2 1 0 s) (by decide) (by decide) (by decide) (by decide) (by decide) (by decide)).1 11 (by decide) (by decide) (by decide) (by decide)), ((mergeLine_spec 7 6 5 4 (mergeLine 3 2 1 0 s) (by decide) (by decide) (by decide) (by decide) (by decide) (by decide)).1 10 (by decide) (by decide) (by decide) (by decide)), ((mergeLine_spec 7 6 5 4 (mergeLine 3 2 1 0 s) (by decide) (by decide) (by decide) (by decide) (by decide) (by decide)).1 9 (by decide) (by decide) (by decide) (by decide)), ((mergeLine_spec 7 6 5 4 (mergeLine 3 2 1 0 s) (by decide) (by decide) (by decide) (by decide) (by decide) (by decide)).1 8 (by decide) (by decide) (by decide) (by decide))] at hv
    rw [((mergeLine_spec 3 2 1 0 s (by decide) (by decide) (by decide) (by decide) (by decide) (by decide)).1 11 (by decide) (by decide) (by decide) (by decide)), ((mergeLine_spec 3 2 1 0 s (by decide) (by decide) (by decide) (by decide) (by decide) (by decide)).1 10 (by decide) (by decide) (by decide) (by decide)), ((mergeLine_spec 3 2 1 0 s (by decide) (by decide) (by decide) (by decide) (by decide) (by decide)).1 9 (by decide) (by decide) (by decide) (by decide)), ((mergeLine_spec 3 2 1 0 s (by decide) (by decide) (by decide) (by decide) (by decide) (by decide)).1 8 (by decide) (by decide) (by decide) (by decide))] at hv
    rw [((mergeLine_spec 15 14 13 12 (mergeLine 11 10 9 8 (mergeLine 7 6 5 4 (mergeLine 3 2 1 0 s))) (by decide) (by decide) (by decide) (by decide) (by decide) (by decide)).1 8 (by decide) (by decide) (by decide) (by decide)), ((mergeLine_spec 15 14 13 12 (mergeLine 11 10 9 8 (mergeLine 7 6 5 4 (mergeLine 3 2 1 0 s))) (by decide) (by decide) (by decide) (by decide) (by decide) (by decide)).1 9 (by decide) (by decide) (by decide) (by decide)), ((mergeLine_spec 15 14 13 12 (mergeLine 11 10 9 8 (mergeLine 7 6 5 4 (mergeLine 3 2 1 0 s))) (by decide) (by decide) (by decide) (by decide) (by decide) (by decide)).1 10 (by decide) (by decide) (by decide) (by decide)), ((mergeLine_spec 15 14 13 12 (mergeLine 11 10 9 8 (mergeLine 7 6 5 4 (mergeLine 3 2 1 0 s))) (by decide) (by decide) (by decide) (by decide) (by decide) (by decide)).1 11 (by decide) (by decide) (by decide) (by decide))]
    simp only [List.reverse_cons, List.reverse_nil, List.nil_append, List.cons_append, List.append_nil]
    exact hv
  · show [(mergeLine 15 14 13 12 (mergeLine 11 10 9 8 (mergeLine 7 6 5 4 (mergeLine 3 2 1 0 s)))) 12, (mergeLine 15 14 13 12 (mergeLine 11 10 9 8 (mergeLine 7 6 5 4 (mergeLine 3 2 1 0 s)))) 13, (mergeLine 15 14 13 12 (mergeLine 11 10 9 8 (mergeLine 7 6 5 4 (mergeLine 3 2 1 0 s)))) 14, (mergeLine 15 14 13 12 (mergeLine 11 10 9 8 (mergeLine 7 6 5 4 (mergeLine 3 2 1 0 s)))) 15].reverse = sweepSpec [s 12, s 13, s 14, s 15].reverse
    have hv : [(mergeLine 15 14 13 12 (mergeLine 11 10 9 8 (mergeLine 7 6 5 4 (mergeLine 3 2 1 0 s)))) 15, (mergeLine 15 14 13 12 (mergeLine 11 10 9 8 (mergeLine 7 6 5 4 (mergeLine 3 2 1 0 s)))) 14, (mergeLine 15 14 13 12 (mergeLine 11 10 9 8 (mergeLine 7 6 5 4 (mergeLine 3 2 1 0 s)))) 13, (mergeLine 15 14 13 12 (mergeLine 11 10 9 8 (mergeLine 7 6 5 4 (mergeLine 3 2 1 0 s)))) 12] =
        sweepSpec [(mergeLine 11 10 9 8 (mergeLine 7 6 5 4 (mergeLine 3 2 1 0 s))) 15, (mergeLine 11 10 9 8 (mergeLine 7 6 5 4 (mergeLine 3 2 1 0 s))) 14, (mergeLine 11 10 9 8 (mergeLine 7 6 5 4 (mergeLine 3 2 1 0 s))) 13, (mergeLine 11 10 9 8 (mergeLine 7 6 5 4 (mergeLine 3 2 1 0 s))) 12] :=
      (mergeLine_spec 15 14 13 12 (mergeLine 11 10 9 8 (mergeLine 7 6 5 4 (mergeLine 3 2 1 0 s))) (by decide) (by decide) (by decide) (by decide) (by decide) (by decide)).2
    rw [((mergeLine_spec 11 10 9 8 (mergeLine 7 6 5 4 (mergeLine 3 2 1 0 s)) (by decide) (by decide) (by decide) (by decide) (by decide) (by decide)).1 15 (by decide) (by decide) (by decide) (by decide)), ((mergeLine_spec 11 10 9 8 (mergeLine 7 6 5 4 (mergeLine 3 2 1 0 s)) (by decide) (by decide) (by decide) (by decide) (by decide) (by decide)).1 14 (by decide) (by decide) (by decide) (by decide)), ((mergeLine_spec 11 10 9 8 (mergeLine 7 6 5 4 (mergeLine 3 2 1 0 s)) (by decide) (by decide) (by decide) (by decide) (by decide) (by decide)).1 13 (by decide) (by decide) (by decide) (by decide)), ((mergeLine_spec 11 10 9 8 (mergeLine 7 6 5 4 (mergeLine 3 2 1 0 s)) (by decide) (by decide) (by decide) (by decide) (by decide) (by decide)).1 12 (by decide) (by decide) (by decide) (by decide))] at hv
    rw [((mergeLine_spec 7 6 5 4 (mergeLine 3 2 1 0 s) (by decide) (by decide) (by decide) (by decide) (by decide) (by decide)).1 15 (by decide) (by decide) (by decide) (by decide)), ((mergeLine_spec 7 6 5 4 (mergeLine 3 2 1 0 s) (by decide) (by decide) (by decide) (by decide) (by decide) (by decide)).1 14 (by decide) (by decide) (by decide) (by decide)), ((mergeLine_spec 7 6 5 4 (mergeLine 3 2 1 0 s) (by decide) (by decide) (by decide) (by decide) (by decide) (by decide)).1 13 (by decide) (by decide) (by decide) (by decide)), ((mergeLine_spec 7 6 5 4 (mergeLine 3 2 1 0 s) (by decide) (by decide) (by decide) (by decide) (by decide) (by decide)).1 12 (by decide) (by decide) (by decide) (by decide))] at hv
    rw [((mergeLine_spec 3 2 1 0 s (by decide) (by decide) (by decide) (by decide) (by decide) (by decide)).1 15 (by decide) (by decide) (by decide) (by decide)), ((mergeLine_spec 3 2 1 0 s (by decide) (by decide) (by decide) (by decide) (by decide) (by decide)).1 14 (by decide) (by decide) (by decide) (by decide)), ((mergeLine_spec 3 2 1 0 s (by decide) (by decide) (by decide) (by decide) (by decide) (by decide)).1 13 (by decide) (by decide) (by decide) (by decide)), ((mergeLine_spec 3 2 1 0 s (by decide) (by decide) (by decide) (by decide) (by decide) (by decide)).1 12 (by decide) (by decide) (by decide) (by decide))] at hv
    simp only [List.reverse_cons, List.reverse_nil, List.nil_append, List.cons_append, List.append_nil]
    exact hv

theorem colList_merge_up (s : Board) (r : Fin 4) :
    colList (merge_up s) r = sweepSpec (colList s r) := by
  fin_cases r
  · show [(mergeLine 3 7 11 15 (mergeLine 2 6 10 14 (mergeLine 1 5 9 13 (mergeLine 0 4 8 12 s)))) 0, (mergeLine 3 7 11 15 (mergeLine 2 6 10 14 (mergeLine 1 5 9 13 (mergeLine 0 4 8 12 s)))) 4, (mergeLine 3 7 11 15 (mergeLine 2 6 10 14 (mergeLine 1 5 9 13 (mergeLine 0 4 8 12 s)))) 8, (mergeLine 3 7 11 15 (mergeLine 2 6 10 14 (mergeLine 1 5 9 13 (mergeLine 0 4 8 12 s)))) 12] = sweepSpec [s 0, s 4, s 8, s 12]
    have hv : [(mergeLine 0 4 8 12 s) 0, (mergeLine 0 4 8 12 s) 4, (mergeLine 0 4 8 12 s) 8, (mergeLine 0 4 8 12 s) 12] =
        sweepSpec [s 0, s 4, s 8, s 12] :=
      (mergeLine_spec 0 4 8 12 s (by decide) (by decide) (by decide) (by decide) (by decide) (by decide)).2
    rw [((mergeLine_spec 3 7 11 15 (mergeLine 2 6 10 14 (mergeLine 1 5 9 13 (mergeLine 0 4 8 12 s))) (by decide) (by decide) (by decide) (by decide) (by decide) (by decide)).1 0 (by decide) (by decide) (by decide) (by decide)), ((mergeLine_spec 3 7 11 15 (mergeLine 2 6 10 14 (mergeLine 1 5 9 13 (mergeLine 0 4 8 12 s))) (by decide) (by decide) (by decide) (by decide) (by decide) (by decide)).1 4 (by decide) (by decide) (by decide) (by decide)), ((mergeLine_spec 3 7 11 15 (mergeLine 2 6 10 14 (mergeLine 1 5 9 13 (mergeLine 0 4 8 12 s))) (by decide) (by decide) (by decide) (by decide) (by decide) (by decide)).1 8 (by decide) (by decide) (by decide) (by decide)), ((mergeLine_spec 3 7 11 15 (mergeLine 2 6 10 14 (mergeLine 1 5 9 13 (mergeLine 0 4 8 12 s))) (by decide) (by decide) (by decide) (by decide) (by decide) (by decide)).1 12 (by decide) (by decide) (by decide) (by decide))]
    rw [((mergeLine_spec 2 6 10 14 (mergeLine 1 5 9 13 (mergeLine 0 4 8 12 s)) (by decide) (by decide) (by decide) (by decide) (by decide) (by decide)).1 0 (by decide) (by decide) (by decide) (by decide)), ((mergeLine_spec 2 6 10 14 (mergeLine 1 5 9 13 (mergeLine 0 4 8 12 s)) (by decide) (by decide) (by decide) (by decide) (by decide) (by decide)).1 4 (by decide) (by decide) (by decide) (by decide)), ((mergeLine_spec 2 6 10 14 (mergeLine 1 5 9 13 (mergeLine 0 4 8 12 s)) (by decide) (by decide) (by decide) (by decide) (by decide) (by decide)).1 8 (by decide) (by decide) (by decide) (by decide)), ((mergeLine_spec 2 6 10 14 (mergeLine 1 5 9 13 (mergeLine 0 4 8 12 s)) (by decide) (by decide) (by decide) (by decide) (by decide) (by decide)).1 12 (by decide) (by decide) (by decide) (by decide))]
    rw [((mergeLine_spec 1 5 9 13 (mergeLine 0 4 8 12 s) (by decide) (by decide) (by decide) (by decide) (by decide) (by decide)).1 0 (by decide) (by decide) (by decide) (by decide)), ((mergeLine_spec 1 5 9 13 (mergeLine 0 4 8 12 s) (by decide) (by decide) (by decide) (by decide) (by decide) (by decide)).1 4 (by decide) (by decide) (by decide) (by decide)), ((mergeLine_spec 1 5 9 13 (mergeLine 0 4 8 12 s) (by decide) (by decide) (by decide) (by decide) (by decide) (by decide)).1 8 (by decide) (by decide) (by decide) (by decide)), ((mergeLine_spec 1 5 9 13 (mergeLine 0 4 8 12 s) (by decide) (by decide) (by decide) (by decide) (by decide) (by decide)).1 12 (by decide) (by decide) (by decide) (by decide))]
    exact hv
  · show [(mergeLine 3 7 11 15 (mergeLine 2 6 10 14 (mergeLine 1 5 9 13 (mergeLine 0 4 8 12 s)))) 1, (mergeLine 3 7 11 15 (mergeLine 2 6 10 14 (mergeLine 1 5 9 13 (mergeLine 0 4 8 12 s)))) 5, (mergeLine 3 7 11 15 (mergeLine 2 6 10 14 (mergeLine 1 5 9 13 (mergeLine 0 4 8 12 s)))) 9, (mergeLine 3 7 11 15 (mergeLine 2 6 10 14 (mergeLine 1 5 9 13 (mergeLine 0 4 8 12 s)))) 13] = sweepSpec [s 1, s 5, s 9, s 13]
    have hv : [(mergeLine 1 5 9 13 (mergeLine 0 4 8 12 s)) 1, (mergeLine 1 5 9 13 (mergeLine 0 4 8 12 s)) 5, (mergeLine 1 5 9 13 (mergeLine 0 4 8 12 s)) 9, (mergeLine 1 5 9 13 (mergeLine 0 4 8 12 s)) 13] =
        sweepSpec [(mergeLine 0 4 8 12 s) 1, (mergeLine 0 4 8 12 s) 5, (mergeLine 0 4 8 12 s) 9, (mergeLine 0 4 8 12 s) 13] :=
      (mergeLine_spec 1 5 9 13 (mergeLine 0 4 8 12 s) (by decide) (by decide) (by decide) (by decide) (by decide) (by decide)).2
    rw [((mergeLine_spec 0 4 8 12 s (by decide) (by decide) (by decide) (by decide) (by decide) (by decide)).1 1 (by decide) (by decide) (by decide) (by decide)), ((mergeLine_spec 0 4 8 12 s (by decide) (by decide) (by decide) (by decide) (by decide) (by decide)).1 5 (by decide) (by decide) (by decide) (by decide)), ((mergeLine_spec 0 4 8 12 s (by decide) (by decide) (by decide) (by decide) (by decide) (by decide)).1 9 (by decide) (by decide) (by decide) (by decide)), ((mergeLine_spec 0 4 8 12 s (by decide) (by decide) (by decide) (by decide) (by decide) (by decide)).1 13 (by decide) (by decide) (by decide) (by decide))] at hv
    rw [((mergeLine_spec 3 7 11 15 (mergeLine 2 6 10 14 (mergeLine 1 5 9 13 (mergeLine 0 4 8 12 s))) (by decide) (by decide) (by decide) (by decide) (by decide) (by decide)).1 1 (by decide) (by decide) (by decide) (by decide)), ((mergeLine_spec 3 7 11 15 (mergeLine 2 6 10 14 (mergeLine 1 5 9 13 (mergeLine 0 4 8 12 s))) (by decide) (by decide) (by decide) (by decide) (by decide) (by decide)).1 5 (by decide) (by decide) (by decide) (by decide)), ((mergeLine_spec 3 7 11 15 (mergeLine 2 6 10 14 (mergeLine 1 5 9 13 (mergeLine 0 4 8 12 s))) (by decide) (by decide) (by decide) (by decide) (by decide) (by decide)).1 9 (by decide) (by decide) (by decide) (by decide)), ((mergeLine_spec 3 7 11 15 (mergeLine 2 6 10 14 (mergeLine 1 5 9 13 (mergeLine 0 4 8 12 s))) (by decide) (by decide) (by decide) (by decide) (by decide) (by decide)).1 13 (by decide) (by decide) (by decide) (by decide))]
    rw [((mergeLine_spec 2 6 10 14 (mergeLine 1 5 9 13 (mergeLine 0 4 8 12 s)) (by decide) (by decide) (by decide) (by decide) (by decide) (by decide)).1 1 (by decide) (by decide) (by decide) (by decide)), ((mergeLine_spec 2 6 10 14 (mergeLine 1 5 9 13 (mergeLine 0 4 8 12 s)) (by decide) (by decide) (by decide) (by decide) (by decide) (by decide)).1 5 (by decide) (by decide) (by decide) (by decide)), ((mergeLine_spec 2 6 10 14 (mergeLine 1 5 9 13 (mergeLine 0 4 8 12 s)) (by decide) (by decide) (by decide) (by decide) (by decide) (by decide)).1 9 (by decide) (by decide) (by decide) (by decide)), ((mergeLine_spec 2 6 10 14 (mergeLine 1 5 9 13 (mergeLine 0 4 8 12 s)) (by decide) (by decide) (by decide) (by decide) (by decide) (by decide)).1 13 (by decide) (by decide) (by decide) (by decide))]
    exact hv
  · show [(mergeLine 3 7 11 15 (mergeLine 2 6 10 14 (mergeLine 1 5 9 13 (mergeLine 0 4 8 12 s)))) 2, (mergeLine 3 7 11 15 (mergeLine 2 6 10 14 (mergeLine 1 5 9 13 (mergeLine 0 4 8 12 s)))) 6, (mergeLine 3 7 11 15 (mergeLine 2 6 10 14 (mergeLine 1 5 9 13 (mergeLine 0 4 8 12 s)))) 10, (mergeLine 3 7 11 15 (mergeLine 2 6 10 14 (mergeLine 1 5 9 13 (mergeLine 0 4 8 12 s)))) 14] = sweepSpec [s 2, s 6, s 10, s 14]
    have hv : [(mergeLine 2 6 10 14 (mergeLine 1 5 9 13 (mergeLine 0 4 8 12 s))) 2, (mergeLine 2 6 10 14 (mergeLine 1 5 9 13 (mergeLine 0 4 8 12 s))) 6, (mergeLine 2 6 10 14 (mergeLine 1 5 9 13 (mergeLine 0 4 8 12 s))) 10, (mergeLine 2 6 10 14 (mergeLine 1 5 9 13 (mergeLine 0 4 8 12 s))) 14] =
        sweepSpec [(mergeLine 1 5 9 13 (mergeLine 0 4 8 12 s)) 2, (mergeLine 1 5 9 13 (mergeLine 0 4 8 12 s)) 6, (mergeLine 1 5 9 13 (mergeLine 0 4 8 12 s)) 10, (mergeLine 1 5 9 13 (mergeLine 0 4 8 12 s)) 14] :=
      (mergeLine_spec 2 6 10 14 (mergeLine 1 5 9 13 (mergeLine 0 4 8 12 s)) (by decide) (by decide) (by decide) (by decide) (by decide) (by decide)).2
    rw [((mergeLine_spec 1 5 9 13 (mergeLine 0 4 8 12 s) (by decide) (by decide) (by decide) (by decide) (by decide) (by decide)).1 2 (by decide) (by decide) (by decide) (by decide)), ((mergeLine_spec 1 5 9 13 (mergeLine 0 4 8 12 s) (by decide) (by decide) (by decide) (by decide) (by decide) (by decide)).1 6 (by decide) (by decide) (by decide) (by decide)), ((mergeLine_spec 1 5 9 13 (mergeLine 0 4 8 12 s) (by decide) (by decide) (by decide) (by decide) (by decide) (by decide)).1 10 (by decide) (by decide) (by decide) (by decide)), ((mergeLine_spec 1 5 9 13 (mergeLine 0 4 8 12 s) (by decide) (by decide) (by decide) (by decide) (by decide) (by decide)).1 14 (by decide) (by decide) (by decide) (by decide))] at hv
    rw [((mergeLine_spec 0 4 8 12 s (by decide) (by decide) (by decide) (by decide) (by decide) (by decide)).1 2 (by decide) (by decide) (by decide) (by decide)), ((mergeLine_spec 0 4 8 12 s (by decide) (by decide) (by decide) (by decide) (by decide) (by decide)).1 6 (by decide) (by decide) (by decide) (by decide)), ((mergeLine_spec 0 4 8 12 s (by decide) (by decide) (by decide) (by decide) (by decide) (by decide)).1 10 (by decide) (by decide) (by decide) (by decide)), ((mergeLine_spec 0 4 8 12 s (by decide) (by decide) (by decide) (by decide) (by decide) (by decide)).1 14 (by decide) (by decide) (by decide) (by decide))] at hv
    rw [((mergeLine_spec 3 7 11 15 (mergeLine 2 6 10 14 (mergeLine 1 5 9 13 (mergeLine 0 4 8 12 s))) (by decide) (by decide) (by decide) (by decide) (by decide) (by decide)).1 2 (by decide) (by decide) (by decide) (by decide)), ((mergeLine_spec 3 7 11 15 (mergeLine 2 6 10 14 (mergeLine 1 5 9 13 (mergeLine 0 4 8 12 s))) (by decide) (by decide) (by decide) (by decide) (by decide) (by decide)).1 6 (by decide) (by decide) (by decide) (by decide)), ((mergeLine_spec 3 7 11 15 (mergeLine 2 6 10 14 (mergeLine 1 5 9 13 (mergeLine 0 4 8 12 s))) (by decide) (by decide) (by decide) (by decide) (by decide) (by decide)).1 10 (by decide) (by decide) (by decide) (by decide)), ((mergeLine_spec 3 7 11 15 (mergeLine 2 6 10 14 (mergeLine 1 5 9 13 (mergeLine 0 4 8 12 s))) (by decide) (by decide) (by decide) (by decide) (by decide) (by decide)).1 14 (by decide) (by decide) (by decide) (by decide))]
    exact hv
  · show [(mergeLine 3 7 11 15 (mergeLine 2 6 10 14 (mergeLine 1 5 9 13 (mergeLine 0 4 8 12 s)))) 3, (mergeLine 3 7 11 15 (mergeLine 2 6 10 14 (mergeLine 1 5 9 13 (mergeLine 0 4 8 12 s)))) 7, (mergeLine 3 7 11 15 (mergeLine 2 6 10 14 (mergeLine 1 5 9 13 (mergeLine 0 4 8 12 s)))) 11, (mergeLine 3 7 11 15 (mergeLine 2 6 10 14 (mergeLine 1 5 9 13 (mergeLine 0 4 8 12 s)))) 15] = sweepSpec [s 3, s 7, s 11, s 15]
    have hv : [(mergeLine 3 7 11 15 (mergeLine 2 6 10 14 (mergeLine 1 5 9 13 (mergeLine 0 4 8 12 s)))) 3, (mergeLine 3 7 11 15 (mergeLine 2 6 10 14 (mergeLine 1 5 9 13 (mergeLine 0 4 8 12 s)))) 7, (mergeLine 3 7 11 15 (mergeLine 2 6 10 14 (mergeLine 1 5 9 13 (mergeLine 0 4 8 12 s)))) 11, (mergeLine 3 7 11 15 (mergeLine 2 6 10 14 (mergeLine 1 5 9 13 (mergeLine 0 4 8 12 s)))) 15] =
        sweepSpec [(mergeLine 2 6 10 14 (mergeLine 1 5 9 13 (mergeLine 0 4 8 12 s))) 3, (mergeLine 2 6 10 14 (mergeLine 1 5 9 13 (mergeLine 0 4 8 12 s))) 7, (mergeLine 2 6 10 14 (mergeLine 1 5 9 13 (mergeLine 0 4 8 12 s))) 11, (mergeLine 2 6 10 14 (mergeLine 1 5 9 13 (mergeLine 0 4 8 12 s))) 15] :=
      (mergeLine_spec 3 7 11 15 (mergeLine 2 6 10 14 (mergeLine 1 5 9 13 (mergeLine 0 4 8 12 s))) (by decide) (by decide) (by decide) (by decide) (by decide) (by decide)).2
    rw [((mergeLine_spec 2 6 10 14 (mergeLine 1 5 9 13 (mergeLine 0 4 8 12 s)) (by decide) (by decide) (by decide) (by decide) (by decide) (by decide)).1 3 (by decide) (by decide) (by decide) (by decide)), ((mergeLine_spec 2 6 10 14 (mergeLine 1 5 9 13 (mergeLine 0 4 8 12 s)) (by decide) (by decide) (by decide) (by decide) (by decide) (by decide)).1 7 (by decide) (by decide) (by decide) (by decide)), ((mergeLine_spec 2 6 10 14 (mergeLine 1 5 9 13 (mergeLine 0 4 8 12 s)) (by decide) (by decide) (by decide) (by decide) (by decide) (by decide)).1 11 (by decide) (by decide) (by decide) (by decide)), ((mergeLine_spec 2 6 10 14 (mergeLine 1 5 9 13 (mergeLine 0 4 8 12 s)) (by decide) (by decide) (by decide) (by decide) (by decide) (by decide)).1 15 (by decide) (by decide) (by decide) (by decide))] at hv
    rw [((mergeLine_spec 1 5 9 13 (mergeLine 0 4 8 12 s) (by decide) (by decide) (by decide) (by decide) (by decide) (by decide)).1 3 (by decide) (by decide) (by decide) (by decide)), ((mergeLine_spec 1 5 9 13 (mergeLine 0 4 8 12 s) (by decide) (by decide) (by decide) (by decide) (by decide) (by decide)).1 7 (by decide) (by decide) (by decide) (by decide)), ((mergeLine_spec 1 5 9 13 (mergeLine 0 4 8 12 s) (by decide) (by decide) (by decide) (by decide) (by decide) (by decide)).1 11 (by decide) (by decide) (by decide) (by decide)), ((mergeLine_spec 1 5 9 13 (mergeLine 0 4 8 12 s) (by decide) (by decide) (by decide) (by decide) (by decide) (by decide)).1 15 (by decide) (by decide) (by decide) (by decide))] at hv
    rw [((mergeLine_spec 0 4 8 12 s (by decide) (by decide) (by decide) (by decide) (by decide) (by decide)).1 3 (by decide) (by decide) (by decide) (by decide)), ((mergeLine_spec 0 4 8 12 s (by decide) (by decide) (by decide) (by decide) (by decide) (by decide)).1 7 (by decide) (by decide) (by decide) (by decide)), ((mergeLine_spec 0 4 8 12 s (by decide) (by decide) (by decide) (by decide) (by decide) (by decide)).1 11 (by decide) (by decide) (by decide) (by decide)), ((mergeLine_spec 0 4 8 12 s (by decide) (by decide) (by decide) (by decide) (by decide) (by decide)).1 15 (by decide) (by decide) (by decide) (by decide))] at hv
    exact hv

theorem colList_merge_down (s : Board) (r : Fin 4) :
    (colList (merge_down s) r).reverse = sweepSpec ((colList s r).reverse) := by
  fin_cases r
  · show [(mergeLine 15 11 7 3 (mergeLine 14 10 6 2 (mergeLine 13 9 5 1 (mergeLine 12 8 4 0 s)))) 0, (mergeLine 15 11 7 3 (mergeLine 14 10 6 2 (mergeLine 13 9 5 1 (mergeLine 12 8 4 0 s)))) 4, (mergeLine 15 11 7 3 (mergeLine 14 10 6 2 (mergeLine 13 9 5 1 (mergeLine 12 8 4 0 s)))) 8, (mergeLine 15 11 7 3 (mergeLine 14 10 6 2 (mergeLine 13 9 5 1 (mergeLine 12 8 4 0 s)))) 12].reverse = sweepSpec [s 0, s 4, s 8, s 12].reverse
    have hv : [(mergeLine 12 8 4 0 s) 12, (mergeLine 12 8 4 0 s) 8, (mergeLine 12 8 4 0 s) 4, (mergeLine 12 8 4 0 s) 0] =
        sweepSpec [s 12, s 8, s 4, s 0] :=
      (mergeLine_spec 12 8 4 0 s (by decide) (by decide) (by decide) (by decide) (by decide) (by decide)).2
    rw [((mergeLine_spec 15 11 7 3 (mergeLine 14 10 6 2 (mergeLine 13 9 5 1 (mergeLine 12 8 4 0 s))) (by decide) (by decide) (by decide) (by decide) (by decide) (by decide)).1 0 (by decide) (by decide) (by decide) (by decide)), ((mergeLine_spec 15 11 7 3 (mergeLine 14 10 6 2 (mergeLine 13 9 5 1 (mergeLine 12 8 4 0 s))) (by decide) (by decide) (by decide) (by decide) (by decide) (by decide)).1 4 (by decide) (by decide) (by decide) (by decide)), ((mergeLine_spec 15 11 7 3 (mergeLine 14 10 6 2 (mergeLine 13 9 5 1 (mergeLine 12 8 4 0 s))) (by decide) (by decide) (by decide) (by decide) (by decide) (by decide)).1 8 (by decide) (by decide) (by decide) (by decide)), ((mergeLine_spec 15 11 7 3 (mergeLine 14 10 6 2 (mergeLine 13 9 5 1 (mergeLine 12 8 4 0 s))) (by decide) (by decide) (by decide) (by decide) (by decide) (by decide)).1 12 (by decide) (by decide) (by decide) (by decide))]
    rw [((mergeLine_spec 14 10 6 2 (mergeLine 13 9 5 1 (mergeLine 12 8 4 0 s)) (by decide) (by decide) (by decide) (by decide) (by decide) (by decide)).1 0 (by decide) (by decide) (by decide) (by decide)), ((mergeLine_spec 14 10 6 2 (mergeLine 13 9 5 1 (mergeLine 12 8 4 0 s)) (by decide) (by decide) (by decide) (by decide) (by decide) (by decide)).1 4 (by decide) (by decide) (by decide) (by decide)), ((mergeLine_spec 14 10 6 2 (mergeLine 13 9 5 1 (mergeLine 12 8 4 0 s)) (by decide) (by decide) (by decide) (by decide) (by decide) (by decide)).1 8 (by decide) (by decide) (by decide) (by decide)), ((mergeLine_spec 14 10 6 2 (mergeLine 13 9 5 1 (mergeLine 12 8 4 0 s)) (by decide) (by decide) (by decide) (by decide) (by decide) (by decide)).1 12 (by decide) (by decide) (by decide) (by decide))]
    rw [((mergeLine_spec 13 9 5 1 (mergeLine 12 8 4 0 s) (by decide) (by decide) (by decide) (by decide) (by decide) (by decide)).1 0 (by decide) (by decide) (by decide) (by decide)), ((mergeLine_spec 13 9 5 1 (mergeLine 12 8 4 0 s) (by decide) (by decide) (by decide) (by decide) (by decide) (by decide)).1 4 (by decide) (by decide) (by decide) (by decide)), ((mergeLine_spec 13 9 5 1 (mergeLine 12 8 4 0 s) (by decide) (by decide) (by decide) (by decide) (by decide) (by decide)).1 8 (by decide) (by decide) (by decide) (by decide)), ((mergeLine_spec 13 9 5 1 (mergeLine 12 8 4 0 s) (by decide) (by decide) (by decide) (by decide) (by decide) (by decide)).1 12 (by decide) (by decide) (by decide) (by decide))]
    simp only [List.reverse_cons, List.reverse_nil, List.nil_append, List.cons_append, List.append_nil]
    exact hv
  · show [(mergeLine 15 11 7 3 (mergeLine 14 10 6 2 (mergeLine 13 9 5 1 (mergeLine 12 8 4 0 s)))) 1, (mergeLine 15 11 7 3 (mergeLine 14 10 6 2 (mergeLine 13 9 5 1 (mergeLine 12 8 4 0 s)))) 5, (mergeLine 15 11 7 3 (mergeLine 14 10 6 2 (mergeLine 13 9 5 1 (mergeLine 12 8 4 0 s)))) 9, (mergeLine 15 11 7 3 (mergeLine 14 10 6 2 (mergeLine 13 9 5 1 (mergeLine 12 8 4 0 s)))) 13].reverse = sweepSpec [s 1, s 5, s 9, s 13].reverse
    have hv : [(mergeLine 13 9 5 1 (mergeLine 12 8 4 0 s)) 13, (mergeLine 13 9 5 1 (mergeLine 12 8 4 0 s)) 9, (mergeLine 13 9 5 1 (mergeLine 12 8 4 0 s)) 5, (mergeLine 13 9 5 1 (mergeLine 12 8 4 0 s)) 1] =
        sweepSpec [(mergeLine 12 8 4 0 s) 13, (mergeLine 12 8 4 0 s) 9, (mergeLine 12 8 4 0 s) 5, (mergeLine 12 8 4 0 s) 1] :=
      (mergeLine_spec 13 9 5 1 (mergeLine 12 8 4 0 s) (by decide) (by decide) (by decide) (by decide) (by decide) (by decide)).2
    rw [((mergeLine_spec 12 8 4 0 s (by decide) (by decide) (by decide) (by decide) (by decide) (by decide)).1 13 (by decide) (by decide) (by decide) (by decide)), ((mergeLine_spec 12 8 4 0 s (by decide) (by decide) (by decide) (by decide) (by decide) (by decide)).1 9 (by decide) (by decide) (by decide) (by decide)), ((mergeLine_spec 12 8 4 0 s (by decide) (by decide) (by decide) (by decide) (by decide) (by decide)).1 5 (by decide) (by decide) (by decide) (by decide)), ((mergeLine_spec 12 8 4 0 s (by decide) (by decide) (by decide) (by decide) (by decide) (by decide)).1 1 (by decide) (by decide) (by decide) (by decide))] at hv
    rw [((mergeLine_spec 15 11 7 3 (mergeLine 14 10 6 2 (mergeLine 13 9 5 1 (mergeLine 12 8 4 0 s))) (by decide) (by decide) (by decide) (by decide) (by decide) (by decide)).1 1 (by decide) (by decide) (by decide) (by decide)), ((mergeLine_spec 15 11 7 3 (mergeLine 14 10 6 2 (mergeLine 13 9 5 1 (mergeLine 12 8 4 0 s))) (by decide) (by decide) (by decide) (by decide) (by decide) (by decide)).1 5 (by decide) (by decide) (by decide) (by decide)), ((mergeLine_spec 15 11 7 3 (mergeLine 14 10 6 2 (mergeLine 13 9 5 1 (mergeLine 12 8 4 0 s))) (by decide) (by decide) (by decide) (by decide) (by decide) (by decide)).1 9 (by decide) (by decide) (by decide) (by decide)), ((mergeLine_spec 15 11 7 3 (mergeLine 14 10 6 2 (mergeLine 13 9 5 1 (mergeLine 12 8 4 0 s))) (by decide) (by decide) (by decide) (by decide) (by decide) (by decide)).1 13 (by decide) (by decide) (by decide) (by decide))]
    rw [((mergeLine_spec 14 10 6 2 (mergeLine 13 9 5 1 (mergeLine 12 8 4 0 s)) (by decide) (by decide) (by decide) (by decide) (by decide) (by decide)).1 1 (by decide) (by decide) (by decide) (by decide)), ((mergeLine_spec 14 10 6 2 (mergeLine 13 9 5 1 (mergeLine 12 8 4 0 s)) (by decide) (by decide) (by decide) (by decide) (by decide) (by decide)).1 5 (by decide) (by decide) (by decide) (by decide)), ((mergeLine_spec 14 10 6 2 (mergeLine 13 9 5 1 (mergeLine 12 8 4 0 s)) (by decide) (by decide) (by decide) (by decide) (by decide) (by decide)).1 9 (by decide) (by decide) (by decide) (by decide)), ((mergeLine_spec 14 10 6 2 (mergeLine 13 9 5 1 (mergeLine 12 8 4 0 s)) (by decide) (by decide) (by decide) (by decide) (by decide) (by decide)).1 13 (by decide) (by decide) (by decide) (by decide))]
    simp only [List.reverse_cons, List.reverse_nil, List.nil_append, List.cons_append, List.append_nil]
    exact hv
  · show [(mergeLine 15 11 7 3 (mergeLine 14 10 6 2 (mergeLine 13 9 5 1 (mergeLine 12 8 4 0 s)))) 2, (mergeLine 15 11 7 3 (mergeLine 14 10 6 2 (mergeLine 13 9 5 1 (mergeLine 12 8 4 0 s)))) 6, (mergeLine 15 11 7 3 (mergeLine 14 10 6 2 (mergeLine 13 9 5 1 (mergeLine 12 8 4 0 s)))) 10, (mergeLine 15 11 7 3 (mergeLine 14 10 6 2 (mergeLine 13 9 5 1 (mergeLine 12 8 4 0 s)))) 14].reverse = sweepSpec [s 2, s 6, s 10, s 14].reverse
    have hv : [(mergeLine 14 10 6 2 (mergeLine 13 9 5 1 (mergeLine 12 8 4 0 s))) 14, (mergeLine 14 10 6 2 (mergeLine 13 9 5 1 (mergeLine 12 8 4 0 s))) 10, (mergeLine 14 10 6 2 (mergeLine 13 9 5 1 (mergeLine 12 8 4 0 s))) 6, (mergeLine 14 10 6 2 (mergeLine 13 9 5 1 (mergeLine 12 8 4 0 s))) 2] =
        sweepSpec [(mergeLine 13 9 5 1 (mergeLine 12 8 4 0 s)) 14, (mergeLine 13 9 5 1 (mergeLine 12 8 4 0 s)) 10, (mergeLine 13 9 5 1 (mergeLine 12 8 4 0 s)) 6, (mergeLine 13 9 5 1 (mergeLine 12 8 4 0 s)) 2] :=
      (mergeLine_spec 14 10 6 2 (mergeLine 13 9 5 1 (mergeLine 12 8 4 0 s)) (by decide) (by decide) (by decide) (by decide) (by decide) (by decide)).2
    rw [((mergeLine_spec 13 9 5 1 (mergeLine 12 8 4 0 s) (by decide) (by decide) (by decide) (by decide) (by decide) (by decide)).1 14 (by decide) (by decide) (by decide) (by decide)), ((mergeLine_spec 13 9 5 1 (mergeLine 12 8 4 0 s) (by decide) (by decide) (by decide) (by decide) (by decide) (by decide)).1 10 (by decide) (by decide) (by decide) (by decide)), ((mergeLine_spec 13 9 5 1 (mergeLine 12 8 4 0 s) (by decide) (by decide) (by decide) (by decide) (by decide) (by decide)).1 6 (by decide) (by decide) (by decide) (by decide)), ((mergeLine_spec 13 9 5 1 (mergeLine 12 8 4 0 s) (by decide) (by decide) (by decide) (by decide) (by decide) (by decide)).1 2 (by decide) (by decide) (by decide) (by decide))] at hv
    rw [((mergeLine_spec 12 8 4 0 s (by decide) (by decide) (by decide) (by decide) (by decide) (by decide)).1 14 (by decide) (by decide) (by decide) (by decide)), ((mergeLine_spec 12 8 4 0 s (by decide) (by decide) (by decide) (by decide) (by decide) (by decide)).1 10 (by decide) (by decide) (by decide) (by decide)), ((mergeLine_spec 12 8 4 0 s (by decide) (by decide) (by decide) (by decide) (by decide) (by decide)).1 6 (by decide) (by decide) (by decide) (by decide)), ((mergeLine_spec 12 8 4 0 s (by decide) (by decide) (by decide) (by decide) (by decide) (by decide)).1 2 (by decide) (by decide) (by decide) (by decide))] at hv
    rw [((mergeLine_spec 15 11 7 3 (mergeLine 14 10 6 2 (mergeLine 13 9 5 1 (mergeLine 12 8 4 0 s))) (by decide) (by decide) (by decide) (by decide) (by decide) (by decide)).1 2 (by decide) (by decide) (by decide) (by decide)), ((mergeLine_spec 15 11 7 3 (mergeLine 14 10 6 2 (mergeLine 13 9 5 1 (mergeLine 12 8 4 0 s))) (by decide) (by decide) (by decide) (by decide) (by decide) (by decide)).1 6 (by decide) (by decide) (by decide) (by decide)), ((mergeLine_spec 15 11 7 3 (mergeLine 14 10 6 2 (mergeLine 13 9 5 1 (mergeLine 12 8 4 0 s))) (by decide) (by decide) (by decide) (by decide) (by decide) (by decide)).1 10 (by decide) (by decide) (by decide) (by decide)), ((mergeLine_spec 15 11 7 3 (mergeLine 14 10 6 2 (mergeLine 13 9 5 1 (mergeLine 12 8 4 0 s))) (by decide) (by decide) (by decide) (by decide) (by decide) (by decide)).1 14 (by decide) (by decide) (by decide) (by decide))]
    simp only [List.reverse_cons, List.reverse_nil, List.nil_append, List.cons_append, List.append_nil]
    exact hv
  · show [(mergeLine 15 11 7 3 (mergeLine 14 10 6 2 (mergeLine 13 9 5 1 (mergeLine 12 8 4 0 s)))) 3, (mergeLine 15 11 7 3 (mergeLine 14 10 6 2 (mergeLine 13 9 5 1 (mergeLine 12 8 4 0 s)))) 7, (mergeLine 15 11 7 3 (mergeLine 14 10 6 2 (mergeLine 13 9 5 1 (mergeLine 12 8 4 0 s)))) 11, (mergeLine 15 11 7 3 (mergeLine 14 10 6 2 (mergeLine 13 9 5 1 (mergeLine 12 8 4 0 s)))) 15].reverse = sweepSpec [s 3, s 7, s 11, s 15].reverse
    have hv : [(mergeLine 15 11 7 3 (mergeLine 14 10 6 2 (mergeLine 13 9 5 1 (mergeLine 12 8 4 0 s)))) 15, (mergeLine 15 11 7 3 (mergeLine 14 10 6 2 (mergeLine 13 9 5 1 (mergeLine 12 8 4 0 s)))) 11, (mergeLine 15 11 7 3 (mergeLine 14 10 6 2 (mergeLine 13 9 5 1 (mergeLine 12 8 4 0 s)))) 7, (mergeLine 15 11 7 3 (mergeLine 14 10 6 2 (mergeLine 13 9 5 1 (mergeLine 12 8 4 0 s)))) 3] =
        sweepSpec [(mergeLine 14 10 6 2 (mergeLine 13 9 5 1 (mergeLine 12 8 4 0 s))) 15, (mergeLine 14 10 6 2 (mergeLine 13 9 5 1 (mergeLine 12 8 4 0 s))) 11, (mergeLine 14 10 6 2 (mergeLine 13 9 5 1 (mergeLine 12 8 4 0 s))) 7, (mergeLine 14 10 6 2 (mergeLine 13 9 5 1 (mergeLine 12 8 4 0 s))) 3] :=
      (mergeLine_spec 15 11 7 3 (mergeLine 14 10 6 2 (mergeLine 13 9 5 1 (mergeLine 12 8 4 0 s))) (by decide) (by decide) (by decide) (by decide) (by decide) (by decide)).2
    rw [((mergeLine_spec 14 10 6 2 (mergeLine 13 9 5 1 (mergeLine 12 8 4 0 s)) (by decide) (by decide) (by decide) (by decide) (by decide) (by decide)).1 15 (by decide) (by decide) (by decide) (by decide)), ((mergeLine_spec 14 10 6 2 (mergeLine 13 9 5 1 (mergeLine 12 8 4 0 s)) (by decide) (by decide) (by decide) (by decide) (by decide) (by decide)).1 11 (by decide) (by decide) (by decide) (by decide)), ((mergeLine_spec 14 10 6 2 (mergeLine 13 9 5 1 (mergeLine 12 8 4 0 s)) (by decide) (by decide) (by decide) (by decide) (by decide) (by decide)).1 7 (by decide) (by decide) (by decide) (by decide)), ((mergeLine_spec 14 10 6 2 (mergeLine 13 9 5 1 (mergeLine 12 8 4 0 s)) (by decide) (by decide) (by decide) (by decide) (by decide) (by decide)).1 3 (by decide) (by decide) (by decide) (by decide))] at hv
    rw [((mergeLine_spec 13 9 5 1 (mergeLine 12 8 4 0 s) (by decide) (by decide) (by decide) (by decide) (by decide) (by decide)).1 15 (by decide) (by decide) (by decide) (by decide)), ((mergeLine_spec 13 9 5 1 (mergeLine 12 8 4 0 s) (by decide) (by decide) (by decide) (by decide) (by decide) (by decide)).1 11 (by decide) (by decide) (by decide) (by decide)), ((mergeLine_spec 13 9 5 1 (mergeLine 12 8 4 0 s) (by decide) (by decide) (by decide) (by decide) (by decide) (by decide)).1 7 (by decide) (by decide) (by decide) (by decide)), ((mergeLine_spec 13 9 5 1 (mergeLine 12 8 4 0 s) (by decide) (by decide) (by decide) (by decide) (by decide) (by decide)).1 3 (by decide) (by decide) (by decide) (by decide))] at hv
    rw [((mergeLine_spec 12 8 4 0 s (by decide) (by decide) (by decide) (by decide) (by decide) (by decide)).1 15 (by decide) (by decide) (by decide) (by decide)), ((mergeLine_spec 12 8 4 0 s (by decide) (by decide) (by decide) (by decide) (by decide) (by decide)).1 11 (by decide) (by decide) (by decide) (by decide)), ((mergeLine_spec 12 8 4 0 s (by decide) (by decide) (by decide) (by decide) (by decide) (by decide)).1 7 (by decide) (by decide) (by decide) (by decide)), ((mergeLine_spec 12 8 4 0 s (by decide) (by decide) (by decide) (by decide) (by decide) (by decide)).1 3 (by decide) (by decide) (by decide) (by decide))] at hv
    simp only [List.reverse_cons, List.reverse_nil, List.nil_append, List.cons_append, List.append_nil]
    exact hv

/-! ### List-level helpers on four-cell lines -/

theorem zero_mem_compactEdge4 {a b c d : Nat} :
    0 ∈ compactEdge [a, b, c, d] ↔ (0 = a ∨ 0 = b ∨ 0 = c ∨ 0 = d) := by
  by_cases ha : a = 0 <;> by_cases hb : b = 0 <;> by_cases hc : c = 0 <;>
    by_cases hd : d = 0 <;> simp [compactEdge, ha, hb, hc, hd]

theorem zero_mem_compactEdgeRev4 {a b c d : Nat} :
    0 ∈ compactEdgeRev [a, b, c, d] ↔ (0 = a ∨ 0 = b ∨ 0 = c ∨ 0 = d) := by
  by_cases ha : a = 0 <;> by_cases hb : b = 0 <;> by_cases hc : c = 0 <;>
    by_cases hd : d = 0 <;> simp [compactEdgeRev, ha, hb, hc, hd]

theorem compactEdge4_of_ne {a b c d : Nat}
    (ha : a ≠ 0) (hb : b ≠ 0) (hc : c ≠ 0) (hd : d ≠ 0) :
    compactEdge [a, b, c, d] = [a, b, c, d] := by
  simp [compactEdge, ha, hb, hc, hd]

theorem compactEdgeRev4_of_ne {a b c d : Nat}
    (ha : a ≠ 0) (hb : b ≠ 0) (hc : c ≠ 0) (hd : d ≠ 0) :
    compactEdgeRev [a, b, c, d] = [a, b, c, d] := by
  simp [compactEdgeRev, ha, hb, hc, hd]

theorem sweepAux_zero_mem : ∀ (l : List Nat) (x : Nat), 0 ∈ x :: l → 0 ∈ sweepAux x l := by
  intro l
  induction l with
  | nil => intro x h; simpa [sweepAux] using h
  | cons y rest ih =>
    intro x h
    simp only [sweepAux]
    split_ifs with hc
    · rcases hc with ⟨hxy, hx⟩
      simp only [List.mem_cons] at h
      rcases h with h | h | h
      · exact absurd h.symm hx
      · exact absurd (hxy.trans h.symm) hx
      · exact List.mem_cons_of_mem _ (ih 0 (List.mem_cons_of_mem _ h))
    · simp only [List.mem_cons] at h ⊢
      rcases h with h | h
      · exact Or.inl h
      · exact Or.inr (ih y (List.mem_cons.mpr h))

theorem sweepAux_ne : ∀ (l : List Nat) (x : Nat), sweepAux x l ≠ x :: l → 0 ∈ sweepAux x l := by
  intro l
  induction l with
  | nil => intro x h; exact absurd rfl h
  | cons y rest ih =>
    intro x h
    simp only [sweepAux] at h ⊢
    split_ifs at h ⊢ with hc
    · exact List.mem_cons_of_mem _ (sweepAux_zero_mem rest 0 (by simp))
    · exact List.mem_cons_of_mem _ (ih y (fun he => h (by rw [he])))

theorem sweepSpec_zero_mem {l : List Nat} (h : 0 ∈ l) : 0 ∈ sweepSpec l := by
  cases l with
  | nil => simp at h
  | cons x rest => exact sweepAux_zero_mem rest x h

theorem sweepSpec_ne {l : List Nat} (h : sweepSpec l ≠ l) : 0 ∈ sweepSpec l := by
  cases l with
  | nil => exact absurd rfl h
  | cons x rest => exact sweepAux_ne rest x h

theorem sweep4_fix (a b c d : Nat) (hb : b ≠ 0) (hc : c ≠ 0) (hd : d ≠ 0) :
    (sweepSpec [a, b, c, d] = [a, b, c, d] ↔ (a ≠ b ∧ b ≠ c ∧ c ≠ d)) := by
  simp only [sweepSpec, sweepAux]
  split_ifs <;> simp_all

/-! ### Board gluing -/

theorem mem_cells (s : Board) (i : Fin 16) : s i ∈ cells s := by
  fin_cases i <;> simp [cells]

theorem rows_inj {s t : Board} (h : ∀ r, rowList s r = rowList t r) : s = t := by
  funext i
  have h0 := h 0
  have h1 := h 1
  have h2 := h 2
  have h3 := h 3
  simp only [rowList, List.cons.injEq, and_true] at h0 h1 h2 h3
  fin_cases i <;> tauto

theorem cols_inj {s t : Board} (h : ∀ c, colList s c = colList t c) : s = t := by
  funext i
  have h0 := h 0
  have h1 := h 1
  have h2 := h 2
  have h3 := h 3
  simp only [colList, List.cons.injEq, and_true] at h0 h1 h2 h3
  fin_cases i <;> tauto

theorem hasEmpty_iff_cells {s : Board} : hasEmpty s ↔ 0 ∈ cells s := by
  constructor
  · rintro ⟨i, hi⟩
    rw [← hi]
    exact mem_cells s i
  · intro h
    simp only [cells, List.mem_cons, List.not_mem_nil, or_false] at h
    rcases h with h|h|h|h|h|h|h|h|h|h|h|h|h|h|h|h <;> exact ⟨_, h.symm⟩

theorem not_hasEmpty_iff {s : Board} : ¬ hasEmpty s ↔ ∀ i, s i ≠ 0 := by
  simp [hasEmpty]

theorem cells_eq_rows (s : Board) :
    cells s = rowList s 0 ++ (rowList s 1 ++ (rowList s 2 ++ rowList s 3)) := rfl

theorem hasEmpty_iff_rows {s : Board} : hasEmpty s ↔ ∃ r, 0 ∈ rowList s r := by
  rw [hasEmpty_iff_cells, cells_eq_rows]
  simp only [List.mem_append]
  constructor
  · rintro (h | h | h | h)
    exacts [⟨0, h⟩, ⟨1, h⟩, ⟨2, h⟩, ⟨3, h⟩]
  · rintro ⟨r, h⟩
    fin_cases r
    exacts [Or.inl h, Or.inr (Or.inl h), Or.inr (Or.inr (Or.inl h)),
      Or.inr (Or.inr (Or.inr h))]

theorem hasEmpty_iff_cols {s : Board} : hasEmpty s ↔ ∃ c, 0 ∈ colList s c := by
  rw [hasEmpty_iff_cells]
  constructor
  · intro h
    simp only [cells, List.mem_cons, List.not_mem_nil, or_false] at h
    rcases h with h|h|h|h|h|h|h|h|h|h|h|h|h|h|h|h
    exacts [⟨0, by simp [colList, ← h]⟩, ⟨1, by simp [colList, ← h]⟩,
      ⟨2, by simp [colList, ← h]⟩, ⟨3, by simp [colList, ← h]⟩,
      ⟨0, by simp [colList, ← h]⟩, ⟨1, by simp [colList, ← h]⟩,
      ⟨2, by simp [colList, ← h]⟩, ⟨3, by simp [colList, ← h]⟩,
      ⟨0, by simp [colList, ← h]⟩, ⟨1, by simp [colList, ← h]⟩,
      ⟨2, by simp [colList, ← h]⟩, ⟨3, by simp [colList, ← h]⟩,
      ⟨0, by simp [colList, ← h]⟩, ⟨1, by simp [colList, ← h]⟩,
      ⟨2, by simp [colList, ← h]⟩, ⟨3, by simp [colList, ← h]⟩]
  · rintro ⟨c, h⟩
    fin_cases c <;>
      · simp only [colList, List.mem_cons, List.not_mem_nil, or_false] at h
        rcases h with h|h|h|h <;> (rw [h]; exact mem_cells s _)

/-! ### Full-board and no-adjacent-pair fixed points -/

theorem slide_left_of_full {s : Board} (h : ∀ i, s i ≠ 0) : slide_left s = s := by
  apply rows_inj
  intro r
  rw [rowList_slide_left]
  fin_cases r <;> exact compactEdge4_of_ne (h _) (h _) (h _) (h _)

theorem slide_right_of_full {s : Board} (h : ∀ i, s i ≠ 0) : slide_right s = s := by
  apply rows_inj
  intro r
  rw [rowList_slide_right]
  fin_cases r <;> exact compactEdgeRev4_of_ne (h _) (h _) (h _) (h _)

theorem slide_up_of_full {s : Board} (h : ∀ i, s i ≠ 0) : slide_up s = s := by
  apply cols_inj
  intro c
  rw [colList_slide_up]
  fin_cases c <;> exact compactEdge4_of_ne (h _) (h _) (h _) (h _)

theorem slide_down_of_full {s : Board} (h : ∀ i, s i ≠ 0) : slide_down s = s := by
  apply cols_inj
  intro c
  rw [colList_slide_down]
  fin_cases c <;> exact compactEdgeRev4_of_ne (h _) (h _) (h _) (h _)

theorem merge_left_of_noadj {s : Board} (hH : NoHAdj s) : merge_left s = s := by
  apply rows_inj
  intro r
  rw [rowList_merge_left]
  fin_cases r
  · have h01 : s 0 ≠ s 1 := hH 0 0
    have h12 : s 1 ≠ s 2 := hH 0 1
    have h23 : s 2 ≠ s 3 := hH 0 2
    simp [rowList, sweepSpec, sweepAux, h01, h12, h23]
  · have h01 : s 4 ≠ s 5 := hH 1 0
    have h12 : s 5 ≠ s 6 := hH 1 1
    have h23 : s 6 ≠ s 7 := hH 1 2
    simp [rowList, sweepSpec, sweepAux, h01, h12, h23]
  · have h01 : s 8 ≠ s 9 := hH 2 0
    have h12 : s 9 ≠ s 10 := hH 2 1
    have h23 : s 10 ≠ s 11 := hH 2 2
    simp [rowList, sweepSpec, sweepAux, h01, h12, h23]
  · have h01 : s 12 ≠ s 13 := hH 3 0
    have h12 : s 13 ≠ s 14 := hH 3 1
    have h23 : s 14 ≠ s 15 := hH 3 2
    simp [rowList, sweepSpec, sweepAux, h01, h12, h23]

theorem merge_right_of_noadj {s : Board} (hH : NoHAdj s) : merge_right s = s := by
  apply rows_inj
  intro r
  apply List.reverse_injective
  rw [rowList_merge_right]
  fin_cases r
  · have h01 : s 0 ≠ s 1 := hH 0 0
    have h12 : s 1 ≠ s 2 := hH 0 1
    have h23 : s 2 ≠ s 3 := hH 0 2
    simp [rowList, sweepSpec, sweepAux, h01.symm, h12.symm, h23.symm]
  · have h01 : s 4 ≠ s 5 := hH 1 0
    have h12 : s 5 ≠ s 6 := hH 1 1
    have h23 : s 6 ≠ s 7 := hH 1 2
    simp [rowList, sweepSpec, sweepAux, h01.symm, h12.symm, h23.symm]
  · have h01 : s 8 ≠ s 9 := hH 2 0
    have h12 : s 9 ≠ s 10 := hH 2 1
    have h23 : s 10 ≠ s 11 := hH 2 2
    simp [rowList, sweepSpec, sweepAux, h01.symm, h12.symm, h23.symm]
  · have h01 : s 12 ≠ s 13 := hH 3 0
    have h12 : s 13 ≠ s 14 := hH 3 1
    have h23 : s 14 ≠ s 15 := hH 3 2
    simp [rowList, sweepSpec, sweepAux, h01.symm, h12.symm, h23.symm]

theorem merge_up_of_noadj {s : Board} (hV : NoVAdj s) : merge_up s = s := by
  apply cols_inj
  intro c
  rw [colList_merge_up]
  fin_cases c
  · have h01 : s 0 ≠ s 4 := hV 0 0
    have h12 : s 4 ≠ s 8 := hV 1 0
    have h23 : s 8 ≠ s 12 := hV 2 0
    simp [colList, sweepSpec, sweepAux, h01, h12, h23]
  · have h01 : s 1 ≠ s 5 := hV 0 1
    have h12 : s 5 ≠ s 9 := hV 1 1
    have h23 : s 9 ≠ s 13 := hV 2 1
    simp [colList, sweepSpec, sweepAux, h01, h12, h23]
  · have h01 : s 2 ≠ s 6 := hV 0 2
    have h12 : s 6 ≠ s 10 := hV 1 2
    have h23 : s 10 ≠ s 14 := hV 2 2
    simp [colList, sweepSpec, sweepAux, h01, h12, h23]
  · have h01 : s 3 ≠ s 7 := hV 0 3
    have h12 : s 7 ≠ s 11 := hV 1 3
    have h23 : s 11 ≠ s 15 := hV 2 3
    simp [colList, sweepSpec, sweepAux, h01, h12, h23]

theorem merge_down_of_noadj {s : Board} (hV : NoVAdj s) : merge_down s = s := by
  apply cols_inj
  intro c
  apply List.reverse_injective
  rw [colList_merge_down]
  fin_cases c
  · have h01 : s 0 ≠ s 4 := hV 0 0
    have h12 : s 4 ≠ s 8 := hV 1 0
    have h23 : s 8 ≠ s 12 := hV 2 0
    simp [colList, sweepSpec, sweepAux, h01.symm, h12.symm, h23.symm]
  · have h01 : s 1 ≠ s 5 := hV 0 1
    have h12 : s 5 ≠ s 9 := hV 1 1
    have h23 : s 9 ≠ s 13 := hV 2 1
    simp [colList, sweepSpec, sweepAux, h01.symm, h12.symm, h23.symm]
  · have h01 : s 2 ≠ s 6 := hV 0 2
    have h12 : s 6 ≠ s 10 := hV 1 2
    have h23 : s 10 ≠ s 14 := hV 2 2
    simp [colList, sweepSpec, sweepAux, h01.symm, h12.symm, h23.symm]
  · have h01 : s 3 ≠ s 7 := hV 0 3
    have h12 : s 7 ≠ s 11 := hV 1 3
    have h23 : s 11 ≠ s 15 := hV 2 3
    simp [colList, sweepSpec, sweepAux, h01.symm, h12.symm, h23.symm]

theorem moveBoard_of_terminal {s : Board} (h : ∀ i, s i ≠ 0) (hH : NoHAdj s)
    (hV : NoVAdj s) (act : Action) : moveBoard s act = s := by
  cases act <;>
    simp [moveBoard, slideOf, mergeOf, slide_up_of_full h, slide_down_of_full h,
      slide_left_of_full h, slide_right_of_full h, merge_up_of_noadj hV,
      merge_down_of_noadj hV, merge_left_of_noadj hH, merge_right_of_noadj hH]

theorem gameOver_iff {s : Board} :
    gameOver s = true ↔
      (∀ i, s i ≠ 0) ∧ cells (merge_left s) = cells s ∧ cells (merge_up s) = cells s := by
  unfold gameOver
  rw [Bool.and_eq_true, Bool.and_eq_true]
  simp only [beq_iff_eq, List.all_eq_true, Bool.not_eq_eq_eq_not, Bool.not_true,
    beq_eq_false_iff_ne, ne_eq]
  constructor
  · rintro ⟨hall, h1, h2⟩
    exact ⟨fun i => by simpa using hall (s i) (mem_cells s i), h1, h2⟩
  · rintro ⟨hfull, h1, h2⟩
    refine ⟨?_, h1, h2⟩
    intro x hx
    simp only [cells, List.mem_cons, List.not_mem_nil, or_false] at hx
    rcases hx with h|h|h|h|h|h|h|h|h|h|h|h|h|h|h|h <;> (rw [h]; simpa using hfull _)

theorem merge_left_fix_iff {s : Board} (hfull : ∀ i, s i ≠ 0) :
    cells (merge_left s) = cells s ↔ NoHAdj s := by
  constructor
  · intro h
    have he : merge_left s = s := cells_inj h
    have e0 := rowList_merge_left s 0
    have e1 := rowList_merge_left s 1
    have e2 := rowList_merge_left s 2
    have e3 := rowList_merge_left s 3
    rw [he] at e0 e1 e2 e3
    obtain ⟨a0, b0, c0⟩ := (sweep4_fix _ _ _ _ (hfull 1) (hfull 2) (hfull 3)).mp e0.symm
    obtain ⟨a1, b1, c1⟩ := (sweep4_fix _ _ _ _ (hfull 5) (hfull 6) (hfull 7)).mp e1.symm
    obtain ⟨a2, b2, c2⟩ := (sweep4_fix _ _ _ _ (hfull 9) (hfull 10) (hfull 11)).mp e2.symm
    obtain ⟨a3, b3, c3⟩ := (sweep4_fix _ _ _ _ (hfull 13) (hfull 14) (hfull 15)).mp e3.symm
    intro r c
    fin_cases r <;> fin_cases c
    exacts [a0, b0, c0, a1, b1, c1, a2, b2, c2, a3, b3, c3]
  · intro h
    rw [merge_left_of_noadj h]

theorem merge_up_fix_iff {s : Board} (hfull : ∀ i, s i ≠ 0) :
    cells (merge_up s) = cells s ↔ NoVAdj s := by
  constructor
  · intro h
    have he : merge_up s = s := cells_inj h
    have e0 := colList_merge_up s 0
    have e1 := colList_merge_up s 1
    have e2 := colList_merge_up s 2
    have e3 := colList_merge_up s 3
    rw [he] at e0 e1 e2 e3
    obtain ⟨a0, b0, c0⟩ := (sweep4_fix _ _ _ _ (hfull 4) (hfull 8) (hfull 12)).mp e0.symm
    obtain ⟨a1, b1, c1⟩ := (sweep4_fix _ _ _ _ (hfull 5) (hfull 9) (hfull 13)).mp e1.symm
    obtain ⟨a2, b2, c2⟩ := (sweep4_fix _ _ _ _ (hfull 6) (hfull 10) (hfull 14)).mp e2.symm
    obtain ⟨a3, b3, c3⟩ := (sweep4_fix _ _ _ _ (hfull 7) (hfull 11) (hfull 15)).mp e3.symm
    intro r c
    fin_cases r <;> fin_cases c
    exacts [a0, a1, a2, a3, b0, b1, b2, b3, c0, c1, c2, c3]
  · intro h
    rw [merge_up_of_noadj h]

/-! ### `add_random_tile` and `advance_state` unfoldings -/

theorem add_random_tile_some : ∀ (rs : List (Fin 16)) (s : Board) (coin : Bool)
    (b' : Board), add_random_tile s rs coin = some b' →
    ∃ i : Fin 16, s i = 0 ∧ b' = Function.update s i (if coin then 1 else 2) := by
  intro rs
  induction rs with
  | nil => intro s coin b' h; simp [add_random_tile] at h
  | cons i rest ih =>
    intro s coin b' h
    simp only [add_random_tile] at h
    by_cases hi : s i ≠ 0
    · rw [if_pos hi] at h
      exact ih s coin b' h
    · rw [if_neg hi] at h
      simp only [Option.some.injEq] at h
      exact ⟨i, not_ne_iff.mp hi, h.symm⟩

theorem add_random_tile_total : ∀ (rs : List (Fin 16)) (s : Board) (i0 : Fin 16),
    i0 ∈ rs → s i0 = 0 → ∀ coin, ∃ b', add_random_tile s rs coin = some b' := by
  intro rs
  induction rs with
  | nil => intro s i0 hm; simp at hm
  | cons i rest ih =>
    intro s i0 hm h0 coin
    simp only [add_random_tile]
    by_cases hi : s i ≠ 0
    · rw [if_pos hi]
      rcases List.mem_cons.mp hm with rfl | hm2
      · exact absurd h0 hi
      · exact ih s i0 hm2 h0 coin
    · rw [if_neg hi]
      exact ⟨_, rfl⟩

theorem advance_state_noop {s : Board} {act : Action} (rs : List (Fin 16)) (coin : Bool)
    (h : cells (moveBoard s act) = cells s) :
    advance_state s act rs coin = some (s, false) := by
  simp only [advance_state]
  rw [if_pos h]

theorem advance_state_spawn {s : Board} {act : Action} {rs : List (Fin 16)} {coin : Bool}
    {b' : Board} {done : Bool}
    (h : cells (moveBoard s act) ≠ cells s)
    (he : advance_state s act rs coin = some (b', done)) :
    add_random_tile (moveBoard s act) rs coin = some b' ∧ done = gameOver b' := by
  simp only [advance_state] at he
  rw [if_neg h] at he
  cases har : add_random_tile (moveBoard s act) rs coin with
  | none => rw [har] at he; exact absurd he (by simp)
  | some b =>
    rw [har] at he
    simp only [Option.some.injEq, Prod.mk.injEq] at he
    obtain ⟨h1, h2⟩ := he
    subst h1
    subst h2
    exact ⟨rfl, rfl⟩

/-! ### Cell-sum machinery -/

theorem sumG_update (g : Nat → Nat) (s : Board) (i : Fin 16) (x : Nat) :
    sumG g (Function.update s i x) + g (s i) = sumG g s + g x := by
  fin_cases i <;> simp [sumG, cells, Function.update] <;> ring

theorem sumG_swap (g : Nat → Nat) (s : Board) (i j : Fin 16) :
    sumG g (swapCells i j s) = sumG g s := by
  have h1 := sumG_update g s i (s j)
  have h2 := sumG_update g (Function.update s i (s j)) j (s i)
  have hj : (Function.update s i (s j)) j = s j := by
    by_cases hij : j = i
    · subst hij; simp
    · rw [Function.update_noteq hij]
  rw [hj] at h2
  unfold swapCells
  omega

theorem sumG_slideLine (g : Nat → Nat) (p0 p1 p2 p3 : Fin 16) (s : Board) :
    sumG g (slideLine p0 p1 p2 p3 s) = sumG g s := by
  unfold slideLine slideStep1 slideStep2 slideStep3
  split_ifs <;> simp [sumG_swap]

theorem sumG_slideOf (g : Nat → Nat) (act : Action) (s : Board) :
    sumG g (slideOf act s) = sumG g s := by
  cases act <;>
    simp [slideOf, slide_up, slide_down, slide_left, slide_right, sumG_slideLine]

theorem single_le_sumG (g : Nat → Nat) (s : Board) (i : Fin 16) :
    g (s i) ≤ sumG g s :=
  List.single_le_sum (by simp) _ (List.mem_map_of_mem g (mem_cells s i))

theorem sumG_mono {g h : Nat → Nat} (hm : ∀ x, g x ≤ h x) (s : Board) :
    sumG g s ≤ sumG h s := by
  simp only [sumG]
  apply List.sum_le_sum
  intro x _
  exact hm x

theorem sumG_le_16 (g : Nat → Nat) (hg : ∀ x, g x ≤ 1) (s : Board) : sumG g s ≤ 16 := by
  have h := sumG_mono (h := fun _ => 1) hg s
  simpa [sumG, cells] using h

theorem two_le_sumG (g : Nat → Nat) (hg0 : g 0 = 0) (s : Board) (i j : Fin 16)
    (hij : i ≠ j) : g (s i) + g (s j) ≤ sumG g s := by
  have h1 := sumG_update g s i 0
  have h2 := single_le_sumG g (Function.update s i 0) j
  have hj : (Function.update s i 0) j = s j := Function.update_noteq (Ne.symm hij) _ _
  rw [hj] at h2
  omega

/-! ### Count-of-large-cells lemmas -/

theorem cnt_mono {v w : Nat} (hvw : v ≤ w) (s : Board) : cnt w s ≤ cnt v s := by
  simp only [cnt]
  apply sumG_mono
  intro x
  by_cases h : w ≤ x
  · simp [h, le_trans hvw h]
  · simp [h]

theorem cnt_le_16 (v : Nat) (s : Board) : cnt v s ≤ 16 :=
  sumG_le_16 _ (fun x => by split <;> omega) s

theorem cnt_update (v : Nat) (s : Board) (i : Fin 16) (x : Nat) :
    cnt v (Function.update s i x) + (if v ≤ s i then 1 else 0) =
      cnt v s + (if v ≤ x then 1 else 0) :=
  sumG_update (fun y => if v ≤ y then 1 else 0) s i x

theorem cnt_fire (v : Nat) (hv : 1 ≤ v) {s : Board} (i j : Fin 16) (hij : i ≠ j) :
    cnt v (Function.update (Function.update s i (s i + 1)) j 0) +
      (if v ≤ s i then 1 else 0) + (if v ≤ s j then 1 else 0) =
    cnt v s + (if v ≤ s i + 1 then 1 else 0) := by
  have h1 := cnt_update v s i (s i + 1)
  have h2 := cnt_update v (Function.update s i (s i + 1)) j 0
  have hjv : (Function.update s i (s i + 1)) j = s j := Function.update_noteq (Ne.symm hij) _ _
  rw [hjv, if_neg (by omega : ¬ v ≤ 0)] at h2
  omega

theorem cnt_add_pair_le (v : Nat) {s : Board} (i j : Fin 16) (hij : i ≠ j)
    (hi : ¬ v ≤ s i) (hj : ¬ v ≤ s j) : cnt v s + 2 ≤ 16 := by
  have h1 := cnt_update v s i v
  have h2 := cnt_update v (Function.update s i v) j v
  have hjv : (Function.update s i v) j = s j := Function.update_noteq (Ne.symm hij) _ _
  rw [hjv] at h2
  rw [if_neg hi, if_pos (le_refl v)] at h1
  rw [if_neg hj, if_pos (le_refl v)] at h2
  have h3 := cnt_le_16 v (Function.update (Function.update s i v) j v)
  omega

theorem cnt_add_single_le (v : Nat) {s : Board} (i : Fin 16) (hi : ¬ v ≤ s i) :
    cnt v s + 1 ≤ 16 := by
  have h1 := cnt_update v s i v
  rw [if_neg hi, if_pos (le_refl v)] at h1
  have h3 := cnt_le_16 v (Function.update s i v)
  omega

theorem cnt_pair_drop {s : Board} {i j : Fin 16} (hij : i ≠ j) {e : Nat} (he1 : 1 ≤ e)
    (hi : s i = e) (hj : s j = e) : cnt (e + 1) s + 2 ≤ cnt e s := by
  have h1a := cnt_update (e + 1) s i 0
  have h1b := cnt_update (e + 1) (Function.update s i 0) j 0
  have h2a := cnt_update e s i 0
  have h2b := cnt_update e (Function.update s i 0) j 0
  have hjv : (Function.update s i 0) j = s j := Function.update_noteq (Ne.symm hij) _ _
  rw [hjv] at h1b h2b
  rw [hi] at h1a h2a
  rw [hj] at h1b h2b
  rw [if_neg (by omega : ¬ e + 1 ≤ e), if_neg (by omega : ¬ e + 1 ≤ 0)] at h1a h1b
  rw [if_pos (le_refl e), if_neg (by omega : ¬ e ≤ 0)] at h2a h2b
  have hm : cnt (e + 1) (Function.update (Function.update s i 0) j 0) ≤
      cnt e (Function.update (Function.update s i 0) j 0) := cnt_mono (by omega) _
  omega

/-! ### Preservation of the invariant -/

theorem inv_mergePair (i j : Fin 16) (hij : i ≠ j) {s : Board} (h : Inv s) :
    Inv (mergePair i j s) := by
  unfold mergePair
  split_ifs with hc
  · obtain ⟨hev, hnz⟩ := hc
    intro v hv2
    have hfire := cnt_fire v.val (by omega) i j hij (s := s)
    rcases Nat.lt_trichotomy v.val (s i + 1) with hlt | heq | hgt
    · -- v ≤ s i : both old cells counted, new near cell counted
      have hvi : v.val ≤ s i := by omega
      rw [if_pos hvi, if_pos (by rw [← hev]; exact hvi), if_pos (by omega)] at hfire
      have hb := h v hv2
      omega
    · -- v = s i + 1 : count grows by one
      rw [if_neg (by omega), if_neg (by rw [← hev]; omega), if_pos (by omega)] at hfire
      have hv19 := v.isLt
      by_cases he1 : s i = 1
      · -- merged pair of exponent 1: v = 2 and at most 14 old cells count
        have hpair := cnt_add_pair_le v.val (s := s) i j hij
          (by omega) (by rw [← hev]; omega)
        omega
      · -- s i ≥ 2 : use the invariant at e = s i together with the pair drop
        have he2 : 2 ≤ s i := by omega
        have hdrop := cnt_pair_drop hij (by omega : 1 ≤ s i) rfl hev.symm
        have hbe : cnt (s i) s ≤ 18 - s i := h ⟨s i, by omega⟩ he2
        rw [heq] at hfire ⊢
        omega
    · -- v > s i + 1 : nothing changes
      rw [if_neg (by omega), if_neg (by rw [← hev]; omega), if_neg (by omega)] at hfire
      have hb := h v hv2
      omega
  · exact h

theorem inv_mergeLine (p0 p1 p2 p3 : Fin 16) (h01 : p0 ≠ p1) (h12 : p1 ≠ p2)
    (h23 : p2 ≠ p3) {s : Board} (h : Inv s) : Inv (mergeLine p0 p1 p2 p3 s) :=
  inv_mergePair _ _ h23 (inv_mergePair _ _ h12 (inv_mergePair _ _ h01 h))

theorem inv_mergeOf (act : Action) {s : Board} (h : Inv s) : Inv (mergeOf act s) := by
  cases act <;>
    · simp only [mergeOf, merge_up, merge_down, merge_left, merge_right]
      apply inv_mergeLine _ _ _ _ (by decide) (by decide) (by decide)
      apply inv_mergeLine _ _ _ _ (by decide) (by decide) (by decide)
      apply inv_mergeLine _ _ _ _ (by decide) (by decide) (by decide)
      apply inv_mergeLine _ _ _ _ (by decide) (by decide) (by decide)
      exact h

theorem inv_slideOf (act : Action) {s : Board} (h : Inv s) : Inv (slideOf act s) := by
  intro v hv2
  have he : cnt v.val (slideOf act s) = cnt v.val s := sumG_slideOf _ act s
  rw [he]
  exact h v hv2

theorem inv_moveBoard (act : Action) {s : Board} (h : Inv s) : Inv (moveBoard s act) :=
  inv_slideOf act (inv_mergeOf act (inv_slideOf act h))

theorem inv_spawn {s : Board} (i : Fin 16) (h0 : s i = 0) (x : Nat) (hx : x ≤ 2)
    (h : Inv s) : Inv (Function.update s i x) := by
  intro v hv2
  have hm := cnt_update v.val s i x
  rw [h0, if_neg (by omega : ¬ v.val ≤ 0)] at hm
  by_cases hvx : v.val ≤ x
  · have h16 := cnt_add_single_le v.val i (by omega : ¬ v.val ≤ s i)
    have : v.val = 2 := by omega
    rw [if_pos hvx] at hm
    omega
  · rw [if_neg hvx] at hm
    have hb := h v hv2
    omega

theorem inv_small {s : Board} (hsmall : ∀ k, s k ≤ 1) : Inv s := by
  intro v hv2
  have t : ∀ k : Fin 16, (if v.val ≤ s k then 1 else 0) = 0 := fun k =>
    if_neg (by have := hsmall k; omega)
  have hz : cnt v.val s = 0 := by
    simp only [cnt, sumG, cells, List.map_cons, List.map_nil, List.sum_cons,
      List.sum_nil, t]
    omega
  omega

theorem inv_new {i : Fin 16} {js : List (Fin 16)} {b : Board} (h : new i js = some b) :
    Inv b := by
  unfold new at h
  cases hp : pickDistinct i js with
  | none => rw [hp] at h; exact Option.noConfusion h
  | some j =>
    rw [hp] at h
    have h2 : Function.update (Function.update (fun _ => 0) i 1) j 1 = b :=
      Option.some.inj h
    subst h2
    apply inv_small
    intro k
    by_cases hk : k = j
    · subst hk; simp
    · rw [Function.update_noteq hk]
      by_cases hk2 : k = i
      · subst hk2; simp
      · rw [Function.update_noteq hk2]
        exact Nat.zero_le _

theorem inv_advance {s : Board} {act : Action} {rs : List (Fin 16)} {coin : Bool}
    {b' : Board} {done : Bool} (h : Inv s)
    (he : advance_state s act rs coin = some (b', done)) : Inv b' := by
  by_cases hch : cells (moveBoard s act) = cells s
  · rw [advance_state_noop rs coin hch] at he
    simp only [Option.some.injEq, Prod.mk.injEq] at he
    rw [← he.1]
    exact h
  · obtain ⟨hsp, -⟩ := advance_state_spawn hch he
    obtain ⟨i, hi0, hb⟩ := add_random_tile_some rs (moveBoard s act) coin b' hsp
    rw [hb]
    exact inv_spawn i hi0 _ (by split <;> omega) (inv_moveBoard act h)

theorem inv_reachable {b : Board} (h : Reachable b) : Inv b := by
  induction h with
  | base i js b hn => exact inv_new hn
  | step b act rs coin b' done _ he ih => exact inv_advance ih he

theorem reachable_le_17 {b : Board} (h : Reachable b) (i : Fin 16) : b i ≤ 17 := by
  have hinv := inv_reachable h
  have h18 := hinv ⟨18, by omega⟩ (by simp)
  simp only at h18
  have hs := single_le_sumG (fun x => if 18 ≤ x then 1 else 0) b i
  have : cnt 18 b = sumG (fun x => if 18 ≤ x then 1 else 0) b := rfl
  by_contra hgt
  rw [if_pos (by omega)] at hs
  omega

/-! ### Score lemmas -/

theorem scoreTab_lookup : ∀ e < 18, SCORE_LOOKUP.get? e = some (scoreTab e) := by decide

theorem scoreTab_zero : scoreTab 0 = 0 := rfl

theorem scoreTab_succ {e : Nat} (he : 1 ≤ e) : scoreTab (e + 1) = 2 * scoreTab e + 4 := by
  unfold scoreTab
  rcases Nat.eq_or_lt_of_le he with he1 | h2
  · rw [← he1]
    decide
  · rw [if_neg (by omega), if_neg (by omega)]
    have h4 : (4 : Nat) ≤ 2 ^ (e + 1) := by
      calc (4 : Nat) = 2 ^ 2 := rfl
      _ ≤ 2 ^ (e + 1) := Nat.pow_le_pow_right (by omega) (by omega)
    have hp : 2 ^ (e + 1 + 1) = 2 * 2 ^ (e + 1) := by
      rw [pow_succ]
      ring
    omega

theorem mapM_none {α β : Type} (f : α → Option β) :
    ∀ (l : List α) (x : α), x ∈ l → f x = none → l.mapM f = none := by
  intro l
  induction l with
  | nil => intro x hx; exact absurd hx (List.not_mem_nil x)
  | cons y ys ih =>
    intro x hx hf
    rw [List.mapM_cons]
    rcases List.mem_cons.mp hx with rfl | hm
    · rw [hf]
      rfl
    · cases hfy : f y
      · rfl
      · simp only [Option.bind_eq_bind, Option.some_bind, ih x hm hf, Option.none_bind]

theorem score_some_le {s : Board} {n : Nat} (h : score s = some n) (i : Fin 16) :
    s i ≤ 17 := by
  by_contra hgt
  have hnone : SCORE_LOOKUP.get? (s i) = none := by
    apply List.get?_eq_none.mpr
    have : SCORE_LOOKUP.length = 18 := rfl
    omega
  have := mapM_none (fun x => SCORE_LOOKUP.get? x) (cells s) (s i) (mem_cells s i) hnone
  unfold score at h
  rw [this] at h
  exact Option.noConfusion h

theorem mem_cells_ex {s : Board} {x : Nat} (hx : x ∈ cells s) :
    ∃ i : Fin 16, x = s i := by
  simp only [cells, List.mem_cons, List.not_mem_nil, or_false] at hx
  rcases hx with h|h|h|h|h|h|h|h|h|h|h|h|h|h|h|h <;> exact ⟨_, h⟩

theorem mapM_get_eq : ∀ l : List Nat, (∀ x ∈ l, x < 18) →
    l.mapM (fun x => SCORE_LOOKUP.get? x) = some (l.map scoreTab) := by
  intro l
  induction l with
  | nil => intro; rfl
  | cons x xs ih =>
    intro h
    rw [List.mapM_cons, scoreTab_lookup x (h x (List.mem_cons_self x xs)),
      ih (fun y hy => h y (List.mem_cons_of_mem x hy))]
    rfl

theorem score_eq {s : Board} (h : ∀ i, s i ≤ 17) : score s = some (scoreT s) := by
  unfold score
  rw [mapM_get_eq (cells s) ?hb]
  · rfl
  case hb =>
    intro x hx
    obtain ⟨i, rfl⟩ := mem_cells_ex hx
    have := h i
    omega

theorem score_some_eq {s : Board} {n : Nat} (h : score s = some n) : n = scoreT s := by
  have hb : ∀ i, s i ≤ 17 := score_some_le h
  have := score_eq hb
  rw [this] at h
  exact (Option.some.inj h).symm

theorem scoreT_spawn {s : Board} {i : Fin 16} (h0 : s i = 0) (x : Nat) :
    scoreT (Function.update s i x) = scoreT s + scoreTab x := by
  have h1 := sumG_update scoreTab s i x
  rw [h0] at h1
  have hz : scoreTab 0 = 0 := rfl
  unfold scoreT
  omega

/-- Score effect of one conditional pair merge: a no-op, or exactly +4. -/
theorem scoreT_mergePair (i j : Fin 16) (hij : i ≠ j) (s : Board) :
    (mergePair i j s = s) ∨ (scoreT (mergePair i j s) = scoreT s + 4) := by
  unfold mergePair
  split_ifs with hc
  · right
    obtain ⟨hev, hnz⟩ := hc
    have h1 := sumG_update scoreTab s i (s i + 1)
    have h2 := sumG_update scoreTab (Function.update s i (s i + 1)) j 0
    have hjv : (Function.update s i (s i + 1)) j = s j :=
      Function.update_noteq (Ne.symm hij) _ _
    rw [hjv, ← hev] at h2
    have hs := scoreTab_succ (e := s i) (by omega)
    have hz : scoreTab 0 = 0 := rfl
    unfold scoreT
    omega
  · exact Or.inl rfl

/-- Monotone-plus-4-per-merge property of a board transformation. -/
def MQ (f : Board → Board) : Prop :=
  ∀ s, scoreT s ≤ scoreT (f s) ∧ (f s = s ∨ scoreT s + 4 ≤ scoreT (f s))

theorem MQ_mergePair (i j : Fin 16) (hij : i ≠ j) : MQ (mergePair i j) := by
  intro s
  rcases scoreT_mergePair i j hij s with h | h
  · rw [h]
    exact ⟨le_refl _, Or.inl rfl⟩
  · rw [h]
    exact ⟨by omega, Or.inr (by omega)⟩

theorem MQ_comp {f g : Board → Board} (hf : MQ f) (hg : MQ g) :
    MQ (fun s => g (f s)) := by
  intro s
  obtain ⟨hf1, hf2⟩ := hf s
  obtain ⟨hg1, hg2⟩ := hg (f s)
  refine ⟨le_trans hf1 hg1, ?_⟩
  show g (f s) = s ∨ scoreT s + 4 ≤ scoreT (g (f s))
  rcases hf2 with he | hlt
  · rw [he] at hg1 hg2 ⊢
    exact hg2
  · exact Or.inr (le_trans hlt hg1)

theorem MQ_mergeLine (p0 p1 p2 p3 : Fin 16) (h01 : p0 ≠ p1) (h12 : p1 ≠ p2)
    (h23 : p2 ≠ p3) : MQ (mergeLine p0 p1 p2 p3) := by
  have h := MQ_comp (MQ_comp (MQ_mergePair p0 p1 h01) (MQ_mergePair p1 p2 h12))
    (MQ_mergePair p2 p3 h23)
  intro s
  exact h s

theorem MQ_mergeOf (act : Action) : MQ (mergeOf act) := by
  cases act
  · have h := MQ_comp (MQ_comp (MQ_comp
      (MQ_mergeLine 0 4 8 12 (by decide) (by decide) (by decide))
      (MQ_mergeLine 1 5 9 13 (by decide) (by decide) (by decide)))
      (MQ_mergeLine 2 6 10 14 (by decide) (by decide) (by decide)))
      (MQ_mergeLine 3 7 11 15 (by decide) (by decide) (by decide))
    intro s
    exact h s
  · have h := MQ_comp (MQ_comp (MQ_comp
      (MQ_mergeLine 12 8 4 0 (by decide) (by decide) (by decide))
      (MQ_mergeLine 13 9 5 1 (by decide) (by decide) (by decide)))
      (MQ_mergeLine 14 10 6 2 (by decide) (by decide) (by decide)))
      (MQ_mergeLine 15 11 7 3 (by decide) (by decide) (by decide))
    intro s
    exact h s
  · have h := MQ_comp (MQ_comp (MQ_comp
      (MQ_mergeLine 0 1 2 3 (by decide) (by decide) (by decide))
      (MQ_mergeLine 4 5 6 7 (by decide) (by decide) (by decide)))
      (MQ_mergeLine 8 9 10 11 (by decide) (by decide) (by decide)))
      (MQ_mergeLine 12 13 14 15 (by decide) (by decide) (by decide))
    intro s
    exact h s
  · have h := MQ_comp (MQ_comp (MQ_comp
      (MQ_mergeLine 3 2 1 0 (by decide) (by decide) (by decide))
      (MQ_mergeLine 7 6 5 4 (by decide) (by decide) (by decide)))
      (MQ_mergeLine 11 10 9 8 (by decide) (by decide) (by decide)))
      (MQ_mergeLine 15 14 13 12 (by decide) (by decide) (by decide))
    intro s
    exact h s

theorem scoreT_moveBoard (s : Board) (act : Action) :
    scoreT s ≤ scoreT (moveBoard s act) ∧
      (scoreT (moveBoard s act) = scoreT s →
        mergeOf act (slideOf act s) = slideOf act s) := by
  have hs1 : scoreT (slideOf act s) = scoreT s := sumG_slideOf scoreTab act s
  obtain ⟨hm1, hm2⟩ := MQ_mergeOf act (slideOf act s)
  have hs2 : scoreT (moveBoard s act) = scoreT (mergeOf act (slideOf act s)) := by
    unfold moveBoard
    exact sumG_slideOf scoreTab act _
  constructor
  · omega
  · intro heq
    rcases hm2 with he | hlt
    · exact he
    · omega

/-! ### Cells-based equality helpers for concrete computations -/

theorem option_board_eq {o : Option (Board × Bool)} {b : Board} {t : Bool}
    (h : o.map (fun q => (cells q.1, q.2)) = some (cells b, t)) : o = some (b, t) := by
  cases o with
  | none => exact Option.noConfusion h
  | some q =>
    have h2 : (cells q.1, q.2) = (cells b, t) := Option.some.inj h
    have hc : cells q.1 = cells b := congrArg Prod.fst h2
    have ht : q.2 = t := congrArg Prod.snd h2
    have hq : q = (b, t) := Prod.ext (cells_inj hc) ht
    rw [hq]

theorem option_board_eq1 {o : Option Board} {b : Board}
    (h : o.map cells = some (cells b)) : o = some b := by
  cases o with
  | none => exact Option.noConfusion h
  | some q =>
    have hc : cells q = cells b := Option.some.inj h
    rw [cells_inj hc]

/-! ### Empty-cell tracking through a move -/

theorem zero_mem_compactEdge_iff {a b c d : Nat} :
    0 ∈ compactEdge [a, b, c, d] ↔ 0 ∈ ([a, b, c, d] : List Nat) := by
  rw [zero_mem_compactEdge4]
  simp [eq_comm]

theorem zero_mem_compactEdgeRev_iff {a b c d : Nat} :
    0 ∈ compactEdgeRev [a, b, c, d] ↔ 0 ∈ ([a, b, c, d] : List Nat) := by
  rw [zero_mem_compactEdgeRev4]
  simp [eq_comm]

theorem hasEmpty_slideOf (act : Action) (s : Board) :
    hasEmpty (slideOf act s) ↔ hasEmpty s := by
  cases act
  · rw [hasEmpty_iff_cols, hasEmpty_iff_cols (s := s)]
    refine exists_congr fun c => ?_
    rw [show slideOf Action.Up s = slide_up s from rfl, colList_slide_up]
    fin_cases c <;> exact zero_mem_compactEdge_iff
  · rw [hasEmpty_iff_cols, hasEmpty_iff_cols (s := s)]
    refine exists_congr fun c => ?_
    rw [show slideOf Action.Down s = slide_down s from rfl, colList_slide_down]
    fin_cases c <;> exact zero_mem_compactEdgeRev_iff
  · rw [hasEmpty_iff_rows, hasEmpty_iff_rows (s := s)]
    refine exists_congr fun r => ?_
    rw [show slideOf Action.Left s = slide_left s from rfl, rowList_slide_left]
    fin_cases r <;> exact zero_mem_compactEdge_iff
  · rw [hasEmpty_iff_rows, hasEmpty_iff_rows (s := s)]
    refine exists_congr fun r => ?_
    rw [show slideOf Action.Right s = slide_right s from rfl, rowList_slide_right]
    fin_cases r <;> exact zero_mem_compactEdgeRev_iff

theorem hasEmpty_mergeOf (act : Action) (s : Board) (h : hasEmpty s) :
    hasEmpty (mergeOf act s) := by
  cases act
  · rw [hasEmpty_iff_cols] at h ⊢
    obtain ⟨c, hc⟩ := h
    refine ⟨c, ?_⟩
    rw [show mergeOf Action.Up s = merge_up s from rfl, colList_merge_up]
    exact sweepSpec_zero_mem hc
  · rw [hasEmpty_iff_cols] at h ⊢
    obtain ⟨c, hc⟩ := h
    refine ⟨c, ?_⟩
    rw [show mergeOf Action.Down s = merge_down s from rfl, ← List.mem_reverse,
      colList_merge_down]
    exact sweepSpec_zero_mem (List.mem_reverse.mpr hc)
  · rw [hasEmpty_iff_rows] at h ⊢
    obtain ⟨r, hr⟩ := h
    refine ⟨r, ?_⟩
    rw [show mergeOf Action.Left s = merge_left s from rfl, rowList_merge_left]
    exact sweepSpec_zero_mem hr
  · rw [hasEmpty_iff_rows] at h ⊢
    obtain ⟨r, hr⟩ := h
    refine ⟨r, ?_⟩
    rw [show mergeOf Action.Right s = merge_right s from rfl, ← List.mem_reverse,
      rowList_merge_right]
    exact sweepSpec_zero_mem (List.mem_reverse.mpr hr)

theorem hasEmpty_mergeOf_ne (act : Action) (s : Board) (h : mergeOf act s ≠ s) :
    hasEmpty (mergeOf act s) := by
  cases act
  · have hex : ∃ c, colList (merge_up s) c ≠ colList s c := by
      by_contra hall
      push_neg at hall
      exact h (cols_inj hall)
    obtain ⟨c, hc⟩ := hex
    rw [show mergeOf Action.Up s = merge_up s from rfl] at h ⊢
    rw [hasEmpty_iff_cols]
    refine ⟨c, ?_⟩
    rw [colList_merge_up] at hc ⊢
    exact sweepSpec_ne hc
  · have hex : ∃ c, colList (merge_down s) c ≠ colList s c := by
      by_contra hall
      push_neg at hall
      exact h (cols_inj hall)
    obtain ⟨c, hc⟩ := hex
    rw [show mergeOf Action.Down s = merge_down s from rfl] at h ⊢
    rw [hasEmpty_iff_cols]
    refine ⟨c, ?_⟩
    have hrc : (colList (merge_down s) c).reverse ≠ (colList s c).reverse :=
      fun he => hc (List.reverse_injective he)
    rw [colList_merge_down] at hrc
    rw [← List.mem_reverse, colList_merge_down]
    exact sweepSpec_ne hrc
  · have hex : ∃ r, rowList (merge_left s) r ≠ rowList s r := by
      by_contra hall
      push_neg at hall
      exact h (rows_inj hall)
    obtain ⟨r, hr⟩ := hex
    rw [show mergeOf Action.Left s = merge_left s from rfl] at h ⊢
    rw [hasEmpty_iff_rows]
    refine ⟨r, ?_⟩
    rw [rowList_merge_left] at hr ⊢
    exact sweepSpec_ne hr
  · have hex : ∃ r, rowList (merge_right s) r ≠ rowList s r := by
      by_contra hall
      push_neg at hall
      exact h (rows_inj hall)
    obtain ⟨r, hr⟩ := hex
    rw [show mergeOf Action.Right s = merge_right s from rfl] at h ⊢
    rw [hasEmpty_iff_rows]
    refine ⟨r, ?_⟩
    have hrc : (rowList (merge_right s) r).reverse ≠ (rowList s r).reverse :=
      fun he => hr (List.reverse_injective he)
    rw [rowList_merge_right] at hrc
    rw [← List.mem_reverse, rowList_merge_right]
    exact sweepSpec_ne hrc

theorem slideOf_of_full {s : Board} (hfull : ∀ i, s i ≠ 0) (act : Action) :
    slideOf act s = s := by
  cases act
  exacts [slide_up_of_full hfull, slide_down_of_full hfull,
    slide_left_of_full hfull, slide_right_of_full hfull]

theorem hasEmpty_moveBoard {s : Board} {act : Action} (h : moveBoard s act ≠ s) :
    hasEmpty (moveBoard s act) := by
  by_cases hs : hasEmpty s
  · have h1 := (hasEmpty_slideOf act s).mpr hs
    have h2 := hasEmpty_mergeOf act _ h1
    exact (hasEmpty_slideOf act _).mpr h2
  · have hfull : ∀ i, s i ≠ 0 := not_hasEmpty_iff.mp hs
    have hs1 : slideOf act s = s := slideOf_of_full hfull act
    by_cases hm : mergeOf act s = s
    · exact absurd (by unfold moveBoard; rw [hs1, hm, hs1]) h
    · have h2 := hasEmpty_mergeOf_ne act s hm
      have h3 : moveBoard s act = slideOf act (mergeOf act s) := by
        unfold moveBoard
        rw [hs1]
      rw [h3]
      exact (hasEmpty_slideOf act _).mpr h2

/-! ### `step_2048_py` unfolding -/

theorem step_2048_py_eq {l : List Nat} (hlen : l.length = 16) {a : Nat} {act : Action}
    (hdec : decodeAction a = some act) (rs : List (Fin 16)) (coin : Bool) :
    step_2048_py l a rs coin =
      match advance_state (boardOfList l) act rs coin with
      | none => none
      | some (s, done) =>
        match score s, score (boardOfList l) with
        | some ns, some os => some (cells s, ns - os, done)
        | _, _ => none := by
  simp only [step_2048_py]
  rw [if_pos hlen, hdec]

/-- Score relation along one successful `advance_state` step. -/
theorem score_mono_advance {b : Board} {act : Action} {rs : List (Fin 16)} {coin : Bool}
    {s' : Board} {done' : Bool}
    (hadv : advance_state b act rs coin = some (s', done')) :
    scoreT b ≤ scoreT s' ∧
      (scoreT s' = scoreT b → mergeOf act (slideOf act b) = slideOf act b) := by
  by_cases hch : cells (moveBoard b act) = cells b
  · rw [advance_state_noop rs coin hch] at hadv
    have h3 := Option.some.inj hadv
    have hb : b = s' := congrArg Prod.fst h3
    rw [← hb]
    refine ⟨le_refl _, fun _ => ?_⟩
    have hmb : moveBoard b act = b := cells_inj hch
    exact (scoreT_moveBoard b act).2 (by rw [hmb])
  · obtain ⟨hsp, -⟩ := advance_state_spawn hch hadv
    obtain ⟨i, hi0, hbeq⟩ := add_random_tile_some rs _ coin s' hsp
    have hsp2 : scoreT s' = scoreT (moveBoard b act) + scoreTab (if coin then 1 else 2) := by
      rw [hbeq]
      exact scoreT_spawn hi0 _
    have hmono := (scoreT_moveBoard b act).1
    refine ⟨by omega, fun heq => ?_⟩
    exact (scoreT_moveBoard b act).2 (by omega)

/-- A move that fixes the board makes the whole step a no-op. -/
theorem step_fix_noop {s : Board} {act : Action} {a : Nat}
    (hrange : ∀ i, s i ≤ 17) (hmv : cells (moveBoard s act) = cells s)
    (hdec : decodeAction a = some act) (rs : List (Fin 16)) (coin : Bool) :
    step_2048_py (cells s) a rs coin = some (cells s, 0, false) := by
  have hlen : (cells s).length = 16 := rfl
  have hs := score_eq hrange
  rw [step_2048_py_eq hlen hdec rs coin, boardOfList_cells,
    advance_state_noop rs coin hmv]
  show (match score s, score s with
    | some ns, some os => some (cells s, ns - os, false)
    | _, _ => none) = some (cells s, 0, false)
  rw [hs]
  simp

/-! ## Claim theorems -/

/-- C1: whenever `advance_state` performs a state-changing move, the
returned terminal flag is true iff on the post-spawn board every cell is
non-empty, no two horizontally adjacent cells are equal, and no two
vertically adjacent cells are equal. -/
theorem c1_terminal_iff {s : Board} {act : Action} {rs : List (Fin 16)} {coin : Bool}
    {b' : Board} {done : Bool}
    (hmove : cells (moveBoard s act) ≠ cells s)
    (hstep : advance_state s act rs coin = some (b', done)) :
    done = true ↔ (∀ i, b' i ≠ 0) ∧ NoHAdj b' ∧ NoVAdj b' := by
  obtain ⟨-, hdone⟩ := advance_state_spawn hmove hstep
  rw [hdone, gameOver_iff]
  constructor
  · rintro ⟨hfull, h1, h2⟩
    exact ⟨hfull, (merge_left_fix_iff hfull).mp h1, (merge_up_fix_iff hfull).mp h2⟩
  · rintro ⟨hfull, h1, h2⟩
    exact ⟨hfull, (merge_left_fix_iff hfull).mpr h1, (merge_up_fix_iff hfull).mpr h2⟩

/-- Witness for C1: a Left move that fills the board into a dead position. -/
theorem c1_terminal_iff_witness :
    (true = true ↔
      (∀ i, boardOfList [1,2,1,2, 2,1,2,1, 1,2,1,2, 2,1,5,1] i ≠ 0) ∧
      NoHAdj (boardOfList [1,2,1,2, 2,1,2,1, 1,2,1,2, 2,1,5,1]) ∧
      NoVAdj (boardOfList [1,2,1,2, 2,1,2,1, 1,2,1,2, 2,1,5,1])) :=
  @c1_terminal_iff (boardOfList [1,2,1,2, 2,1,2,1, 1,2,1,2, 2,1,0,5]) Action.Left
    [15, 14] true (boardOfList [1,2,1,2, 2,1,2,1, 1,2,1,2, 2,1,5,1]) true
    (by decide) (option_board_eq (by decide))

/-- C2: `advance_state` is either a byte-for-byte no-op returning
`terminal = false` with no spawned tile, or — when slide–merge–slide
changed a cell — the returned board is the moved board with exactly one
fresh exponent-1-or-2 tile in a previously empty cell. -/
theorem c2_noop_or_spawn (s : Board) (act : Action) (rs : List (Fin 16)) (coin : Bool) :
    (cells (moveBoard s act) = cells s →
      advance_state s act rs coin = some (s, false)) ∧
    (cells (moveBoard s act) ≠ cells s →
      ∀ b' done, advance_state s act rs coin = some (b', done) →
        ∃ (i : Fin 16) (v : Nat), (v = 1 ∨ v = 2) ∧ moveBoard s act i = 0 ∧
          b' = Function.update (moveBoard s act) i v) := by
  constructor
  · intro h
    exact advance_state_noop rs coin h
  · intro hne b' done hstep
    obtain ⟨hsp, -⟩ := advance_state_spawn hne hstep
    obtain ⟨i, hi0, hb⟩ := add_random_tile_some rs (moveBoard s act) coin b' hsp
    refine ⟨i, if coin then 1 else 2, ?_, hi0, hb⟩
    cases coin <;> simp

/-- Witness for C2: one no-op move and one spawning move. -/
theorem c2_noop_or_spawn_witness :
    advance_state (boardOfList [1,0,0,0, 1,0,0,0, 0,0,0,0, 0,0,0,0]) Action.Left [3] true =
      some (boardOfList [1,0,0,0, 1,0,0,0, 0,0,0,0, 0,0,0,0], false) ∧
    ∃ (i : Fin 16) (v : Nat), (v = 1 ∨ v = 2) ∧
      moveBoard (boardOfList [1,1,0,0, 0,0,0,0, 0,0,0,0, 0,0,0,0]) Action.Left i = 0 ∧
      boardOfList [2,0,1,0, 0,0,0,0, 0,0,0,0, 0,0,0,0] =
        Function.update (moveBoard (boardOfList [1,1,0,0, 0,0,0,0, 0,0,0,0, 0,0,0,0])
          Action.Left) i v :=
  ⟨(c2_noop_or_spawn (boardOfList [1,0,0,0, 1,0,0,0, 0,0,0,0, 0,0,0,0])
      Action.Left [3] true).1 (by decide),
   (c2_noop_or_spawn (boardOfList [1,1,0,0, 0,0,0,0, 0,0,0,0, 0,0,0,0])
      Action.Left [2] true).2 (by decide) _ false (option_board_eq (by decide))⟩

/-- C3: each slide maps every row (Left/Right) or column (Up/Down) to its
non-empty values in original order compacted against the target edge, the
remaining cells zero. -/
theorem c3_slide_spec (s : Board) (r : Fin 4) :
    rowList (slide_left s) r = compactEdge (rowList s r) ∧
    rowList (slide_right s) r = compactEdgeRev (rowList s r) ∧
    colList (slide_up s) r = compactEdge (colList s r) ∧
    colList (slide_down s) r = compactEdgeRev (colList s r) :=
  ⟨rowList_slide_left s r, rowList_slide_right s r, colList_slide_up s r,
    colList_slide_down s r⟩

/-- C4: each merge is exactly one sweep per line over adjacent pairs from
the target edge reading current values, and one `merge_left` pass on the
row `[1,1,1,1]` gives `[2,0,2,0]`, not `[3,0,0,0]`. -/
theorem c4_merge_single_sweep :
    (∀ (s : Board) (r : Fin 4),
      rowList (merge_left s) r = sweepSpec (rowList s r) ∧
      (rowList (merge_right s) r).reverse = sweepSpec ((rowList s r).reverse) ∧
      colList (merge_up s) r = sweepSpec (colList s r) ∧
      (colList (merge_down s) r).reverse = sweepSpec ((colList s r).reverse)) ∧
    sweepSpec [1, 1, 1, 1] = [2, 0, 2, 0] ∧ sweepSpec [1, 1, 1, 1] ≠ [3, 0, 0, 0] ∧
    rowList (merge_left (boardOfList [1,1,1,1, 0,0,0,0, 0,0,0,0, 0,0,0,0])) 0 =
      [2, 0, 2, 0] := by
  refine ⟨fun s r => ⟨rowList_merge_left s r, rowList_merge_right s r,
    colList_merge_up s r, colList_merge_down s r⟩, by decide, by decide, by decide⟩

/-- C5 counterexample: a lone exponent-3 cell scores 12 in the code, but the
claimed table `2^(e-1)*(e-1)` gives 8. -/
theorem c5_counterexample :
    score (boardOfList [3,0,0,0, 0,0,0,0, 0,0,0,0, 0,0,0,0]) = some 12 ∧
    ((cells (boardOfList [3,0,0,0, 0,0,0,0, 0,0,0,0, 0,0,0,0])).map claimTab).sum = 8 ∧
    (8 : Nat) ≠ 12 := by decide

/-- C5 amended: on boards with all cells ≤ 17, `score` is the sum of a fixed
per-exponent table in which 0 and 1 contribute 0 and `2 ≤ e ≤ 17`
contributes `2^(e+1) − 4`. -/
theorem c5_score_table {s : Board} (h : ∀ i, s i ≤ 17) :
    score s = some (((cells s).map scoreTab).sum) ∧
    scoreTab 0 = 0 ∧ scoreTab 1 = 0 ∧
    (∀ e, 2 ≤ e → e ≤ 17 → scoreTab e = 2 ^ (e + 1) - 4) := by
  refine ⟨score_eq h, rfl, rfl, fun e h2 _ => ?_⟩
  unfold scoreTab
  rw [if_neg (by omega)]

/-- Witness for the amended C5. -/
theorem c5_score_table_witness :
    score (boardOfList [1,2,3,0, 0,0,0,0, 0,0,0,0, 0,0,0,17]) =
      some (((cells (boardOfList [1,2,3,0, 0,0,0,0, 0,0,0,0, 0,0,0,17])).map
        scoreTab).sum) ∧
    scoreTab 0 = 0 ∧ scoreTab 1 = 0 ∧
    (∀ e, 2 ≤ e → e ≤ 17 → scoreTab e = 2 ^ (e + 1) - 4) :=
  c5_score_table (by decide)

/-- C6 counterexample: on the board `[1,0,0,0, 1,0,0,0, 0, …]` the action
Left is a no-op — the board is returned unchanged with no spawn and
`terminal = false`, and slide–merge–slide changes no cell. -/
theorem c6_counterexample :
    advance_state (boardOfList [1,0,0,0, 1,0,0,0, 0,0,0,0, 0,0,0,0]) Action.Left [0] true =
      some (boardOfList [1,0,0,0, 1,0,0,0, 0,0,0,0, 0,0,0,0], false) ∧
    cells (moveBoard (boardOfList [1,0,0,0, 1,0,0,0, 0,0,0,0, 0,0,0,0]) Action.Left) =
      [1,0,0,0, 1,0,0,0, 0,0,0,0, 0,0,0,0] :=
  ⟨option_board_eq (by decide), by decide⟩

/-- C6 amended: on that board the action Up is state-changing — before the
spawn the board becomes `[2,0,…,0]`, the pre-spawn score delta is 4 (score
goes from 0 to 4 by the single merge to exponent 2), and the returned board
additionally holds exactly one fresh exponent 1 or 2 in a previously empty
cell. -/
theorem c6_up_scenario :
    cells (moveBoard (boardOfList [1,0,0,0, 1,0,0,0, 0,0,0,0, 0,0,0,0]) Action.Up) =
      [2,0,0,0, 0,0,0,0, 0,0,0,0, 0,0,0,0] ∧
    score (moveBoard (boardOfList [1,0,0,0, 1,0,0,0, 0,0,0,0, 0,0,0,0]) Action.Up) =
      some 4 ∧
    score (boardOfList [1,0,0,0, 1,0,0,0, 0,0,0,0, 0,0,0,0]) = some 0 ∧
    (∀ rs coin b' done,
      advance_state (boardOfList [1,0,0,0, 1,0,0,0, 0,0,0,0, 0,0,0,0]) Action.Up rs coin =
        some (b', done) →
      ∃ (i : Fin 16) (v : Nat), (v = 1 ∨ v = 2) ∧
        moveBoard (boardOfList [1,0,0,0, 1,0,0,0, 0,0,0,0, 0,0,0,0]) Action.Up i = 0 ∧
        b' = Function.update
          (moveBoard (boardOfList [1,0,0,0, 1,0,0,0, 0,0,0,0, 0,0,0,0]) Action.Up) i v) := by
  refine ⟨by decide, by decide, by decide, ?_⟩
  intro rs coin b' done hstep
  have hne : cells (moveBoard (boardOfList [1,0,0,0, 1,0,0,0, 0,0,0,0, 0,0,0,0])
      Action.Up) ≠ cells (boardOfList [1,0,0,0, 1,0,0,0, 0,0,0,0, 0,0,0,0]) := by decide
  obtain ⟨hsp, -⟩ := advance_state_spawn hne hstep
  obtain ⟨i, hi0, hb⟩ := add_random_tile_some rs _ coin b' hsp
  refine ⟨i, if coin then 1 else 2, ?_, hi0, hb⟩
  cases coin <;> simp

/-- Witness for the amended C6. -/
theorem c6_up_scenario_witness :
    ∃ (i : Fin 16) (v : Nat), (v = 1 ∨ v = 2) ∧
      moveBoard (boardOfList [1,0,0,0, 1,0,0,0, 0,0,0,0, 0,0,0,0]) Action.Up i = 0 ∧
      boardOfList [2,2,0,0, 0,0,0,0, 0,0,0,0, 0,0,0,0] = Function.update
        (moveBoard (boardOfList [1,0,0,0, 1,0,0,0, 0,0,0,0, 0,0,0,0]) Action.Up) i v :=
  c6_up_scenario.2.2.2 [1] false (boardOfList [2,2,0,0, 0,0,0,0, 0,0,0,0, 0,0,0,0])
    false (option_board_eq (by decide))

/-- C7: whenever the `step` entry point returns, both score lookups are
defined, the returned delta is the score difference, it never underflows
(score is monotone across the move), and a zero delta implies the merge
pass changed nothing. -/
theorem c7_score_delta {state : List Nat} {a : Nat} {rs : List (Fin 16)} {coin : Bool}
    {l' : List Nat} {r : Nat} {done : Bool}
    (h : step_2048_py state a rs coin = some (l', r, done)) :
    ∃ (act : Action) (os ns : Nat), decodeAction a = some act ∧
      score (boardOfList state) = some os ∧ score (boardOfList l') = some ns ∧
      os ≤ ns ∧ r = ns - os ∧
      (r = 0 → mergeOf act (slideOf act (boardOfList state)) =
        slideOf act (boardOfList state)) := by
  by_cases hlen : state.length = 16
  case neg =>
    exfalso
    simp only [step_2048_py, if_neg hlen] at h
    exact Option.noConfusion h
  cases hdec : decodeAction a with
  | none =>
    exfalso
    simp only [step_2048_py, if_pos hlen, hdec] at h
    exact Option.noConfusion h
  | some act =>
    rw [step_2048_py_eq hlen hdec rs coin] at h
    cases hadv : advance_state (boardOfList state) act rs coin with
    | none =>
      rw [hadv] at h
      exact Option.noConfusion h
    | some p =>
      obtain ⟨s', done'⟩ := p
      rw [hadv] at h
      have h2 : (match score s', score (boardOfList state) with
          | some ns, some os => some (cells s', ns - os, done')
          | _, _ => none) = some (l', r, done) := h
      cases hns : score s' with
      | none =>
        rw [hns] at h2
        exact Option.noConfusion h2
      | some ns =>
        cases hos : score (boardOfList state) with
        | none =>
          rw [hns, hos] at h2
          exact Option.noConfusion h2
        | some os =>
          rw [hns, hos] at h2
          have h3 := Option.some.inj h2
          have hl : cells s' = l' := congrArg (fun x => x.1) h3
          have hr : ns - os = r := congrArg (fun x => x.2.1) h3
          have hosT : os = scoreT (boardOfList state) := score_some_eq hos
          have hnsT : ns = scoreT s' := score_some_eq hns
          obtain ⟨hmono, hfix⟩ := score_mono_advance hadv
          refine ⟨act, os, ns, rfl, rfl, ?_, by omega, hr.symm, fun hr0 => ?_⟩
          · rw [← hl, boardOfList_cells]
            exact hns
          · exact hfix (by omega)

/-- Witness for C7 at a concrete merging step. -/
theorem c7_score_delta_witness :
    ∃ (act : Action) (os ns : Nat), decodeAction 1 = some act ∧
      score (boardOfList [1,1,0,0, 0,0,0,0, 0,0,0,0, 0,0,0,0]) = some os ∧
      score (boardOfList [2,0,1,0, 0,0,0,0, 0,0,0,0, 0,0,0,0]) = some ns ∧
      os ≤ ns ∧ 4 = ns - os ∧
      (4 = 0 → mergeOf act (slideOf act
          (boardOfList [1,1,0,0, 0,0,0,0, 0,0,0,0, 0,0,0,0])) =
        slideOf act (boardOfList [1,1,0,0, 0,0,0,0, 0,0,0,0, 0,0,0,0])) :=
  @c7_score_delta [1,1,0,0, 0,0,0,0, 0,0,0,0, 0,0,0,0] 1 [2] true
    [2,0,1,0, 0,0,0,0, 0,0,0,0, 0,0,0,0] 4 false (by decide)

/-- C8: whenever slide–merge–slide changed the board, the board handed to
`add_random_tile` has an empty cell, and the rejection-sampling loop
succeeds for every index stream that ever proposes an empty cell. -/
theorem c8_spawn_safe {s : Board} {act : Action}
    (hmove : cells (moveBoard s act) ≠ cells s) :
    (∃ i, moveBoard s act i = 0) ∧
    (∀ (rs : List (Fin 16)) (coin : Bool) (i0 : Fin 16), i0 ∈ rs →
      moveBoard s act i0 = 0 →
      ∃ b', add_random_tile (moveBoard s act) rs coin = some b') := by
  have hne : moveBoard s act ≠ s := fun he => hmove (by rw [he])
  have hempty : hasEmpty (moveBoard s act) := hasEmpty_moveBoard hne
  exact ⟨hempty, fun rs coin i0 hm h0 => add_random_tile_total rs _ i0 hm h0 coin⟩

/-- Witness for C8. -/
theorem c8_spawn_safe_witness :
    (∃ i, moveBoard (boardOfList [1,1,0,0, 0,0,0,0, 0,0,0,0, 0,0,0,0])
      Action.Left i = 0) ∧
    (∀ (rs : List (Fin 16)) (coin : Bool) (i0 : Fin 16), i0 ∈ rs →
      moveBoard (boardOfList [1,1,0,0, 0,0,0,0, 0,0,0,0, 0,0,0,0]) Action.Left i0 = 0 →
      ∃ b', add_random_tile (moveBoard (boardOfList [1,1,0,0, 0,0,0,0, 0,0,0,0,
        0,0,0,0]) Action.Left) rs coin = some b') :=
  c8_spawn_safe (by decide)

/-- C9: every cell of every reachable board is 0 or a positive exponent at
most 17, hence always a valid index into the 18-entry score table. -/
theorem c9_reachable_bounds {b : Board} (h : Reachable b) (i : Fin 16) :
    (b i = 0 ∨ (1 ≤ b i ∧ b i ≤ 17)) ∧ b i < SCORE_LOOKUP.length := by
  have h17 := reachable_le_17 h i
  have hlen : SCORE_LOOKUP.length = 18 := rfl
  omega

/-- Witness for C9 on a freshly created board. -/
theorem c9_reachable_bounds_witness :
    (boardOfList [1,1,0,0, 0,0,0,0, 0,0,0,0, 0,0,0,0] 0 = 0 ∨
      (1 ≤ boardOfList [1,1,0,0, 0,0,0,0, 0,0,0,0, 0,0,0,0] 0 ∧
        boardOfList [1,1,0,0, 0,0,0,0, 0,0,0,0, 0,0,0,0] 0 ≤ 17)) ∧
    boardOfList [1,1,0,0, 0,0,0,0, 0,0,0,0, 0,0,0,0] 0 < SCORE_LOOKUP.length :=
  c9_reachable_bounds
    (Reachable.base 0 [1] _ (option_board_eq1 (by decide))) 0

/-- C10: on a full board with no horizontally or vertically adjacent equal
pair, every action through the `step` entry point returns the board
unchanged with score delta 0 and `terminal = false`. -/
theorem c10_dead_board_noop {s : Board} {a : Nat} (ha : a ≤ 3)
    (hrange : ∀ i, s i ≤ 17) (hfull : ∀ i, s i ≠ 0)
    (hH : NoHAdj s) (hV : NoVAdj s) (rs : List (Fin 16)) (coin : Bool) :
    step_2048_py (cells s) a rs coin = some (cells s, 0, false) := by
  have hmv : ∀ act, cells (moveBoard s act) = cells s := fun act => by
    rw [moveBoard_of_terminal hfull hH hV act]
  interval_cases a
  · exact step_fix_noop hrange (hmv Action.Down) (by rfl) rs coin
  · exact step_fix_noop hrange (hmv Action.Left) (by rfl) rs coin
  · exact step_fix_noop hrange (hmv Action.Right) (by rfl) rs coin
  · exact step_fix_noop hrange (hmv Action.Up) (by rfl) rs coin

/-- Witness for C10 on a concrete dead board. -/
theorem c10_dead_board_noop_witness :
    step_2048_py (cells (boardOfList [1,2,1,2, 2,1,2,1, 1,2,1,2, 2,1,2,1])) 0 [0] true =
      some (cells (boardOfList [1,2,1,2, 2,1,2,1, 1,2,1,2, 2,1,2,1]), 0, false) :=
  c10_dead_board_noop (by decide) (by decide) (by decide) (by decide) (by decide) [0] true

end R2048
